import Mathlib

/-!
# Expensio: trip collaboration and settlement

A shallow embedding of the server routes of the repository
(`src/server/routes/acceptanceRoutes.js`, `src/server/routes/tripRoutes.js`,
`src/server/routes/expenseRoutes.js`) over the two Mongoose models
(`src/server/models/Trip.js`, `src/server/models/Expense.js`), and of the
amount that `src/server/services/imageProcessingService.js` reads from the
text of a receipt.

Every route handler is a function from the store before the request and the
request to the HTTP response and the store after the request.
-/

set_option linter.unusedVariables false

namespace Expensio

/-! ## JavaScript values -/

/-- A JavaScript number: NaN, the two infinities, or a finite value. -/
inductive JsNum where
  | nan
  | negInf
  | fin (q : ℚ)
  | posInf
deriving DecidableEq

/-- A JSON value of a request body, as far as the handlers look at it. -/
inductive JsVal where
  | undefined
  | null
  | bool (b : Bool)
  | num (x : JsNum)
  | str (s : String)
deriving DecidableEq

/-- The built-in string conversions of the JavaScript runtime. They are not
code of the repository, so the embedding takes them as parameters. -/
structure JsRuntime where
  /-- Reading of a string by `Number(s)`. -/
  stringToNumber : String → JsNum
  /-- Reading of a string by `Number.parseFloat(s)`. -/
  stringParseFloat : String → JsNum
  /-- The result of `s.trim()`, which Mongoose applies to `trim: true` paths. -/
  trim : String → String

/-- Truthiness of a number: every number but NaN and zero is truthy. -/
def JsNum.truthy : JsNum → Bool
  | .nan => false
  | .fin q => decide (q ≠ 0)
  | .negInf => true
  | .posInf => true

/-- Truthiness of a value, the test behind `!x` and `x || y`. -/
def JsVal.truthy : JsVal → Bool
  | .undefined => false
  | .null => false
  | .bool b => b
  | .num x => x.truthy
  | .str s => decide (s ≠ "")

/-- The conversion `Number(v)`. -/
def JsVal.toNumber (rt : JsRuntime) : JsVal → JsNum
  | .undefined => .nan
  | .null => .fin 0
  | .bool b => if b then .fin 1 else .fin 0
  | .num x => x
  | .str s => rt.stringToNumber s

/-- The conversion `Number.parseFloat(v)`: the value is first turned into a
string; of the non-string values only numbers give a numeric string. -/
def JsVal.parseFloat (rt : JsRuntime) : JsVal → JsNum
  | .num x => x
  | .str s => rt.stringParseFloat s
  | _ => .nan

/-- The test `isNaN(x)`. -/
def JsNum.isNaN : JsNum → Bool
  | .nan => true
  | _ => false

/-- The comparison `x < 0`. -/
def JsNum.ltZero : JsNum → Bool
  | .negInf => true
  | .fin q => decide (q < 0)
  | _ => false

/-- The comparison `0 ≤ x` of the specification (false for NaN). -/
def JsNum.nonneg : JsNum → Bool
  | .posInf => true
  | .fin q => decide (0 ≤ q)
  | _ => false

/-- The comparison `0 < x` of the specification (false for NaN). -/
def JsNum.pos : JsNum → Bool
  | .posInf => true
  | .fin q => decide (0 < q)
  | _ => false

/-- The expression `Number(v) || 0`. -/
def numberOrZero (rt : JsRuntime) (v : JsVal) : JsNum :=
  if (v.toNumber rt).truthy then v.toNumber rt else .fin 0

/-- A date field of a request body, by what the handlers and Mongoose make of
it: falsy (absent, null, empty), present but not a date, or an instant in
milliseconds. -/
inductive DateField where
  | absent
  | unparseable
  | at (ms : Int)
deriving DecidableEq

/-! ## Identifiers -/

/-- A MongoDB ObjectId, held as the text `toString()` gives for it. -/
abbrev ObjectId := String

/-- The pattern `[0-9a-fA-F]`. -/
def isHexChar (c : Char) : Bool :=
  (decide ('0' ≤ c) && decide (c ≤ '9')) ||
  (decide ('a' ≤ c) && decide (c ≤ 'f')) ||
  (decide ('A' ≤ c) && decide (c ≤ 'F'))

/-- The pattern `/^[0-9a-fA-F]{24}$/`. -/
def isHex24 (s : String) : Bool :=
  s.data.length == 24 && s.data.all isHexChar

/-- The library test `mongoose.Types.ObjectId.isValid` on a string, after the
current bson library: the strings of 24 hexadecimal characters pass (older
releases also took every string of 12 characters). -/
def objectIdIsValid (s : String) : Bool :=
  isHex24 s

/-- Mongoose casts an id given as text to an ObjectId, whose text is in lower
case; text that is not a valid ObjectId makes the query throw a CastError. -/
def castObjectId (s : String) : Option ObjectId :=
  if objectIdIsValid s then some (String.mk (s.data.map Char.toLower)) else none

/-- The helper `isValidObjectId` of `tripRoutes.js`: an empty id is refused,
any other must pass the library test and the 24 hexadecimal characters
pattern. -/
def isValidObjectId (id : String) : Bool :=
  if id = "" then false
  else objectIdIsValid id && isHex24 id

/-! ## The data model (`models/Trip.js`, `models/Expense.js`) -/

/-- The enum of the `status` path of a collaborator entry. -/
inductive Status where
  | pending
  | accepted
  | declined
deriving DecidableEq

/-- The text of a status, as stored and as put into messages. -/
def Status.text : Status → String
  | .pending => "pending"
  | .accepted => "accepted"
  | .declined => "declined"

/-- An entry of `tripSchema.collaborators`. Entries are only ever created by
the invite route, which always sets `user`. -/
structure Collaborator where
  user : ObjectId
  budgetContribution : JsNum
  status : Status
  hasPaid : Bool
  paymentDate : Option Int
deriving DecidableEq

/-- A document of `tripSchema`; `userId` is the owner. -/
structure Trip where
  _id : ObjectId
  destination : String
  purpose : String
  startDate : Int
  endDate : Int
  budget : JsNum
  notes : Option String
  userId : ObjectId
  collaborators : List Collaborator
  createdAt : Int
deriving DecidableEq

/-- A document of `expenseSchema`; `userId` is the payer, `forUserId` the
user who has to reimburse. -/
structure Expense where
  _id : ObjectId
  amount : JsNum
  category : String
  description : Option String
  date : Int
  userId : ObjectId
  tripId : ObjectId
  isCollaborationExpense : Bool
  forUserId : Option ObjectId
  isPaid : Bool
  paymentDate : Option Int
  createdAt : Int
deriving DecidableEq

/-- The fields of a user document that the routes read (`models/User.js` is
not part of the sources at hand). -/
structure User where
  _id : ObjectId
  username : String
  email : String
deriving DecidableEq

/-- The three collections. -/
structure Db where
  users : List User
  trips : List Trip
  expenses : List Expense
deriving DecidableEq

/-- The identity that the middleware `authenticateToken` puts on the request
as `req.user`. -/
structure ReqUser where
  id : String
  username : String
deriving DecidableEq

/-- The guard `!req.user || !req.user.id` that opens every handler. -/
def unauthenticated (user : Option ReqUser) : Bool :=
  match user with
  | none => true
  | some u => decide (u.id = "")

/-- The value of `req.user.id` once the guard has passed. -/
def reqUserId (user : Option ReqUser) : String :=
  match user with
  | none => ""
  | some u => u.id

/-- The value of `req.user.username` once the guard has passed. -/
def reqUsername (user : Option ReqUser) : String :=
  match user with
  | none => ""
  | some u => u.username

/-! ## Responses -/

/-- The collaborator object echoed by the invite route. -/
structure InvitedCollaborator where
  user : User
  budgetContribution : JsNum
  status : String
deriving DecidableEq

/-- The JSON payload of a response. -/
inductive Body where
  | error (msg : String)
  | message (msg : String)
  | trip (t : Trip)
  | populatedTrips (ts : List (Trip × Option User))
  | invited (msg : String) (collaborator : InvitedCollaborator)
  | responded (msg : String) (tripId : ObjectId) (status : String)
  | paid (msg : String) (collaborator : Collaborator)
  | expenseAdded (msg : String) (expense : Expense) (userEmail : String)
  | expense (e : Expense)
  | expensePaid (msg : String) (expense : Expense)
deriving DecidableEq

/-- An HTTP response: status code and payload. -/
structure Response where
  status : Nat
  body : Body
deriving DecidableEq

/-! ## Store access -/

/-- The query `Trip.findById(id)` on an id that Mongoose could cast. -/
def findTripById (trips : List Trip) (id : ObjectId) : Option Trip :=
  trips.find? (fun t => t._id == id)

/-- The query `Expense.findById(id)` on an id that Mongoose could cast. -/
def findExpenseById (expenses : List Expense) (id : ObjectId) : Option Expense :=
  expenses.find? (fun e => e._id == id)

/-- The query `User.findOne({ email })`. -/
def findUserByEmail (users : List User) (email : String) : Option User :=
  users.find? (fun u => u.email == email)

/-- The query `User.findById(id)`. -/
def findUserById (users : List User) (id : ObjectId) : Option User :=
  users.find? (fun u => u._id == id)

/-- The call `trip.save()` on a loaded trip: the stored document with the
same `_id` is replaced. -/
def saveTrip (trips : List Trip) (trip : Trip) : List Trip :=
  trips.map (fun t => if t._id = trip._id then trip else t)

/-- The call `expense.save()` on a loaded expense. -/
def saveExpense (expenses : List Expense) (expense : Expense) : List Expense :=
  expenses.map (fun e => if e._id = expense._id then expense else e)

/-- The array method `findIndex`, with `none` for the result `-1`. -/
def findIndex {α : Type} (p : α → Bool) : List α → Option Nat
  | [] => none
  | a :: as => if p a then some 0 else (findIndex p as).map (· + 1)

/-- Assignment to fields of the array element at an index. -/
def modifyAt {α : Type} (f : α → α) : Nat → List α → List α
  | _, [] => []
  | 0, a :: as => f a :: as
  | n + 1, a :: as => a :: modifyAt f n as

/-- The call `splice(index, 1)`. -/
def spliceOne {α : Type} : Nat → List α → List α
  | _, [] => []
  | 0, _ :: as => as
  | n + 1, a :: as => a :: spliceOne n as

/-- MongoDB matches a filter on two dotted paths into an array field when
some element satisfies the first condition and some element satisfies the
second; the two elements need not be the same. This is the filter
`{ "collaborators.user": uid, "collaborators.status": st }`. -/
def matchesUserAndStatus (uid : ObjectId) (st : Status) (t : Trip) : Bool :=
  t.collaborators.any (fun c => c.user == uid) &&
  t.collaborators.any (fun c => c.status == st)

/-- The call `.populate("userId", "username email")`: the owner reference is
resolved in the user collection, to null when the user is gone. -/
def populateOwner (users : List User) (t : Trip) : Trip × Option User :=
  (t, findUserById users t.userId)

/-! ## `routes/acceptanceRoutes.js` -/

/-- Handler `router.get("/requests")`: the pending invitations of the caller.
The constructor `new mongoose.Types.ObjectId(req.user.id)` throws on text
that is not an ObjectId, which the handler answers with 500. -/
def getRequests (db : Db) (user : Option ReqUser) : Response × Db :=
  if unauthenticated user then
    (⟨401, .error "Authentication failed. User ID not found."⟩, db)
  else
    match castObjectId (reqUserId user) with
    | none => (⟨500, .error "Failed to fetch collaboration requests"⟩, db)
    | some uid =>
      let pendingCollaborations :=
        (db.trips.filter (matchesUserAndStatus uid .pending)).map (populateOwner db.users)
      (⟨200, .populatedTrips pendingCollaborations⟩, db)

/-- The entry that the invite route pushes; `hasPaid` and `paymentDate` take
the defaults of the schema. -/
def invitation (rt : JsRuntime) (collaborator : User) (budgetContribution : JsVal) :
    Collaborator :=
  { user := collaborator._id
    budgetContribution := numberOrZero rt budgetContribution
    status := .pending
    hasPaid := false
    paymentDate := none }

/-- The collaborator object that the invite route echoes. -/
def invitationEcho (rt : JsRuntime) (collaborator : User) (budgetContribution : JsVal) :
    InvitedCollaborator :=
  { user := collaborator
    budgetContribution := numberOrZero rt budgetContribution
    status := "pending" }

/-- Handler `router.post("/:tripId/invite")`. -/
def invite (rt : JsRuntime) (db : Db) (user : Option ReqUser) (tripId : String)
    (email : String) (budgetContribution : JsVal) : Response × Db :=
  if unauthenticated user then
    (⟨401, .error "Authentication failed. User ID not found."⟩, db)
  else if !objectIdIsValid tripId then
    (⟨400, .error "Invalid trip ID format. The ID must be a valid MongoDB ObjectId."⟩, db)
  else
    match castObjectId tripId with
    | none => (⟨500, .error "Failed to send collaboration invitation"⟩, db)
    | some id =>
      match findTripById db.trips id with
      | none => (⟨404, .error "Trip not found"⟩, db)
      | some trip =>
        if trip.userId ≠ reqUserId user then
          (⟨403, .error "Only the trip owner can send collaboration invites"⟩, db)
        else
          match findUserByEmail db.users email with
          | none => (⟨404, .error "User not found with this email"⟩, db)
          | some collaborator =>
            if collaborator._id = reqUserId user then
              (⟨400, .error "You cannot collaborate with yourself"⟩, db)
            else
              match trip.collaborators.find? (fun collab => collab.user == collaborator._id) with
              | some existingCollaborator =>
                (⟨400, .error ("User is already a collaborator with status: " ++
                    existingCollaborator.status.text)⟩, db)
              | none =>
                let entry := invitation rt collaborator budgetContribution
                let saved : Trip := { trip with collaborators := trip.collaborators ++ [entry] }
                (⟨200, .invited "Collaboration invitation sent"
                    (invitationEcho rt collaborator budgetContribution)⟩,
                  { db with trips := saveTrip db.trips saved })

/-- The assignment `collaborator.status = status`. -/
def setStatus (status : Status) (c : Collaborator) : Collaborator :=
  { c with status := status }

/-- The assignments `collaborator.hasPaid = true` and
`collaborator.paymentDate = new Date()`. -/
def markPaid (now : Int) (c : Collaborator) : Collaborator :=
  { c with hasPaid := true, paymentDate := some now }

/-- The status value that the respond route stores once the request text has
passed its check. -/
def statusOfText (status : String) : Status :=
  if status = "accepted" then .accepted else .declined

/-- Handler `router.patch("/:tripId/respond")`. The trip id is not checked
before `Trip.findById`, so text that is not an ObjectId ends in the catch
block. -/
def respond (db : Db) (user : Option ReqUser) (tripId : String) (status : String) :
    Response × Db :=
  if unauthenticated user then
    (⟨401, .error "Authentication failed. User ID not found."⟩, db)
  else if status ≠ "accepted" ∧ status ≠ "declined" then
    (⟨400, .error "Invalid status. Must be \x27accepted\x27 or \x27declined\x27"⟩, db)
  else
    match castObjectId tripId with
    | none => (⟨500, .error "Failed to respond to collaboration request"⟩, db)
    | some id =>
      match findTripById db.trips id with
      | none => (⟨404, .error "Trip not found"⟩, db)
      | some trip =>
        match findIndex (fun collab => collab.user == reqUserId user) trip.collaborators with
        | none => (⟨404, .error "No collaboration request found for this user"⟩, db)
        | some collaboratorIndex =>
          let updated : List Collaborator :=
            modifyAt (setStatus (statusOfText status)) collaboratorIndex trip.collaborators
          let saved : Trip := { trip with collaborators := updated }
          (⟨200, .responded ("Collaboration request " ++ status) trip._id status⟩,
            { db with trips := saveTrip db.trips saved })

/-- Handler `router.delete("/:tripId/collaborator/:userId")`. -/
def removeCollaborator (db : Db) (user : Option ReqUser) (tripId : String)
    (userId : String) : Response × Db :=
  if unauthenticated user then
    (⟨401, .error "Authentication failed. User ID not found."⟩, db)
  else
    match castObjectId tripId with
    | none => (⟨500, .error "Failed to remove collaborator"⟩, db)
    | some id =>
      match findTripById db.trips id with
      | none => (⟨404, .error "Trip not found"⟩, db)
      | some trip =>
        if trip.userId ≠ reqUserId user then
          (⟨403, .error "Only the trip owner can remove collaborators"⟩, db)
        else
          match findIndex (fun collab => collab.user == userId) trip.collaborators with
          | none => (⟨404, .error "Collaborator not found"⟩, db)
          | some collaboratorIndex =>
            let saved : Trip :=
              { trip with collaborators := spliceOne collaboratorIndex trip.collaborators }
            (⟨200, .message "Collaborator removed successfully"⟩,
              { db with trips := saveTrip db.trips saved })

/-! ## `routes/tripRoutes.js` -/

/-- The instant of a date field that is a date. -/
def DateField.ms : DateField → Int
  | .at ms => ms
  | _ => 0

/-- Whether a date field is truthy. -/
def DateField.present : DateField → Bool
  | .absent => false
  | _ => true

/-- The test `isNaN(new Date(x).getTime())` on a truthy date field. -/
def DateField.invalid : DateField → Bool
  | .unparseable => true
  | _ => false

/-- The document `new Trip(...)` of the create route after Mongoose has cast
it: text is trimmed and the collaborator list is empty. -/
def newTrip (rt : JsRuntime) (owner : ObjectId) (destination purpose : String)
    (startDate endDate : DateField) (budgetValue : JsNum) (notes : Option String)
    (now : Int) (newId : ObjectId) : Trip :=
  { _id := newId
    destination := rt.trim destination
    purpose := rt.trim purpose
    startDate := startDate.ms
    endDate := endDate.ms
    budget := budgetValue
    notes := notes.map rt.trim
    userId := owner
    collaborators := []
    createdAt := now }

/-- Handler `router.post("/")` of the trip routes: create a trip. String
fields that are absent are given as the empty string, both being falsy.
Mongoose validates on `save()`: the trimmed `destination` and `purpose`
must be non-empty and `req.user.id` must cast to an ObjectId; a validation
error is answered with 400 by the catch block. `newId` is the `_id` that
Mongoose generates and `now` the clock. -/
def createTrip (rt : JsRuntime) (db : Db) (user : Option ReqUser)
    (destination purpose : String) (startDate endDate : DateField) (budget : JsVal)
    (notes : Option String) (now : Int) (newId : ObjectId) : Response × Db :=
  if unauthenticated user then
    (⟨401, .error "Authentication failed. User ID not found."⟩, db)
  else if destination = "" ∨ purpose = "" ∨ !startDate.present ∨ !endDate.present then
    (⟨400, .error "Missing required fields"⟩, db)
  else if startDate.invalid ∨ endDate.invalid then
    (⟨400, .error "Invalid date format"⟩, db)
  else if endDate.ms < startDate.ms then
    (⟨400, .error "End date cannot be before start date"⟩, db)
  else
    let budgetValue := budget.parseFloat rt
    if budgetValue.isNaN ∨ budgetValue.ltZero then
      (⟨400, .error "Invalid budget amount"⟩, db)
    else
      match castObjectId (reqUserId user) with
      | none => (⟨400, .error "Trip validation failed"⟩, db)
      | some owner =>
        if rt.trim destination = "" ∨ rt.trim purpose = "" then
          (⟨400, .error "Trip validation failed"⟩, db)
        else
          let trip := newTrip rt owner destination purpose startDate endDate budgetValue
            notes now newId
          (⟨201, .trip trip⟩, { db with trips := db.trips ++ [trip] })

/-- The assignments of the trip update route to the loaded trip: `budget`
when it is not `undefined`, every other field when it is truthy, `notes`
when it is not `undefined`. -/
def assignTripFields (rt : JsRuntime) (trip : Trip) (destination purpose : String)
    (startDate endDate : DateField) (budget : JsVal) (notes : Option String) : Trip :=
  { trip with
    budget := if budget ≠ .undefined then budget.parseFloat rt else trip.budget
    destination := if destination ≠ "" then rt.trim destination else trip.destination
    purpose := if purpose ≠ "" then rt.trim purpose else trip.purpose
    startDate := if startDate.present then startDate.ms else trip.startDate
    endDate := if endDate.present then endDate.ms else trip.endDate
    notes := match notes with
      | some n => some (rt.trim n)
      | none => trip.notes }

/-- Handler `router.put("/:id")` of the trip routes: update a trip. An absent
string field is the empty string, an absent `budget` is `undefined`, an
absent `notes` is `none`. A date that was not checked by the handler (only
one of the two was sent) and is not a date fails the Mongoose cast at
`save()`, as does a `destination` or `purpose` that trims to nothing. -/
def updateTrip (rt : JsRuntime) (db : Db) (user : Option ReqUser) (id : String)
    (destination purpose : String) (startDate endDate : DateField) (budget : JsVal)
    (notes : Option String) : Response × Db :=
  if unauthenticated user then
    (⟨401, .error "Authentication failed. User ID not found."⟩, db)
  else if !isValidObjectId id then
    (⟨400, .error "Invalid trip ID format"⟩, db)
  else
    match castObjectId id with
    | none => (⟨400, .error "Cast to ObjectId failed"⟩, db)
    | some oid =>
      match findTripById db.trips oid with
      | none => (⟨404, .error "Trip not found"⟩, db)
      | some trip =>
        if trip.userId ≠ reqUserId user then
          (⟨403, .error "Only the trip owner can update trip details"⟩, db)
        else if startDate.present ∧ endDate.present ∧ (startDate.invalid ∨ endDate.invalid) then
          (⟨400, .error "Invalid date format"⟩, db)
        else if startDate.present ∧ endDate.present ∧ endDate.ms < startDate.ms then
          (⟨400, .error "End date cannot be before start date"⟩, db)
        else if budget ≠ .undefined ∧ ((budget.parseFloat rt).isNaN ∨ (budget.parseFloat rt).ltZero) then
          (⟨400, .error "Invalid budget amount"⟩, db)
        else if startDate.invalid ∨ endDate.invalid then
          (⟨400, .error "Trip validation failed"⟩, db)
        else if (destination ≠ "" ∧ rt.trim destination = "") ∨
            (purpose ≠ "" ∧ rt.trim purpose = "") then
          (⟨400, .error "Trip validation failed"⟩, db)
        else
          let saved := assignTripFields rt trip destination purpose startDate endDate budget notes
          (⟨200, .trip saved⟩, { db with trips := saveTrip db.trips saved })

/-- Handler `router.delete("/:id")` of the trip routes: delete a trip and the
expenses that reference it. -/
def deleteTrip (db : Db) (user : Option ReqUser) (id : String) : Response × Db :=
  if unauthenticated user then
    (⟨401, .error "Authentication failed. User ID not found."⟩, db)
  else if !isValidObjectId id then
    (⟨400, .error "Invalid trip ID format"⟩, db)
  else
    match castObjectId id with
    | none => (⟨500, .error "Cast to ObjectId failed"⟩, db)
    | some oid =>
      match findTripById db.trips oid with
      | none => (⟨404, .error "Trip not found"⟩, db)
      | some trip =>
        if trip.userId ≠ reqUserId user then
          (⟨403, .error "Only the trip owner can delete this trip"⟩, db)
        else
          (⟨200, .message "Trip deleted successfully"⟩,
            { db with
              expenses := db.expenses.filter (fun e => e.tripId != oid)
              trips := db.trips.filter (fun t => t._id != oid) })

/-- The value read off the end of the collaborator array; the handlers only
read at an index that `findIndex` returned. -/
def offTheEnd : Collaborator :=
  { user := "", budgetContribution := .nan, status := .pending, hasPaid := false,
    paymentDate := none }

/-- The document `new Expense(...)` of the payment route: no `forUserId` is
given, so it takes the default null. -/
def paymentExpense (rt : JsRuntime) (user : Option ReqUser) (tripId : ObjectId)
    (amount : JsNum) (now : Int) (newId : ObjectId) : Expense :=
  { _id := newId
    amount := amount
    category := "Collaboration Payment"
    description := some (rt.trim ("Contribution payment from " ++
      (if reqUsername user ≠ "" then reqUsername user else "collaborator")))
    date := now
    userId := reqUserId user
    tripId := tripId
    isCollaborationExpense := true
    forUserId := none
    isPaid := true
    paymentDate := some now
    createdAt := now }

/-- Handler `router.post("/acceptance/:id/pay-contribution")`: the caller pays
the pledged contribution. `newId` is the `_id` of the created expense and
`now` the clock. The expense is saved first, then the trip. -/
def payContribution (rt : JsRuntime) (db : Db) (user : Option ReqUser) (id : String)
    (now : Int) (newId : ObjectId) : Response × Db :=
  if unauthenticated user then
    (⟨401, .error "Authentication failed. User ID not found."⟩, db)
  else if !isValidObjectId id then
    (⟨400, .error "Invalid trip ID format"⟩, db)
  else
    match castObjectId id with
    | none => (⟨500, .error "Cast to ObjectId failed"⟩, db)
    | some oid =>
      match findTripById db.trips oid with
      | none => (⟨404, .error "Trip not found"⟩, db)
      | some trip =>
        match findIndex (fun collab => collab.user == reqUserId user && collab.status == .accepted)
            trip.collaborators with
        | none => (⟨403, .error "You are not an accepted collaborator on this trip"⟩, db)
        | some collaboratorIndex =>
          let updated : List Collaborator :=
            modifyAt (markPaid now) collaboratorIndex trip.collaborators
          let saved : Trip := { trip with collaborators := updated }
          let expense := paymentExpense rt user oid
            (updated.getD collaboratorIndex offTheEnd).budgetContribution now newId
          (⟨200, .paid "Payment recorded successfully"
              (updated.getD collaboratorIndex offTheEnd)⟩,
            { db with
              expenses := db.expenses ++ [expense]
              trips := saveTrip db.trips saved })

/-- The category that the collaboration expense route stores. -/
def storedCategory (rt : JsRuntime) (category : String) : String :=
  if category ≠ "" then rt.trim category else "Collaboration Expense"

/-- The document `new Expense(...)` of the collaboration expense route. -/
def collaborationExpense (rt : JsRuntime) (user : Option ReqUser) (tripId : ObjectId)
    (trip : Trip) (amount : JsVal) (description : String) (category : String)
    (date : DateField) (now : Int) (newId : ObjectId) : Expense :=
  { _id := newId
    amount := amount.toNumber rt
    category := storedCategory rt category
    description := some (rt.trim description)
    date := if date.present then date.ms else now
    userId := reqUserId user
    tripId := tripId
    isCollaborationExpense := true
    forUserId := some trip.userId
    isPaid := false
    paymentDate := none
    createdAt := now }

/-- The expression `user?.email || "Unknown"`. -/
def emailOrUnknown (userDoc : Option User) : String :=
  match userDoc with
  | some u => if u.email ≠ "" then u.email else "Unknown"
  | none => "Unknown"

/-- Handler `router.post("/expenses/collaboration")`: an accepted collaborator
records an expense that the owner has to reimburse. An absent `tripId`,
`description` or `category` is the empty string. Mongoose validates on
`save()`: `Number(amount)` must not be NaN, the trimmed category must be
non-empty and the date must be a date; a validation error is answered with
400 by the catch block. The field `forUserId` of the body is read and not
used. -/
def recordCollaborationExpense (rt : JsRuntime) (db : Db) (user : Option ReqUser)
    (tripId : String) (amount : JsVal) (description : String) (category : String)
    (date : DateField) (forUserId : JsVal) (now : Int) (newId : ObjectId) :
    Response × Db :=
  if unauthenticated user then
    (⟨401, .error "Authentication failed. User ID not found."⟩, db)
  else if tripId = "" ∨ !amount.truthy ∨ description = "" then
    (⟨400, .error "Missing required fields"⟩, db)
  else if !isValidObjectId tripId then
    (⟨400, .error "Invalid trip ID format"⟩, db)
  else
    match castObjectId tripId with
    | none => (⟨400, .error "Cast to ObjectId failed"⟩, db)
    | some oid =>
      match findTripById db.trips oid with
      | none => (⟨404, .error "Trip not found"⟩, db)
      | some trip =>
        let isCollaborator := trip.collaborators.any
          (fun collab => collab.user == reqUserId user && collab.status == .accepted)
        if !isCollaborator then
          (⟨403, .error "You are not an accepted collaborator on this trip"⟩, db)
        else
          let userDoc := findUserById db.users (reqUserId user)
          if (amount.toNumber rt).isNaN ∨ storedCategory rt category = "" ∨ date.invalid then
            (⟨400, .error "Expense validation failed"⟩, db)
          else
            let expense := collaborationExpense rt user oid trip amount description category
              date now newId
            (⟨201, .expenseAdded "Expense added successfully" expense (emailOrUnknown userDoc)⟩,
              { db with expenses := db.expenses ++ [expense] })

/-- The assignments `expense.isPaid = true` and
`expense.paymentDate = new Date()`. -/
def markExpensePaid (now : Int) (expense : Expense) : Expense :=
  { expense with isPaid := true, paymentDate := some now }

/-- Handler `router.post("/expenses/pay-collaboration/:expenseId")`: the user
who has to reimburse marks the expense as paid. Reading
`expense.forUserId.toString()` on an expense without `forUserId` throws,
which the catch block answers with 500. -/
def settleReimbursement (db : Db) (user : Option ReqUser) (expenseId : String)
    (now : Int) : Response × Db :=
  if unauthenticated user then
    (⟨401, .error "Authentication failed. User ID not found."⟩, db)
  else if !isValidObjectId expenseId then
    (⟨400, .error "Invalid expense ID format"⟩, db)
  else
    match castObjectId expenseId with
    | none => (⟨500, .error "Cast to ObjectId failed"⟩, db)
    | some oid =>
      match findExpenseById db.expenses oid with
      | none => (⟨404, .error "Expense not found"⟩, db)
      | some expense =>
        match expense.forUserId with
        | none => (⟨500, .error "Cannot read properties of null (reading \x27toString\x27)"⟩, db)
        | some forUser =>
          if forUser ≠ reqUserId user then
            (⟨403, .error "You are not authorized to pay this expense"⟩, db)
          else
            let saved := markExpensePaid now expense
            (⟨200, .expensePaid "Expense marked as paid successfully" saved⟩,
              { db with expenses := saveExpense db.expenses saved })

/-! ## `routes/expenseRoutes.js`

These routes are mounted behind `authenticateToken`, so `req.user` is set. -/

/-- Mongoose casts a value for a `Number` path: null, undefined and the empty
string give no value, a string or boolean goes through `Number`, and NaN is
refused. `none` stands for both the missing and the refused value, either
of which fails a required path. -/
def castNumber (rt : JsRuntime) : JsVal → Option JsNum
  | .undefined => none
  | .null => none
  | .bool b => some (if b then .fin 1 else .fin 0)
  | .num x => if x.isNaN then none else some x
  | .str s =>
    if s = "" then none
    else if (rt.stringToNumber s).isNaN then none
    else some (rt.stringToNumber s)

/-- The document `new Expense(...)` of the plain create route; the
collaboration fields take the defaults of the schema. -/
def plainExpense (rt : JsRuntime) (payer trip : ObjectId) (amount : JsNum)
    (category : String) (description : Option String) (date : DateField) (now : Int)
    (newId : ObjectId) : Expense :=
  { _id := newId
    amount := amount
    category := rt.trim category
    description := description.map rt.trim
    date := if date.present then date.ms else now
    userId := payer
    tripId := trip
    isCollaborationExpense := false
    forUserId := none
    isPaid := false
    paymentDate := none
    createdAt := now }

/-- Handler `router.post("/")` of the expense routes: create a plain expense.
Mongoose validates on `save()`: `amount`, `category`, `userId` and `tripId`
are required. -/
def createExpense (rt : JsRuntime) (db : Db) (user : ReqUser) (amount : JsVal)
    (category : String) (description : Option String) (date : DateField)
    (tripId : String) (now : Int) (newId : ObjectId) : Response × Db :=
  match castNumber rt amount, castObjectId user.id, castObjectId tripId with
  | some storedAmount, some payer, some trip =>
    if rt.trim category = "" ∨ date.invalid then
      (⟨400, .error "Expense validation failed"⟩, db)
    else
      let expense := plainExpense rt payer trip storedAmount category description date now
        newId
      (⟨201, .expense expense⟩, { db with expenses := db.expenses ++ [expense] })
  | _, _, _ => (⟨400, .error "Expense validation failed"⟩, db)

/-- The update document `{ amount, category, description, date, tripId }` of
the plain update route as Mongoose applies it: the new value of each path
that is set, after casting. -/
structure ExpenseUpdate where
  amount : Option JsNum
  category : Option String
  description : Option (Option String)
  date : Option Int
  tripId : Option ObjectId
deriving DecidableEq

/-- The effect of the update document on one expense. -/
def ExpenseUpdate.apply (u : ExpenseUpdate) (e : Expense) : Expense :=
  { e with
    amount := u.amount.getD e.amount
    category := u.category.getD e.category
    description := u.description.getD e.description
    date := u.date.getD e.date
    tripId := u.tripId.getD e.tripId }

/-- Handler `router.put("/:id")` of the expense routes:
`Expense.findOneAndUpdate({ _id, userId: req.user.id }, update)`. -/
def updateExpense (db : Db) (user : ReqUser) (id : String) (update : ExpenseUpdate) :
    Response × Db :=
  match castObjectId id, castObjectId user.id with
  | some oid, some payer =>
    match db.expenses.find? (fun e => e._id == oid && e.userId == payer) with
    | none => (⟨404, .error "Expense not found"⟩, db)
    | some expense =>
      (⟨200, .expense (update.apply expense)⟩,
        { db with expenses := saveExpense db.expenses (update.apply expense) })
  | _, _ => (⟨400, .error "Cast to ObjectId failed"⟩, db)

/-- Remove the first element that satisfies a test, as `findOneAndDelete`
removes the first matching document. -/
def removeFirst {α : Type} (p : α → Bool) : List α → List α
  | [] => []
  | a :: as => if p a then as else a :: removeFirst p as

/-- Handler `router.delete("/:id")` of the expense routes:
`Expense.findOneAndDelete({ _id, userId: req.user.id })`. -/
def deleteExpense (db : Db) (user : ReqUser) (id : String) : Response × Db :=
  match castObjectId id, castObjectId user.id with
  | some oid, some payer =>
    match db.expenses.find? (fun e => e._id == oid && e.userId == payer) with
    | none => (⟨404, .error "Expense not found"⟩, db)
    | some _ =>
      (⟨200, .message "Expense deleted successfully"⟩,
        { db with expenses :=
            removeFirst (fun e => e._id == oid && e.userId == payer) db.expenses })
  | _, _ => (⟨500, .error "Cast to ObjectId failed"⟩, db)

/-! ## Requests and reachable stores -/

/-- A request that can change the store. The routes of `authRoutes.js`,
`userRoutes.js` and `settingsRoutes.js` touch the user collection only and
are summed up as `setUsers`. -/
inductive Op where
  | setUsers (users : List User)
  | createTrip (user : Option ReqUser) (destination purpose : String)
      (startDate endDate : DateField) (budget : JsVal) (notes : Option String)
      (now : Int) (newId : ObjectId)
  | updateTrip (user : Option ReqUser) (id : String) (destination purpose : String)
      (startDate endDate : DateField) (budget : JsVal) (notes : Option String)
  | deleteTrip (user : Option ReqUser) (id : String)
  | invite (user : Option ReqUser) (tripId : String) (email : String)
      (budgetContribution : JsVal)
  | respond (user : Option ReqUser) (tripId : String) (status : String)
  | removeCollaborator (user : Option ReqUser) (tripId : String) (userId : String)
  | payContribution (user : Option ReqUser) (id : String) (now : Int) (newId : ObjectId)
  | recordCollaborationExpense (user : Option ReqUser) (tripId : String) (amount : JsVal)
      (description : String) (category : String) (date : DateField) (forUserId : JsVal)
      (now : Int) (newId : ObjectId)
  | settleReimbursement (user : Option ReqUser) (expenseId : String) (now : Int)
  | createExpense (user : ReqUser) (amount : JsVal) (category : String)
      (description : Option String) (date : DateField) (tripId : String) (now : Int)
      (newId : ObjectId)
  | updateExpense (user : ReqUser) (id : String) (update : ExpenseUpdate)
  | deleteExpense (user : ReqUser) (id : String)

/-- The response to a request and the store after it. -/
def exec (rt : JsRuntime) (db : Db) : Op → Response × Db
  | .setUsers users => (⟨200, .message "ok"⟩, { db with users := users })
  | .createTrip user destination purpose startDate endDate budget notes now newId =>
    createTrip rt db user destination purpose startDate endDate budget notes now newId
  | .updateTrip user id destination purpose startDate endDate budget notes =>
    updateTrip rt db user id destination purpose startDate endDate budget notes
  | .deleteTrip user id => deleteTrip db user id
  | .invite user tripId email budgetContribution =>
    invite rt db user tripId email budgetContribution
  | .respond user tripId status => respond db user tripId status
  | .removeCollaborator user tripId userId => removeCollaborator db user tripId userId
  | .payContribution user id now newId => payContribution rt db user id now newId
  | .recordCollaborationExpense user tripId amount description category date forUserId
      now newId =>
    recordCollaborationExpense rt db user tripId amount description category date
      forUserId now newId
  | .settleReimbursement user expenseId now => settleReimbursement db user expenseId now
  | .createExpense user amount category description date tripId now newId =>
    createExpense rt db user amount category description date tripId now newId
  | .updateExpense user id update => updateExpense db user id update
  | .deleteExpense user id => deleteExpense db user id

/-- The value of `req.user.id` of a request, empty when there is none. -/
def Op.userId : Op → String
  | .setUsers _ => ""
  | .createTrip user .. => reqUserId user
  | .updateTrip user .. => reqUserId user
  | .deleteTrip user .. => reqUserId user
  | .invite user .. => reqUserId user
  | .respond user .. => reqUserId user
  | .removeCollaborator user .. => reqUserId user
  | .payContribution user .. => reqUserId user
  | .recordCollaborationExpense user .. => reqUserId user
  | .settleReimbursement user .. => reqUserId user
  | .createExpense user .. => user.id
  | .updateExpense user .. => user.id
  | .deleteExpense user .. => user.id

/-- The `_id` that Mongoose generates for a new document is an ObjectId in its
own text form that no stored document of the collection has. -/
def Op.freshIds (db : Db) : Op → Bool
  | .createTrip _ _ _ _ _ _ _ _ newId =>
    decide (castObjectId newId = some newId) && !(db.trips.map (·._id)).contains newId
  | .payContribution _ _ _ newId =>
    decide (castObjectId newId = some newId) && !(db.expenses.map (·._id)).contains newId
  | .recordCollaborationExpense _ _ _ _ _ _ _ _ newId =>
    decide (castObjectId newId = some newId) && !(db.expenses.map (·._id)).contains newId
  | .createExpense _ _ _ _ _ _ _ newId =>
    decide (castObjectId newId = some newId) && !(db.expenses.map (·._id)).contains newId
  | _ => true

/-- The stores that the routes can produce: they start without trips and
expenses, and every request is answered on the store the previous one left. -/
inductive Reachable (rt : JsRuntime) : Db → Prop where
  | init (users : List User) : Reachable rt ⟨users, [], []⟩
  | step (db : Db) (op : Op) :
      Reachable rt db → op.freshIds db = true → Reachable rt (exec rt db op).2

/-- The store after a sequence of requests. -/
def run (rt : JsRuntime) (db : Db) : List Op → Db
  | [] => db
  | op :: ops => run rt (exec rt db op).2 ops

/-- Whether every request of a sequence comes with fresh ids. -/
def runFresh (rt : JsRuntime) (db : Db) : List Op → Bool
  | [] => true
  | op :: ops => op.freshIds db && runFresh rt (exec rt db op).2 ops

/-- What one request by `actor` can make of a stored trip: nothing, an update
of its own fields or an invitation or removal by the owner, a response of
`actor` to an invitation, or a payment by `actor` as accepted collaborator. -/
inductive TripStep (actor : String) (t : Trip) : Trip → Prop where
  | same : TripStep actor t t
  | updated (t' : Trip) :
      actor = t.userId → t'._id = t._id → t'.userId = t.userId →
      t'.collaborators = t.collaborators → TripStep actor t t'
  | invited (u : ObjectId) (b : JsNum) :
      actor = t.userId → u ≠ t.userId → (∀ c ∈ t.collaborators, c.user ≠ u) →
      TripStep actor t
        { t with collaborators := t.collaborators ++ [⟨u, b, .pending, false, none⟩] }
  | responded (i : Nat) (st : Status) :
      st ≠ .pending → findIndex (fun c => c.user == actor) t.collaborators = some i →
      TripStep actor t
        { t with collaborators := modifyAt (setStatus st) i t.collaborators }
  | removed (i : Nat) :
      actor = t.userId →
      TripStep actor t { t with collaborators := spliceOne i t.collaborators }
  | paid (i : Nat) (now : Int) :
      findIndex (fun c => c.user == actor && c.status == .accepted) t.collaborators = some i →
      TripStep actor t
        { t with collaborators := modifyAt (markPaid now) i t.collaborators }

/-- What one request by `actor` can make of the trip collection. -/
inductive TripsStep (actor : String) (trips : List Trip) : List Trip → Prop where
  | same : TripsStep actor trips trips
  | created (t : Trip) :
      t.collaborators = [] → t._id ∉ trips.map (·._id) → TripsStep actor trips (trips ++ [t])
  | saved (oid : ObjectId) (trip saved : Trip) :
      findTripById trips oid = some trip → TripStep actor trip saved →
      TripsStep actor trips (saveTrip trips saved)
  | deleted (oid : ObjectId) (trip : Trip) :
      findTripById trips oid = some trip → actor = trip.userId →
      TripsStep actor trips (trips.filter (fun t => t._id != oid))

/-- Where an expense of the store after a request comes from: it was there
before, or it is new and either plain, without `forUserId`, or billed to the
owner of a trip by one of its accepted collaborators, or it is a stored
expense whose payer and collaboration fields the request kept. -/
def ExpenseOrigin (db : Db) (e' : Expense) : Prop :=
  e' ∈ db.expenses ∨ e'.isCollaborationExpense = false ∨ e'.forUserId = none ∨
  (∃ trip ∈ db.trips, e'.forUserId = some trip.userId ∧
    ∃ c ∈ trip.collaborators, c.user = e'.userId) ∨
  (∃ e ∈ db.expenses, e'.isCollaborationExpense = e.isCollaborationExpense ∧
    e'.forUserId = e.forUserId ∧ e'.userId = e.userId)

/-- The part of a trip that the specification reserves to its owner: the id,
the descriptive fields, the owner, and the sequence of collaborator user
references with their budget contributions. -/
def ownerPart (t : Trip) :
    ObjectId × String × String × Int × Int × JsNum × ObjectId × List (ObjectId × JsNum) :=
  (t._id, t.destination, t.purpose, t.startDate, t.endDate, t.budget, t.userId,
    t.collaborators.map (fun c => (c.user, c.budgetContribution)))

/-! ## Example data -/

/-- A runtime for the examples, whose requests carry numbers as JSON numbers
and text without surrounding white space. -/
def exampleRuntime : JsRuntime :=
  { stringToNumber := fun _ => .nan
    stringParseFloat := fun _ => .nan
    trim := fun s => s }

/-- The owner of the example trip. -/
def olga : User := ⟨"0000000000000000000000a1", "olga", "olga@example.com"⟩

/-- A user who gets invited. -/
def carl : User := ⟨"0000000000000000000000a2", "carl", "carl@example.com"⟩

/-- Another user who gets invited. -/
def dora : User := ⟨"0000000000000000000000a3", "dora", "dora@example.com"⟩

/-- The identity of Olga on a request. -/
def asOlga : Option ReqUser := some ⟨"0000000000000000000000a1", "olga"⟩

/-- The identity of Carl on a request. -/
def asCarl : Option ReqUser := some ⟨"0000000000000000000000a2", "carl"⟩

/-- The identity of Dora on a request. -/
def asDora : Option ReqUser := some ⟨"0000000000000000000000a3", "dora"⟩

/-- The id of the example trip. -/
def tripT : ObjectId := "0000000000000000000000b1"

/-- The id of the first example expense. -/
def expenseE1 : ObjectId := "0000000000000000000000c1"

/-- The id of the second example expense. -/
def expenseE2 : ObjectId := "0000000000000000000000c2"

/-- The store without trips and expenses. -/
def db0 : Db := ⟨[olga, carl, dora], [], []⟩

/-- Olga creates the trip. -/
def opsCreated : List Op :=
  [ .createTrip asOlga "Lisbon" "holiday" (.at 1000) (.at 2000) (.num (.fin 1000)) none 10
      tripT ]

/-- Olga creates the trip and invites Carl for 200. -/
def opsPending : List Op :=
  opsCreated ++ [ .invite asOlga tripT "carl@example.com" (.num (.fin 200)) ]

/-- Olga creates the trip and invites Carl for 200, Carl accepts. -/
def opsAccepted : List Op :=
  opsPending ++ [ .respond asCarl tripT "accepted" ]

/-- After Carl has accepted he pays his contribution at time 50. -/
def opsPaid : List Op :=
  opsAccepted ++ [ .payContribution asCarl tripT 50 expenseE1 ]

/-- After Carl has accepted, Olga invites Dora for 100. -/
def opsMixed : List Op :=
  opsAccepted ++ [ .invite asOlga tripT "dora@example.com" (.num (.fin 100)) ]

/-- The store after `opsCreated`. -/
def dbCreated : Db := run exampleRuntime db0 opsCreated

/-- The store after `opsPending`. -/
def dbPending : Db := run exampleRuntime db0 opsPending

/-- The store after `opsAccepted`. -/
def dbAccepted : Db := run exampleRuntime db0 opsAccepted

/-- The store after `opsPaid`. -/
def dbPaid : Db := run exampleRuntime db0 opsPaid

/-- The store after `opsMixed`. -/
def dbMixed : Db := run exampleRuntime db0 opsMixed

/-- The example trip as stored once Carl has accepted. -/
def tripAccepted : Trip :=
  { _id := tripT, destination := "Lisbon", purpose := "holiday", startDate := 1000,
    endDate := 2000, budget := .fin 1000, notes := none, userId := olga._id,
    collaborators := [⟨carl._id, .fin 200, .accepted, false, none⟩], createdAt := 10 }

/-- The example trip as stored while Carl has not answered. -/
def tripPending : Trip :=
  { tripAccepted with collaborators := [⟨carl._id, .fin 200, .pending, false, none⟩] }

/-- The example trip as stored once Carl has paid at time 50. -/
def tripPaid : Trip :=
  { tripAccepted with collaborators := [⟨carl._id, .fin 200, .accepted, true, some 50⟩] }

/-- The example trip as stored with Carl accepted and Dora not yet answered. -/
def tripMixed : Trip :=
  { tripAccepted with collaborators :=
      [⟨carl._id, .fin 200, .accepted, false, none⟩,
       ⟨dora._id, .fin 100, .pending, false, none⟩] }

/-! ## What one request can make of the expenses -/

/-- What one request can make of the expense collection: nothing, one new
expense under a fresh id, the paid mark of the settlement route on a stored
expense, the update document of the plain update route on an expense of the
caller, the removal of the expenses of a deleted trip, or the removal of
one expense of the caller by the plain delete route. -/
inductive ExpensesStep (op : Op) (es : List Expense) : List Expense → Prop where
  | same : ExpensesStep op es es
  | added (e : Expense) : e._id ∉ es.map (·._id) → ExpensesStep op es (es ++ [e])
  | settled (user : Option ReqUser) (expenseId : String) (now : Int) (oid : ObjectId)
      (e : Expense) :
      op = .settleReimbursement user expenseId now → findExpenseById es oid = some e →
      e.forUserId = some (reqUserId user) →
      ExpensesStep op es (saveExpense es (markExpensePaid now e))
  | updated (user : ReqUser) (id : String) (update : ExpenseUpdate) (oid payer : ObjectId)
      (e : Expense) :
      op = .updateExpense user id update → castObjectId user.id = some payer →
      es.find? (fun x => x._id == oid && x.userId == payer) = some e →
      ExpensesStep op es (saveExpense es (update.apply e))
  | tripDeleted (user : Option ReqUser) (id : String) (oid : ObjectId) :
      op = .deleteTrip user id → castObjectId id = some oid →
      ExpensesStep op es (es.filter (fun e => e.tripId != oid))
  | deleted (user : ReqUser) (id : String) (oid payer : ObjectId) :
      op = .deleteExpense user id → castObjectId id = some oid →
      castObjectId user.id = some payer →
      ExpensesStep op es (removeFirst (fun e => e._id == oid && e.userId == payer) es)

/-! ## More example data -/

/-- After Carl has accepted he records a taxi fare of 45 at time 70. -/
def opsRecorded : List Op :=
  opsAccepted ++ [ .recordCollaborationExpense asCarl tripT (.num (.fin 45)) "taxi"
    "Transportation" .absent .undefined 70 expenseE1 ]

/-- The store after `opsRecorded`. -/
def dbRecorded : Db := run exampleRuntime db0 opsRecorded

/-- The taxi fare that Carl recorded. -/
def taxiExpense : Expense :=
  { _id := expenseE1, amount := .fin 45, category := "Transportation",
    description := some "taxi", date := 70, userId := carl._id, tripId := tripT,
    isCollaborationExpense := true, forUserId := some olga._id, isPaid := false,
    paymentDate := none, createdAt := 70 }

/-- The identity of Carl on a request to the plain expense routes. -/
def carlUser : ReqUser := ⟨"0000000000000000000000a2", "carl"⟩

/-- The update document of a request that sends the amount 999 and the other
four fields with the values that the taxi fare has. -/
def amountTo999 : ExpenseUpdate :=
  { amount := some (.fin 999), category := some "Transportation",
    description := some (some "taxi"), date := some 70, tripId := some tripT }

/-! ## Routes that only read -/

/-- The call `.populate("collaborators.user", "username email")` on one entry:
the stored entry together with the user document that its `user` reference
resolves to, null when the user is gone. In the JSON answer the document
takes the place of the reference. -/
def populateCollaborator (users : List User) (c : Collaborator) : Collaborator × Option User :=
  (c, findUserById users c.user)

/-- The test `collab.user && collab.user._id.toString() === req.user.id &&
collab.status === "accepted"` on a populated entry. -/
def isAcceptedEntryOf (userId : String) (pc : Collaborator × Option User) : Bool :=
  match pc.2 with
  | none => false
  | some u => u._id == userId && pc.1.status == .accepted

/-- Handler `router.get("/:tripId/collaborators")` of the acceptance routes:
the collaborator list of a trip, for its owner and its accepted
collaborators. The value `.ok l` is the answer 200 with the array `l`. -/
def listCollaborators (db : Db) (user : Option ReqUser) (tripId : String) :
    Except Response (List (Collaborator × Option User)) :=
  if unauthenticated user then
    .error ⟨401, .error "Authentication failed. User ID not found."⟩
  else if !objectIdIsValid tripId then
    .error ⟨400, .error "Invalid trip ID format. The ID must be a valid MongoDB ObjectId."⟩
  else
    match castObjectId tripId with
    | none => .error ⟨500, .error "Failed to fetch collaborators"⟩
    | some oid =>
      match findTripById db.trips oid with
      | none => .error ⟨404, .error "Trip not found"⟩
      | some trip =>
        let populated := trip.collaborators.map (populateCollaborator db.users)
        let isOwner := trip.userId == reqUserId user
        let isCollaborator := populated.any (isAcceptedEntryOf (reqUserId user))
        if !isOwner && !isCollaborator then
          .error ⟨403, .error "You don\x27t have permission to view this trip\x27s collaborators"⟩
        else
          .ok populated

/-- An element of the answer of the pending reimbursements route: the expense,
the user document that `.populate("userId", "email username")` puts in the
place of the payer reference, and the two added fields. -/
structure PendingExpense where
  expense : Expense
  payer : Option User
  userEmail : String
  username : String
deriving DecidableEq

/-- The expression `x || "Unknown"` on an optional text. -/
def orUnknown (x : Option String) : String :=
  match x with
  | some s => if s ≠ "" then s else "Unknown"
  | none => "Unknown"

/-- The mapping of the pending reimbursements route over the found expenses. -/
def formatPendingExpense (users : List User) (e : Expense) : PendingExpense :=
  { expense := e
    payer := findUserById users e.userId
    userEmail := orUnknown ((findUserById users e.userId).map (·.email))
    username := orUnknown ((findUserById users e.userId).map (·.username)) }

/-- The filter `{ tripId, forUserId: req.user.id, isCollaborationExpense: true,
isPaid: false }` of the pending reimbursements route. It is reached only
after the owner check, where `req.user.id` is the text of a stored ObjectId,
so the cast of `forUserId` gives that text back. -/
def isPendingReimbursement (tripId : ObjectId) (userId : String) (e : Expense) : Bool :=
  e.tripId == tripId && e.forUserId == some userId && e.isCollaborationExpense == true &&
    e.isPaid == false

/-- Handler `router.get("/expenses/pending-collaboration/:tripId")`: the unpaid
collaboration expenses that the owner of a trip has to reimburse. The value
`.ok l` is the answer 200 with the array `l`. -/
def listPendingReimbursements (db : Db) (user : Option ReqUser) (tripId : String) :
    Except Response (List PendingExpense) :=
  if unauthenticated user then
    .error ⟨401, .error "Authentication failed. User ID not found."⟩
  else if !isValidObjectId tripId then
    .error ⟨400, .error "Invalid trip ID format"⟩
  else
    match castObjectId tripId with
    | none => .error ⟨500, .error "Cast to ObjectId failed"⟩
    | some oid =>
      match findTripById db.trips oid with
      | none => .error ⟨404, .error "Trip not found"⟩
      | some trip =>
        if trip.userId ≠ reqUserId user then
          .error ⟨403, .error "Only the trip owner can view pending collaboration expenses"⟩
        else
          .ok ((db.expenses.filter (isPendingReimbursement oid (reqUserId user))).map
            (formatPendingExpense db.users))

/-- A trip in the answer of the trip listing: the stored trip and, for a trip
found by the collaborator query, the result of populating its owner
(`some none` when the owner is gone); `none` for a trip found by the owner
query, whose `userId` stays a reference. -/
structure ListedTrip where
  trip : Trip
  populatedOwner : Option (Option User)
deriving DecidableEq

/-- One step of the stable sort by `startDate`, latest first: `x` stood before
every element of the sorted list and goes before the first element that does
not start later than it. -/
def insertLatestFirst (x : ListedTrip) : List ListedTrip → List ListedTrip
  | [] => [x]
  | y :: ys =>
    if y.trip.startDate ≤ x.trip.startDate then x :: y :: ys
    else y :: insertLatestFirst x ys

/-- The call `.sort((a, b) => new Date(b.startDate) - new Date(a.startDate))`;
`Array.prototype.sort` is stable. -/
def sortLatestFirst (l : List ListedTrip) : List ListedTrip :=
  l.foldr insertLatestFirst []

/-- Handler `router.get("/")` of the trip routes: the trips that the caller
owns and the trips found by the filter `{ "collaborators.user": id,
"collaborators.status": "accepted" }`. The value `.ok l` is the answer 200
with the array `l`. -/
def listTrips (db : Db) (user : Option ReqUser) : Except Response (List ListedTrip) :=
  if unauthenticated user then
    .error ⟨401, .error "Authentication failed. User ID not found."⟩
  else if !isValidObjectId (reqUserId user) then
    .error ⟨400, .error "Invalid user ID format"⟩
  else
    match castObjectId (reqUserId user) with
    | none => .error ⟨500, .error "Cast to ObjectId failed"⟩
    | some uid =>
      let ownedTrips : List ListedTrip :=
        (db.trips.filter (fun t => t.userId == uid)).map (fun t => ⟨t, none⟩)
      let collaborativeTrips : List ListedTrip :=
        (db.trips.filter (matchesUserAndStatus uid .accepted)).map
          (fun t => ⟨t, some (findUserById db.users t.userId)⟩)
      let allTrips := sortLatestFirst (ownedTrips ++ collaborativeTrips)
      .ok (allTrips.filter (fun t => t.trip._id ≠ "" && isValidObjectId t.trip._id))

/-- A trip as `router.get("/:id")` answers it: the stored trip, the owner
document and the populated collaborator entries. -/
structure PopulatedTrip where
  trip : Trip
  owner : User
  collaborators : List (Collaborator × Option User)
deriving DecidableEq

/-- Handler `router.get("/:id")` of the trip routes: one trip, for its owner
and its accepted collaborators. When the owner document is gone the
populated `trip.userId` is null and reading `trip.userId._id` throws, which
the catch block answers with 500. The value `.ok t` is the answer 200. -/
def getTripById (db : Db) (user : Option ReqUser) (id : String) :
    Except Response PopulatedTrip :=
  if unauthenticated user then
    .error ⟨401, .error "Authentication failed. User ID not found."⟩
  else if id = "" ∨ !isValidObjectId id then
    .error ⟨400, .error "Invalid trip ID format. The ID must be a valid MongoDB ObjectId."⟩
  else
    match castObjectId id with
    | none => .error ⟨500, .error "Cast to ObjectId failed"⟩
    | some oid =>
      match findTripById db.trips oid with
      | none => .error ⟨404, .error "Trip not found"⟩
      | some trip =>
        match findUserById db.users trip.userId with
        | none => .error ⟨500, .error "Cannot read properties of null (reading \x27_id\x27)"⟩
        | some owner =>
          let populated := trip.collaborators.map (populateCollaborator db.users)
          let isOwner := owner._id == reqUserId user
          let isCollaborator := populated.any (isAcceptedEntryOf (reqUserId user))
          if !isOwner && !isCollaborator then
            .error ⟨403, .error "You don\x27t have permission to view this trip"⟩
          else
            .ok ⟨trip, owner, populated⟩

/-! ## The router of `routes/tripRoutes.js` -/

/-- A segment of a route path: fixed text or a parameter such as `:id`. -/
inductive Segment where
  | literal (text : String)
  | parameter (name : String)
deriving DecidableEq

/-- The handlers that `tripRoutes.js` registers. -/
inductive TripRoute where
  | listTrips
  | activeTrips
  | createTrip
  | getTripById
  | updateTrip
  | deleteTrip
  | tripExpenses
  | allExpenses
  | payContribution
  | recordCollaborationExpense
  | listPendingReimbursements
  | settleReimbursement
deriving DecidableEq

/-- The routes of `tripRoutes.js` in the order in which the file registers
them: method, path and handler. -/
def tripRouter : List (String × List Segment × TripRoute) :=
  [ ("GET", [], .listTrips),
    ("GET", [.literal "active"], .activeTrips),
    ("POST", [], .createTrip),
    ("GET", [.parameter "id"], .getTripById),
    ("PUT", [.parameter "id"], .updateTrip),
    ("DELETE", [.parameter "id"], .deleteTrip),
    ("GET", [.parameter "id", .literal "expenses"], .tripExpenses),
    ("GET", [.literal "all-expenses"], .allExpenses),
    ("POST", [.literal "acceptance", .parameter "id", .literal "pay-contribution"],
      .payContribution),
    ("POST", [.literal "expenses", .literal "collaboration"], .recordCollaborationExpense),
    ("GET", [.literal "expenses", .literal "pending-collaboration", .parameter "tripId"],
      .listPendingReimbursements),
    ("POST", [.literal "expenses", .literal "pay-collaboration", .parameter "expenseId"],
      .settleReimbursement) ]

/-- Express matches a path against a route path segment by segment: fixed text
must be equal, a parameter takes any non-empty segment. The result is the
list of parameter values, `req.params`. -/
def matchPath : List Segment → List String → Option (List (String × String))
  | [], [] => some []
  | .literal text :: segments, s :: path =>
    if s = text then matchPath segments path else none
  | .parameter name :: segments, s :: path =>
    if s = "" then none
    else (matchPath segments path).map (fun params => (name, s) :: params)
  | _, _ => none

/-- Express hands a request to the first registered route whose method and
path match; every handler of the file answers the request itself. -/
def dispatch (method : String) (path : List String) :
    List (String × List Segment × TripRoute) → Option (TripRoute × List (String × String))
  | [] => none
  | (m, segments, handler) :: routes =>
    if m = method then
      match matchPath segments path with
      | some params => some (handler, params)
      | none => dispatch method path routes
    else dispatch method path routes

/-! ## Example data for the read routes -/

/-- After Carl has paid his contribution he answers the invitation again, with
"declined". -/
def opsDeclinedAfterPaying : List Op :=
  opsPaid ++ [ .respond asCarl tripT "declined" ]

/-- The store after `opsDeclinedAfterPaying`. -/
def dbDeclinedAfterPaying : Db := run exampleRuntime db0 opsDeclinedAfterPaying

/-! ## `services/imageProcessingService.js`

The amount that `extractReceiptData` reads from the text of a receipt. The
regular expression engine and the case conversion are built-ins of the
JavaScript runtime and are parameters; what the language fixes about
`RegExp.prototype.toString`, `String.prototype.includes`,
`String.prototype.match` and `String.prototype.matchAll` is written out. -/

/-- The comparison `x > y` (false when either side is NaN). -/
def JsNum.gt : JsNum → JsNum → Bool
  | .nan, _ => false
  | _, .nan => false
  | .negInf, _ => false
  | .posInf, .posInf => false
  | .posInf, _ => true
  | .fin _, .posInf => false
  | .fin _, .negInf => true
  | .fin a, .fin b => decide (b < a)

/-- A regular expression literal `/source/flags`. The flags are held as the
`flags` property gives them, in the order of the language, `g` before
`i`. -/
structure RegExp where
  source : String
  flags : String
deriving DecidableEq

/-- The method `RegExp.prototype.toString`: the source between slashes,
followed by the flags. -/
def RegExp.toString (pattern : RegExp) : String :=
  "/" ++ pattern.source ++ "/" ++ pattern.flags

/-- Whether the characters `sub` stand at the start of `text`. -/
def startsWithChars : List Char → List Char → Bool
  | _, [] => true
  | [], _ :: _ => false
  | c :: text, d :: sub => c == d && startsWithChars text sub

/-- Whether the characters `sub` stand somewhere in `text`. -/
def includesChars : List Char → List Char → Bool
  | [], sub => sub.isEmpty
  | c :: text, sub => startsWithChars (c :: text) sub || includesChars text sub

/-- The method `String.prototype.includes`. -/
def includes (s sub : String) : Bool :=
  includesChars s.data sub.data

/-- One match of a regular expression: the matched text and the texts of the
capture groups. -/
structure RegExpMatch where
  text : String
  groups : List String
deriving DecidableEq

/-- The array that JavaScript gives for one match: the matched text at index
0, then the capture groups. -/
def RegExpMatch.toArray (m : RegExpMatch) : List String :=
  m.text :: m.groups

/-- The regular expression engine and the case conversion of the JavaScript
runtime. -/
structure RegExpRuntime where
  /-- The result of `s.toLowerCase()`. -/
  toLowerCase : String → String
  /-- The successive matches of a pattern in a text, from left to right, as
  repeated calls of `RegExp.prototype.exec` find them. -/
  execAll : RegExp → String → List RegExpMatch

/-- The method `String.prototype.match`: null when the pattern matches
nowhere; for a pattern with the flag `g` the array of all matched texts,
without capture groups; for a pattern without it the array of the first
match, with its capture groups. -/
def stringMatch (re : RegExpRuntime) (text : String) (pattern : RegExp) :
    Option (List String) :=
  if includes pattern.flags "g" then
    match re.execAll pattern text with
    | [] => none
    | m :: ms => some ((m :: ms).map (·.text))
  else
    ((re.execAll pattern text).head?).map RegExpMatch.toArray

/-- The spread `[...text.matchAll(pattern)]`: the arrays of all matches; the
call throws for a pattern without the flag `g`. -/
def stringMatchAll (re : RegExpRuntime) (text : String) (pattern : RegExp) :
    Except String (List (List String)) :=
  if includes pattern.flags "g" then
    .ok ((re.execAll pattern text).map RegExpMatch.toArray)
  else
    .error "TypeError: String.prototype.matchAll called with a non-global RegExp argument"

/-- The characters of `s.replace(",", ".")`: the first comma becomes a
point. -/
def replaceFirstComma : List Char → List Char
  | [] => []
  | c :: cs => if c = ',' then '.' :: cs else c :: replaceFirstComma cs

/-- The call `s.replace(",", ".")`. -/
def commaToPoint (s : String) : String :=
  String.mk (replaceFirstComma s.data)

/-- The array `amountPatterns` of `extractReceiptData`, in its order: seven
keyword patterns with the flag `i` and the pattern of a decimal amount
with the flags `g` and `i`. -/
def amountPatterns : List RegExp :=
  [ ⟨"net\\s*amount\\s*:?\\s*(\\d+[.,]\\d\x7b2\x7d)", "i"⟩,
    ⟨"net\\s*amount\\s*:?\\s*[€$£]?\\s*(\\d+[.,]\\d\x7b2\x7d)", "i"⟩,
    ⟨"total[\\s:]*[€$£]?\\s*(\\d+[.,]\\d\x7b2\x7d)", "i"⟩,
    ⟨"amount[\\s:]*[€$£]?\\s*(\\d+[.,]\\d\x7b2\x7d)", "i"⟩,
    ⟨"sum[\\s:]*[€$£]?\\s*(\\d+[.,]\\d\x7b2\x7d)", "i"⟩,
    ⟨"to\\s*pay[\\s:]*[€$£]?\\s*(\\d+[.,]\\d\x7b2\x7d)", "i"⟩,
    ⟨"grand\\s*total[\\s:]*[€$£]?\\s*(\\d+[.,]\\d\x7b2\x7d)", "i"⟩,
    ⟨"(\\d+[.,]\\d\x7b2\x7d)", "gi"⟩ ]

/-- The inner loop `for (const match of matches)` of the branch for the last
pattern, from the running value of `largestAmount`. Reading `match[1]` of
an array without index 1 gives undefined, and `.replace` on it throws. -/
def largestAmount (rt : JsRuntime) : List (List String) → JsNum → Except String JsNum
  | [], largest => .ok largest
  | m :: ms, largest =>
    match m.get? 1 with
    | none => .error "TypeError: Cannot read properties of undefined (reading \x27replace\x27)"
    | some group =>
      let amount := rt.stringParseFloat (commaToPoint group)
      largestAmount rt ms (if amount.gt largest then amount else largest)

/-- The loop `for (const pattern of amountPatterns)` from a given pattern on:
the value of `result.amount` when the loop ends, `none` for null. -/
def amountLoop (rt : JsRuntime) (re : RegExpRuntime) (lowerText : String) :
    List RegExp → Except String (Option JsNum)
  | [] => .ok none
  | pattern :: rest =>
    if includes pattern.toString "ig" then
      match stringMatchAll re lowerText pattern with
      | .error e => .error e
      | .ok [] => amountLoop rt re lowerText rest
      | .ok (m :: ms) =>
        match largestAmount rt (m :: ms) (.fin 0) with
        | .error e => .error e
        | .ok largest =>
          if largest.gt (.fin 0) then .ok (some largest)
          else amountLoop rt re lowerText rest
    else
      match stringMatch re lowerText pattern with
      | none => amountLoop rt re lowerText rest
      | some m =>
        match m.get? 1 with
        | none => amountLoop rt re lowerText rest
        | some group =>
          if group ≠ "" then .ok (some (rt.stringParseFloat (commaToPoint group)))
          else amountLoop rt re lowerText rest

/-- The field `amount` of the result of `extractReceiptData(text)`; the
vendor is worked out afterwards and does not touch it. An error is an
exception that leaves the function. -/
def extractReceiptData (rt : JsRuntime) (re : RegExpRuntime) (text : String) :
    Except String (Option JsNum) :=
  if text = "" then .ok none
  else amountLoop rt re (re.toLowerCase text) amountPatterns

/-! ### A regular expression engine for texts without letters -/

/-- The pattern `\d+[.,]\d{2}` at the start of the characters: the longest
run of digits, one point or comma and two digits; the result is the
matched characters and the rest. -/
def decimalAt (cs : List Char) : Option (List Char × List Char) :=
  match cs.span Char.isDigit with
  | ([], _) => none
  | (digits, sep :: d1 :: d2 :: rest) =>
    if (sep = '.' ∨ sep = ',') ∧ d1.isDigit ∧ d2.isDigit then
      some (digits ++ [sep, d1, d2], rest)
    else none
  | _ => none

/-- The successive matches of `\d+[.,]\d{2}` from left to right; the search
goes on behind a match and one character further where there is none. -/
def decimalMatches : Nat → List Char → List String
  | 0, _ => []
  | _, [] => []
  | fuel + 1, c :: cs =>
    match decimalAt (c :: cs) with
    | some (m, rest) => String.mk m :: decimalMatches fuel rest
    | none => decimalMatches fuel cs

/-- A runtime for texts in which no letter occurs: such a text is its own
lower case, none of the seven keyword patterns matches in it, since each
asks for letters, and the matches of the decimal pattern, whose one group
is the whole match, are those of `decimalMatches`. -/
def digitsRegExp : RegExpRuntime :=
  { toLowerCase := fun s => s
    execAll := fun pattern text =>
      if pattern.source = "(\\d+[.,]\\d\x7b2\x7d)" then
        (decimalMatches text.data.length text.data).map (fun m => ⟨m, [m]⟩)
      else [] }

/-! # Theorems -/

/-! ## Lists -/


theorem findIndex_some {α : Type} (p : α → Bool) :
    ∀ (l : List α) (i : Nat), findIndex p l = some i →
      ∃ a, l.get? i = some a ∧ p a = true
  | [], i, h => by simp [findIndex] at h
  | a :: as, i, h => by
    unfold findIndex at h
    by_cases hp : p a = true
    · simp [hp] at h
      subst h
      exact ⟨a, rfl, hp⟩
    · simp [hp] at h
      obtain ⟨j, hj, rfl⟩ := h
      obtain ⟨b, hb, hpb⟩ := findIndex_some p as j hj
      exact ⟨b, by simpa using hb, hpb⟩

theorem findIndex_none {α : Type} (p : α → Bool) :
    ∀ (l : List α), findIndex p l = none ↔ ∀ a ∈ l, p a = false
  | [] => by simp [findIndex]
  | a :: as => by
    unfold findIndex
    by_cases hp : p a = true
    · simp [hp]
    · simp [hp, findIndex_none p as]

theorem findIndex_isSome_of_mem {α : Type} (p : α → Bool) (l : List α) (a : α)
    (ha : a ∈ l) (hp : p a = true) : ∃ i, findIndex p l = some i := by
  cases h : findIndex p l with
  | some i => exact ⟨i, rfl⟩
  | none =>
    have := (findIndex_none p l).1 h a ha
    simp [hp] at this

theorem modifyAt_map {α β : Type} (f : α → α) (g : α → β) (hf : ∀ a, g (f a) = g a) :
    ∀ (i : Nat) (l : List α), (modifyAt f i l).map g = l.map g
  | _, [] => by simp [modifyAt]
  | 0, a :: as => by simp [modifyAt, hf]
  | n + 1, a :: as => by simp [modifyAt, modifyAt_map f g hf n as]

theorem modifyAt_length {α : Type} (f : α → α) :
    ∀ (i : Nat) (l : List α), (modifyAt f i l).length = l.length
  | _, [] => by simp [modifyAt]
  | 0, a :: as => by simp [modifyAt]
  | n + 1, a :: as => by simp [modifyAt, modifyAt_length f n as]

theorem modifyAt_get?_eq {α : Type} (f : α → α) :
    ∀ (i : Nat) (l : List α), (modifyAt f i l).get? i = (l.get? i).map f
  | _, [] => by simp [modifyAt]
  | 0, a :: as => by simp [modifyAt]
  | n + 1, a :: as => by simpa [modifyAt] using modifyAt_get?_eq f n as

theorem modifyAt_get?_ne {α : Type} (f : α → α) :
    ∀ (i j : Nat) (l : List α), i ≠ j → (modifyAt f i l).get? j = l.get? j
  | _, _, [], _ => by simp [modifyAt]
  | 0, 0, _ :: _, h => absurd rfl h
  | 0, j + 1, a :: as, _ => by simp [modifyAt]
  | n + 1, 0, a :: as, _ => by simp [modifyAt]
  | n + 1, j + 1, a :: as, h => by
    simpa [modifyAt] using modifyAt_get?_ne f n j as (fun e => h (by rw [e]))

theorem mem_modifyAt {α : Type} (f : α → α) :
    ∀ (i : Nat) (l : List α) (b : α), b ∈ modifyAt f i l →
      b ∈ l ∨ ∃ a, l.get? i = some a ∧ b = f a
  | _, [], b, h => by simp [modifyAt] at h
  | 0, a :: as, b, h => by
    simp [modifyAt] at h
    rcases h with h | h
    · exact Or.inr ⟨a, rfl, h⟩
    · exact Or.inl (List.mem_cons_of_mem _ h)
  | n + 1, a :: as, b, h => by
    simp [modifyAt] at h
    rcases h with h | h
    · exact Or.inl (h ▸ List.mem_cons_self _ _)
    · rcases mem_modifyAt f n as b h with h' | ⟨c, hc, hb⟩
      · exact Or.inl (List.mem_cons_of_mem _ h')
      · exact Or.inr ⟨c, by simpa using hc, hb⟩

theorem spliceOne_sublist {α : Type} :
    ∀ (i : Nat) (l : List α), (spliceOne i l).Sublist l
  | _, [] => by simp [spliceOne]
  | 0, a :: as => by simp [spliceOne]
  | n + 1, a :: as => by
    simp only [spliceOne]
    exact (spliceOne_sublist n as).cons₂ a

theorem spliceOne_map {α β : Type} (g : α → β) :
    ∀ (i : Nat) (l : List α), (spliceOne i l).map g = spliceOne i (l.map g)
  | _, [] => by simp [spliceOne]
  | 0, a :: as => by simp [spliceOne]
  | n + 1, a :: as => by simp [spliceOne, spliceOne_map g n as]

theorem removeFirst_sublist {α : Type} (p : α → Bool) :
    ∀ (l : List α), (removeFirst p l).Sublist l
  | [] => by simp [removeFirst]
  | a :: as => by
    unfold removeFirst
    by_cases hp : p a = true
    · simp [hp]
    · simp only [hp]
      exact (removeFirst_sublist p as).cons₂ a

/-! ## Store access -/

theorem findTripById_some {trips : List Trip} {id : ObjectId} {t : Trip}
    (h : findTripById trips id = some t) : t ∈ trips ∧ t._id = id := by
  unfold findTripById at h
  have h1 := List.mem_of_find?_eq_some h
  have h2 := List.find?_some h
  exact ⟨h1, by simpa using h2⟩

theorem findTripById_of_nodup {trips : List Trip} {t : Trip}
    (hn : (trips.map (·._id)).Nodup) (ht : t ∈ trips) :
    findTripById trips t._id = some t := by
  induction trips with
  | nil => simp at ht
  | cons a as ih =>
    simp only [List.map_cons, List.nodup_cons] at hn
    unfold findTripById
    rw [List.find?_cons]
    by_cases ha : a._id = t._id
    · simp only [ha, beq_self_eq_true]
      rcases List.mem_cons.1 ht with h | h
      · rw [h]
      · exact absurd (List.mem_map.2 ⟨t, h, ha.symm⟩) hn.1
    · have hne : (a._id == t._id) = false := by simpa using ha
      simp only [hne]
      rcases List.mem_cons.1 ht with h | h
      · exact absurd (h ▸ rfl) ha
      · exact ih hn.2 h

theorem mem_saveTrip {trips : List Trip} {saved t : Trip} (h : t ∈ saveTrip trips saved) :
    t = saved ∨ (t ∈ trips ∧ t._id ≠ saved._id) := by
  unfold saveTrip at h
  obtain ⟨a, ha, rfl⟩ := List.mem_map.1 h
  by_cases e : a._id = saved._id
  · simp [e]
  · simp [e, ha]

theorem saveTrip_ids {trips : List Trip} {saved : Trip} :
    (saveTrip trips saved).map (·._id) = trips.map (·._id) := by
  unfold saveTrip
  rw [List.map_map]
  apply List.map_congr_left
  intro a _
  by_cases e : a._id = saved._id <;> simp [e]

theorem mem_saveTrip_of_ne {trips : List Trip} {saved t : Trip} (ht : t ∈ trips)
    (hne : t._id ≠ saved._id) : t ∈ saveTrip trips saved := by
  unfold saveTrip
  exact List.mem_map.2 ⟨t, ht, by simp [hne]⟩

theorem mem_saveTrip_self {trips : List Trip} {saved t : Trip} (ht : t ∈ trips)
    (he : t._id = saved._id) : saved ∈ saveTrip trips saved := by
  unfold saveTrip
  exact List.mem_map.2 ⟨t, ht, by simp [he]⟩

theorem castObjectId_valid {s : String} {oid : ObjectId} (h : castObjectId s = some oid) :
    isValidObjectId s = true := by
  unfold castObjectId at h
  by_cases hv : objectIdIsValid s = true
  · unfold isValidObjectId
    have hne : s ≠ "" := by
      intro e
      subst e
      simp [objectIdIsValid, isHex24] at hv
    have h24 : isHex24 s = true := hv
    simp [hne, hv, h24]
  · simp [hv] at h

/-! ## What a request does to the trips -/

theorem TripStep.id_eq {actor : String} {t t' : Trip} (h : TripStep actor t t') :
    t'._id = t._id := by
  cases h <;> first | rfl | assumption

theorem TripStep.owner_eq {actor : String} {t t' : Trip} (h : TripStep actor t t') :
    t'.userId = t.userId := by
  cases h <;> first | rfl | assumption

theorem owner_of_not_ne {a b : String} (h : ¬ a ≠ b) : b = a := by
  by_contra e
  exact h (fun e' => e e'.symm)

theorem createTrip_tripsStep (rt : JsRuntime) (db : Db) (user : Option ReqUser)
    (destination purpose : String) (startDate endDate : DateField) (budget : JsVal)
    (notes : Option String) (now : Int) (newId : ObjectId)
    (hf : newId ∉ db.trips.map (·._id)) :
    TripsStep (reqUserId user) db.trips
      (createTrip rt db user destination purpose startDate endDate budget notes now newId).2.trips := by
  unfold createTrip
  dsimp only
  repeat' split
  all_goals first
    | exact TripsStep.same
    | (refine TripsStep.created _ rfl ?_; exact hf)

theorem updateTrip_tripsStep (rt : JsRuntime) (db : Db) (user : Option ReqUser) (id : String)
    (destination purpose : String) (startDate endDate : DateField) (budget : JsVal)
    (notes : Option String) :
    TripsStep (reqUserId user) db.trips
      (updateTrip rt db user id destination purpose startDate endDate budget notes).2.trips := by
  unfold updateTrip
  dsimp only
  split
  · exact TripsStep.same
  split
  · exact TripsStep.same
  split
  · exact TripsStep.same
  split
  · exact TripsStep.same
  rename_i oid trip hfind
  split
  · exact TripsStep.same
  rename_i hown
  repeat' split
  all_goals first
    | exact TripsStep.same
    | exact TripsStep.saved _ _ _ hfind (TripStep.updated _ (owner_of_not_ne hown) rfl rfl rfl)

theorem deleteTrip_tripsStep (db : Db) (user : Option ReqUser) (id : String) :
    TripsStep (reqUserId user) db.trips (deleteTrip db user id).2.trips := by
  unfold deleteTrip
  split
  · exact TripsStep.same
  split
  · exact TripsStep.same
  split
  · exact TripsStep.same
  split
  · exact TripsStep.same
  rename_i oid trip hfind
  split
  · exact TripsStep.same
  rename_i hown
  exact TripsStep.deleted _ _ hfind (owner_of_not_ne hown)

theorem invite_tripsStep (rt : JsRuntime) (db : Db) (user : Option ReqUser) (tripId : String)
    (email : String) (budgetContribution : JsVal) :
    TripsStep (reqUserId user) db.trips
      (invite rt db user tripId email budgetContribution).2.trips := by
  unfold invite
  split
  · exact TripsStep.same
  split
  · exact TripsStep.same
  split
  · exact TripsStep.same
  split
  · exact TripsStep.same
  rename_i oid trip hfind
  split
  · exact TripsStep.same
  rename_i hown
  split
  · exact TripsStep.same
  rename_i collaborator hcol
  split
  · exact TripsStep.same
  rename_i hself
  split
  · exact TripsStep.same
  rename_i hnone
  have hown' := owner_of_not_ne hown
  refine TripsStep.saved _ _ _ hfind
    (TripStep.invited collaborator._id (numberOrZero rt budgetContribution) hown' ?_ ?_)
  · rw [← hown']
    exact hself
  · intro c hc e
    have := List.find?_eq_none.1 hnone c hc
    simp [e] at this

theorem respond_tripsStep (db : Db) (user : Option ReqUser) (tripId : String)
    (status : String) :
    TripsStep (reqUserId user) db.trips (respond db user tripId status).2.trips := by
  unfold respond
  split
  · exact TripsStep.same
  split
  · exact TripsStep.same
  split
  · exact TripsStep.same
  split
  · exact TripsStep.same
  rename_i oid trip hfind
  split
  · exact TripsStep.same
  rename_i i hi
  refine TripsStep.saved _ _ _ hfind (TripStep.responded i (statusOfText status) ?_ hi)
  unfold statusOfText
  split <;> simp

theorem removeCollaborator_tripsStep (db : Db) (user : Option ReqUser) (tripId : String)
    (userId : String) :
    TripsStep (reqUserId user) db.trips (removeCollaborator db user tripId userId).2.trips := by
  unfold removeCollaborator
  split
  · exact TripsStep.same
  split
  · exact TripsStep.same
  split
  · exact TripsStep.same
  rename_i oid trip hfind
  split
  · exact TripsStep.same
  rename_i hown
  split
  · exact TripsStep.same
  rename_i i hi
  exact TripsStep.saved _ _ _ hfind (TripStep.removed i (owner_of_not_ne hown))

theorem payContribution_tripsStep (rt : JsRuntime) (db : Db) (user : Option ReqUser)
    (id : String) (now : Int) (newId : ObjectId) :
    TripsStep (reqUserId user) db.trips (payContribution rt db user id now newId).2.trips := by
  unfold payContribution
  split
  · exact TripsStep.same
  split
  · exact TripsStep.same
  split
  · exact TripsStep.same
  split
  · exact TripsStep.same
  rename_i oid trip hfind
  split
  · exact TripsStep.same
  rename_i i hi
  exact TripsStep.saved _ _ _ hfind (TripStep.paid i now hi)

theorem recordCollaborationExpense_trips (rt : JsRuntime) (db : Db) (user : Option ReqUser)
    (tripId : String) (amount : JsVal) (description : String) (category : String)
    (date : DateField) (forUserId : JsVal) (now : Int) (newId : ObjectId) :
    (recordCollaborationExpense rt db user tripId amount description category date forUserId
      now newId).2.trips = db.trips := by
  unfold recordCollaborationExpense
  dsimp only
  repeat' split
  all_goals rfl

theorem settleReimbursement_trips (db : Db) (user : Option ReqUser) (expenseId : String)
    (now : Int) : (settleReimbursement db user expenseId now).2.trips = db.trips := by
  unfold settleReimbursement
  dsimp only
  repeat' split
  all_goals rfl

theorem createExpense_trips (rt : JsRuntime) (db : Db) (user : ReqUser) (amount : JsVal)
    (category : String) (description : Option String) (date : DateField)
    (tripId : String) (now : Int) (newId : ObjectId) :
    (createExpense rt db user amount category description date tripId now newId).2.trips
      = db.trips := by
  unfold createExpense
  dsimp only
  repeat' split
  all_goals rfl

theorem updateExpense_trips (db : Db) (user : ReqUser) (id : String)
    (update : ExpenseUpdate) : (updateExpense db user id update).2.trips = db.trips := by
  unfold updateExpense
  repeat' split
  all_goals rfl

theorem deleteExpense_trips (db : Db) (user : ReqUser) (id : String) :
    (deleteExpense db user id).2.trips = db.trips := by
  unfold deleteExpense
  repeat' split
  all_goals rfl

theorem exec_tripsStep (rt : JsRuntime) (db : Db) (op : Op) (hf : op.freshIds db = true) :
    TripsStep op.userId db.trips (exec rt db op).2.trips := by
  cases op with
  | setUsers users => exact TripsStep.same
  | createTrip user destination purpose startDate endDate budget notes now newId =>
    refine createTrip_tripsStep rt db user destination purpose startDate endDate budget
      notes now newId ?_
    simp only [Op.freshIds, Bool.and_eq_true, Bool.not_eq_true', decide_eq_true_eq] at hf
    intro hmem
    have h2 := hf.2
    rw [List.contains_eq_any_beq, List.any_eq_false] at h2
    exact h2 newId hmem (by simp)
  | updateTrip user id destination purpose startDate endDate budget notes =>
    exact updateTrip_tripsStep rt db user id destination purpose startDate endDate budget notes
  | deleteTrip user id => exact deleteTrip_tripsStep db user id
  | invite user tripId email budgetContribution =>
    exact invite_tripsStep rt db user tripId email budgetContribution
  | respond user tripId status => exact respond_tripsStep db user tripId status
  | removeCollaborator user tripId userId =>
    exact removeCollaborator_tripsStep db user tripId userId
  | payContribution user id now newId => exact payContribution_tripsStep rt db user id now newId
  | recordCollaborationExpense user tripId amount description category date forUserId now
      newId =>
    show TripsStep _ db.trips (recordCollaborationExpense rt db user tripId amount description
      category date forUserId now newId).2.trips
    rw [recordCollaborationExpense_trips]
    exact TripsStep.same
  | settleReimbursement user expenseId now =>
    show TripsStep _ db.trips (settleReimbursement db user expenseId now).2.trips
    rw [settleReimbursement_trips]
    exact TripsStep.same
  | createExpense user amount category description date tripId now newId =>
    show TripsStep _ db.trips (createExpense rt db user amount category description date
      tripId now newId).2.trips
    rw [createExpense_trips]
    exact TripsStep.same
  | updateExpense user id update =>
    show TripsStep _ db.trips (updateExpense db user id update).2.trips
    rw [updateExpense_trips]
    exact TripsStep.same
  | deleteExpense user id =>
    show TripsStep _ db.trips (deleteExpense db user id).2.trips
    rw [deleteExpense_trips]
    exact TripsStep.same

/-! ## Invariants of the reachable stores -/

theorem tripsStep_forall (P : Trip → Prop) (hnew : ∀ t : Trip, t.collaborators = [] → P t)
    (hstep : ∀ (actor : String) (t t' : Trip), P t → TripStep actor t t' → P t')
    {actor : String} {trips trips' : List Trip} (h : TripsStep actor trips trips')
    (hP : ∀ t ∈ trips, P t) : ∀ t ∈ trips', P t := by
  cases h with
  | same => exact hP
  | created t hc _ =>
    intro t' ht'
    rcases List.mem_append.1 ht' with h | h
    · exact hP t' h
    · rw [List.mem_singleton.1 h]
      exact hnew t hc
  | saved oid trip saved hfind hs =>
    intro t' ht'
    rcases mem_saveTrip ht' with h | h
    · rw [h]
      exact hstep _ _ _ (hP trip (findTripById_some hfind).1) hs
    · exact hP t' h.1
  | deleted oid trip hfind _ =>
    intro t' ht'
    exact hP t' (List.mem_of_mem_filter ht')

theorem tripsStep_ids_nodup {actor : String} {trips trips' : List Trip}
    (h : TripsStep actor trips trips') (hn : (trips.map (·._id)).Nodup) :
    (trips'.map (·._id)).Nodup := by
  cases h with
  | same => exact hn
  | created t _ hfresh =>
    rw [List.map_append, List.map_singleton]
    refine List.Nodup.append hn (List.nodup_singleton _) ?_
    intro a ha hb
    rw [List.mem_singleton.1 hb] at ha
    exact hfresh ha
  | saved oid trip saved _ _ =>
    rw [saveTrip_ids]
    exact hn
  | deleted oid trip _ _ =>
    exact hn.sublist ((List.filter_sublist _).map _)

theorem tripStep_users_nodup (actor : String) (t t' : Trip)
    (hn : (t.collaborators.map (·.user)).Nodup) (h : TripStep actor t t') :
    (t'.collaborators.map (·.user)).Nodup := by
  cases h with
  | same => exact hn
  | updated t' _ _ _ hc => rw [hc]; exact hn
  | invited u b _ _ hfresh =>
    show ((t.collaborators ++ [_]).map (fun c : Collaborator => c.user)).Nodup
    rw [List.map_append, List.map_singleton]
    refine List.Nodup.append hn (List.nodup_singleton _) ?_
    intro a ha hb
    rw [List.mem_singleton.1 hb] at ha
    obtain ⟨c, hc, e⟩ := List.mem_map.1 ha
    exact hfresh c hc e
  | responded i st _ _ =>
    show ((modifyAt (setStatus st) i t.collaborators).map (·.user)).Nodup
    rw [modifyAt_map (setStatus st) (fun c : Collaborator => c.user) (fun _ => rfl)]
    exact hn
  | removed i _ =>
    show ((spliceOne i t.collaborators).map (·.user)).Nodup
    exact hn.sublist ((spliceOne_sublist i _).map _)
  | paid i now _ =>
    show ((modifyAt (markPaid now) i t.collaborators).map (·.user)).Nodup
    rw [modifyAt_map (markPaid now) (fun c : Collaborator => c.user) (fun _ => rfl)]
    exact hn

theorem tripStep_no_self (actor : String) (t t' : Trip)
    (hn : ∀ c ∈ t.collaborators, c.user ≠ t.userId) (h : TripStep actor t t') :
    ∀ c ∈ t'.collaborators, c.user ≠ t'.userId := by
  cases h with
  | same => exact hn
  | updated t' _ _ ho hc => rw [hc, ho]; exact hn
  | invited u b _ hu _ =>
    intro c hc
    rcases List.mem_append.1 hc with h | h
    · exact hn c h
    · rw [List.mem_singleton.1 h]
      exact hu
  | responded i st _ _ =>
    intro c hc
    rcases mem_modifyAt _ _ _ _ hc with h | ⟨a, ha, e⟩
    · exact hn c h
    · rw [e]
      exact hn a (List.get?_mem ha)
  | removed i _ =>
    intro c hc
    exact hn c ((spliceOne_sublist i _).subset hc)
  | paid i now _ =>
    intro c hc
    rcases mem_modifyAt _ _ _ _ hc with h | ⟨a, ha, e⟩
    · exact hn c h
    · rw [e]
      exact hn a (List.get?_mem ha)

theorem reachable_ids_nodup {rt : JsRuntime} {db : Db} (h : Reachable rt db) :
    (db.trips.map (·._id)).Nodup := by
  induction h with
  | init users => simp
  | step db op _ hf ih => exact tripsStep_ids_nodup (exec_tripsStep rt db op hf) ih

theorem reachable_users_nodup {rt : JsRuntime} {db : Db} (h : Reachable rt db) :
    ∀ t ∈ db.trips, (t.collaborators.map (·.user)).Nodup := by
  induction h with
  | init users => simp
  | step db op _ hf ih =>
    exact tripsStep_forall _ (fun t ht => by rw [ht]; simp) tripStep_users_nodup
      (exec_tripsStep rt db op hf) ih

theorem reachable_no_self {rt : JsRuntime} {db : Db} (h : Reachable rt db) :
    ∀ t ∈ db.trips, ∀ c ∈ t.collaborators, c.user ≠ t.userId := by
  induction h with
  | init users => simp
  | step db op _ hf ih =>
    exact tripsStep_forall _ (fun t ht => by rw [ht]; simp) tripStep_no_self
      (exec_tripsStep rt db op hf) ih

theorem reachable_run {rt : JsRuntime} {db : Db} (h : Reachable rt db) :
    ∀ ops : List Op, runFresh rt db ops = true → Reachable rt (run rt db ops) := by
  intro ops
  induction ops generalizing db with
  | nil => intro _; exact h
  | cons op ops ih =>
    intro hf
    simp only [runFresh, Bool.and_eq_true] at hf
    exact ih (Reachable.step db op h hf.1) hf.2

/-! ## What a request does to the expenses -/

theorem mem_saveExpense {expenses : List Expense} {saved e : Expense}
    (h : e ∈ saveExpense expenses saved) : e = saved ∨ e ∈ expenses := by
  unfold saveExpense at h
  obtain ⟨a, ha, rfl⟩ := List.mem_map.1 h
  by_cases c : a._id = saved._id
  · simp [c]
  · simp [c, ha]

theorem origin_append {db : Db} {e : Expense}
    (h : ExpenseOrigin db e) : ∀ e' ∈ db.expenses ++ [e], ExpenseOrigin db e' := by
  intro e' he'
  rcases List.mem_append.1 he' with h' | h'
  · exact Or.inl h'
  · rw [List.mem_singleton.1 h']
    exact h

theorem payContribution_origin (rt : JsRuntime) (db : Db) (user : Option ReqUser)
    (id : String) (now : Int) (newId : ObjectId) :
    ∀ e ∈ (payContribution rt db user id now newId).2.expenses, ExpenseOrigin db e := by
  unfold payContribution
  dsimp only
  repeat' split
  all_goals first
    | exact fun e he => Or.inl he
    | exact origin_append (Or.inr (Or.inr (Or.inl rfl)))

theorem recordCollaborationExpense_origin (rt : JsRuntime) (db : Db)
    (user : Option ReqUser) (tripId : String) (amount : JsVal) (description : String)
    (category : String) (date : DateField) (forUserId : JsVal) (now : Int)
    (newId : ObjectId) :
    ∀ e ∈ (recordCollaborationExpense rt db user tripId amount description category date
      forUserId now newId).2.expenses, ExpenseOrigin db e := by
  unfold recordCollaborationExpense
  dsimp only
  split
  · exact fun e he => Or.inl he
  split
  · exact fun e he => Or.inl he
  split
  · exact fun e he => Or.inl he
  split
  · exact fun e he => Or.inl he
  split
  · exact fun e he => Or.inl he
  rename_i oid trip hfind
  split
  · exact fun e he => Or.inl he
  rename_i hcol
  split
  · exact fun e he => Or.inl he
  refine origin_append (Or.inr (Or.inr (Or.inr (Or.inl
    ⟨trip, (findTripById_some hfind).1, rfl, ?_⟩))))
  simp only [Bool.not_eq_true, Bool.not_eq_false', List.any_eq_true, Bool.and_eq_true,
    beq_iff_eq] at hcol
  obtain ⟨c, hc, hu, _⟩ := hcol
  exact ⟨c, hc, hu⟩

theorem settleReimbursement_origin (db : Db) (user : Option ReqUser) (expenseId : String)
    (now : Int) :
    ∀ e ∈ (settleReimbursement db user expenseId now).2.expenses, ExpenseOrigin db e := by
  unfold settleReimbursement
  dsimp only
  split
  · exact fun e he => Or.inl he
  split
  · exact fun e he => Or.inl he
  split
  · exact fun e he => Or.inl he
  split
  · exact fun e he => Or.inl he
  rename_i oid expense hfind
  split
  · exact fun e he => Or.inl he
  split
  · exact fun e he => Or.inl he
  intro e he
  rcases mem_saveExpense he with h | h
  · rw [h]
    exact Or.inr (Or.inr (Or.inr (Or.inr
      ⟨expense, List.mem_of_find?_eq_some hfind, rfl, rfl, rfl⟩)))
  · exact Or.inl h

theorem createExpense_origin (rt : JsRuntime) (db : Db) (user : ReqUser) (amount : JsVal)
    (category : String) (description : Option String) (date : DateField)
    (tripId : String) (now : Int) (newId : ObjectId) :
    ∀ e ∈ (createExpense rt db user amount category description date tripId now
      newId).2.expenses, ExpenseOrigin db e := by
  unfold createExpense
  dsimp only
  repeat' split
  all_goals first
    | exact fun e he => Or.inl he
    | exact origin_append (Or.inr (Or.inl rfl))

theorem updateExpense_origin (db : Db) (user : ReqUser) (id : String)
    (update : ExpenseUpdate) :
    ∀ e ∈ (updateExpense db user id update).2.expenses, ExpenseOrigin db e := by
  unfold updateExpense
  split
  · split
    · exact fun e he => Or.inl he
    · rename_i expense hfind
      intro e he
      rcases mem_saveExpense he with h | h
      · rw [h]
        exact Or.inr (Or.inr (Or.inr (Or.inr
          ⟨expense, List.mem_of_find?_eq_some hfind, rfl, rfl, rfl⟩)))
      · exact Or.inl h
  · exact fun e he => Or.inl he

theorem deleteExpense_origin (db : Db) (user : ReqUser) (id : String) :
    ∀ e ∈ (deleteExpense db user id).2.expenses, ExpenseOrigin db e := by
  unfold deleteExpense
  split
  · split
    · exact fun e he => Or.inl he
    · exact fun e he => Or.inl ((removeFirst_sublist _ _).subset he)
  · exact fun e he => Or.inl he

theorem deleteTrip_origin (db : Db) (user : Option ReqUser) (id : String) :
    ∀ e ∈ (deleteTrip db user id).2.expenses, ExpenseOrigin db e := by
  unfold deleteTrip
  repeat' split
  all_goals first
    | exact fun e he => Or.inl he
    | exact fun e he => Or.inl (List.mem_of_mem_filter he)

theorem createTrip_expenses (rt : JsRuntime) (db : Db) (user : Option ReqUser)
    (destination purpose : String) (startDate endDate : DateField) (budget : JsVal)
    (notes : Option String) (now : Int) (newId : ObjectId) :
    (createTrip rt db user destination purpose startDate endDate budget notes now
      newId).2.expenses = db.expenses := by
  unfold createTrip
  dsimp only
  repeat' split
  all_goals rfl

theorem updateTrip_expenses (rt : JsRuntime) (db : Db) (user : Option ReqUser) (id : String)
    (destination purpose : String) (startDate endDate : DateField) (budget : JsVal)
    (notes : Option String) :
    (updateTrip rt db user id destination purpose startDate endDate budget notes).2.expenses
      = db.expenses := by
  unfold updateTrip
  dsimp only
  repeat' split
  all_goals rfl

theorem invite_expenses (rt : JsRuntime) (db : Db) (user : Option ReqUser) (tripId : String)
    (email : String) (budgetContribution : JsVal) :
    (invite rt db user tripId email budgetContribution).2.expenses = db.expenses := by
  unfold invite
  dsimp only
  repeat' split
  all_goals rfl

theorem respond_expenses (db : Db) (user : Option ReqUser) (tripId : String)
    (status : String) : (respond db user tripId status).2.expenses = db.expenses := by
  unfold respond
  dsimp only
  repeat' split
  all_goals rfl

theorem removeCollaborator_expenses (db : Db) (user : Option ReqUser) (tripId : String)
    (userId : String) :
    (removeCollaborator db user tripId userId).2.expenses = db.expenses := by
  unfold removeCollaborator
  dsimp only
  repeat' split
  all_goals rfl

theorem exec_origin (rt : JsRuntime) (db : Db) (op : Op) :
    ∀ e ∈ (exec rt db op).2.expenses, ExpenseOrigin db e := by
  cases op with
  | setUsers users => exact fun e he => Or.inl he
  | createTrip user destination purpose startDate endDate budget notes now newId =>
    intro e he
    refine Or.inl ?_
    have := createTrip_expenses rt db user destination purpose startDate endDate budget
      notes now newId
    simp only [exec] at he
    rwa [this] at he
  | updateTrip user id destination purpose startDate endDate budget notes =>
    intro e he
    refine Or.inl ?_
    have := updateTrip_expenses rt db user id destination purpose startDate endDate budget
      notes
    simp only [exec] at he
    rwa [this] at he
  | deleteTrip user id => exact deleteTrip_origin db user id
  | invite user tripId email budgetContribution =>
    intro e he
    refine Or.inl ?_
    have := invite_expenses rt db user tripId email budgetContribution
    simp only [exec] at he
    rwa [this] at he
  | respond user tripId status =>
    intro e he
    refine Or.inl ?_
    have := respond_expenses db user tripId status
    simp only [exec] at he
    rwa [this] at he
  | removeCollaborator user tripId userId =>
    intro e he
    refine Or.inl ?_
    have := removeCollaborator_expenses db user tripId userId
    simp only [exec] at he
    rwa [this] at he
  | payContribution user id now newId => exact payContribution_origin rt db user id now newId
  | recordCollaborationExpense user tripId amount description category date forUserId now
      newId =>
    exact recordCollaborationExpense_origin rt db user tripId amount description category
      date forUserId now newId
  | settleReimbursement user expenseId now =>
    exact settleReimbursement_origin db user expenseId now
  | createExpense user amount category description date tripId now newId =>
    exact createExpense_origin rt db user amount category description date tripId now newId
  | updateExpense user id update => exact updateExpense_origin db user id update
  | deleteExpense user id => exact deleteExpense_origin db user id

theorem reachable_collaboration_expenses {rt : JsRuntime} {db : Db} (h : Reachable rt db) :
    ∀ e ∈ db.expenses, e.isCollaborationExpense = true →
      e.forUserId = none ∨ ∃ u, e.forUserId = some u ∧ u ≠ e.userId := by
  induction h with
  | init users => simp
  | step db op hr hf ih =>
    intro e he hc
    rcases exec_origin rt db op e he with h | h | h | ⟨trip, ht, hfor, c, hcm, hcu⟩ |
        ⟨e0, he0, h1, h2, h3⟩
    · exact ih e h hc
    · rw [h] at hc
      exact absurd hc (by simp)
    · exact Or.inl h
    · refine Or.inr ⟨trip.userId, hfor, ?_⟩
      rw [← hcu]
      exact fun e' => reachable_no_self hr trip ht c hcm e'.symm
    · rw [h1] at hc
      rw [h2, h3]
      exact ih e0 he0 hc

/-! ## The example stores -/

theorem dbPending_eq : dbPending = ⟨[olga, carl, dora], [tripPending], []⟩ := by decide

theorem dbAccepted_eq : dbAccepted = ⟨[olga, carl, dora], [tripAccepted], []⟩ := by decide

theorem dbMixed_eq : dbMixed = ⟨[olga, carl, dora], [tripMixed], []⟩ := by decide

theorem dbPaid_eq :
    dbPaid = ⟨[olga, carl, dora], [tripPaid],
      [paymentExpense exampleRuntime asCarl tripT (.fin 200) 50 expenseE1]⟩ := by decide

theorem reachable_dbPending : Reachable exampleRuntime dbPending :=
  reachable_run (Reachable.init _) opsPending (by decide)

theorem reachable_dbAccepted : Reachable exampleRuntime dbAccepted :=
  reachable_run (Reachable.init _) opsAccepted (by decide)

theorem reachable_dbPaid : Reachable exampleRuntime dbPaid :=
  reachable_run (Reachable.init _) opsPaid (by decide)

theorem reachable_dbMixed : Reachable exampleRuntime dbMixed :=
  reachable_run (Reachable.init _) opsMixed (by decide)

/-! ## Settled claims -/

theorem eq_of_same_id {trips : List Trip} (hn : (trips.map (·._id)).Nodup) {a b : Trip}
    (ha : a ∈ trips) (hb : b ∈ trips) (e : a._id = b._id) : a = b :=
  List.inj_on_of_nodup_map hn ha hb e

theorem eq_of_same_user {cs : List Collaborator} (hn : (cs.map (·.user)).Nodup)
    {a b : Collaborator} (ha : a ∈ cs) (hb : b ∈ cs) (e : a.user = b.user) : a = b :=
  List.inj_on_of_nodup_map hn ha hb e

theorem tripStep_unpaid {actor : String} {t t' : Trip}
    (hn : (t.collaborators.map (·.user)).Nodup) (h : TripStep actor t t') :
    ∀ c ∈ t.collaborators, ∀ c' ∈ t'.collaborators, c'.user = c.user →
      c.status ≠ .accepted → c.hasPaid = false → c'.hasPaid = false := by
  intro c hc c' hc' hu hs hp
  cases h with
  | same => rw [eq_of_same_user hn hc' hc hu]; exact hp
  | updated t' _ _ _ hcs =>
    rw [hcs] at hc'
    rw [eq_of_same_user hn hc' hc hu]; exact hp
  | invited u b _ _ _ =>
    rcases List.mem_append.1 hc' with h | h
    · rw [eq_of_same_user hn h hc hu]; exact hp
    · rw [List.mem_singleton.1 h]
  | responded i st _ _ =>
    rcases mem_modifyAt _ _ _ _ hc' with h | ⟨a, ha, e⟩
    · rw [eq_of_same_user hn h hc hu]; exact hp
    · have hau : a.user = c.user := by rw [← hu, e]; rfl
      have hac := eq_of_same_user hn (List.get?_mem ha) hc hau
      rw [e]
      show a.hasPaid = false
      rw [hac]
      exact hp
  | removed i _ =>
    have h := (spliceOne_sublist i _).subset hc'
    rw [eq_of_same_user hn h hc hu]; exact hp
  | paid i now hi =>
    rcases mem_modifyAt _ _ _ _ hc' with h | ⟨a, ha, e⟩
    · rw [eq_of_same_user hn h hc hu]; exact hp
    · have hau : a.user = c.user := by rw [← hu, e]; rfl
      have hac := eq_of_same_user hn (List.get?_mem ha) hc hau
      obtain ⟨a', ha', hpa⟩ := findIndex_some _ _ _ hi
      rw [ha] at ha'
      cases ha'
      simp only [Bool.and_eq_true, beq_iff_eq] at hpa
      rw [hac] at hpa
      exact absurd hpa.2 hs

theorem tripsStep_unpaid {actor : String} {trips trips' : List Trip}
    (hids : (trips.map (·._id)).Nodup)
    (husers : ∀ t ∈ trips, (t.collaborators.map (·.user)).Nodup)
    (h : TripsStep actor trips trips') :
    ∀ t ∈ trips, ∀ t' ∈ trips', t'._id = t._id →
      ∀ c ∈ t.collaborators, ∀ c' ∈ t'.collaborators, c'.user = c.user →
        c.status ≠ .accepted → c.hasPaid = false → c'.hasPaid = false := by
  intro t ht t' ht' hid
  have hsame : t' ∈ trips → ∀ c ∈ t.collaborators, ∀ c' ∈ t'.collaborators,
      c'.user = c.user → c.status ≠ .accepted → c.hasPaid = false → c'.hasPaid = false := by
    intro hmem
    rw [eq_of_same_id hids hmem ht hid]
    exact tripStep_unpaid (husers t ht) (TripStep.same : TripStep actor t t)
  cases h with
  | same => exact hsame ht'
  | created tn hc _ =>
    rcases List.mem_append.1 ht' with h | h
    · exact hsame h
    · intro c _ c' hc'
      rw [List.mem_singleton.1 h, hc] at hc'
      simp at hc'
  | saved oid trip saved hfind hs =>
    rcases mem_saveTrip ht' with h | h
    · have htrip := (findTripById_some hfind).1
      have e : trip = t := eq_of_same_id hids htrip ht (by rw [← hs.id_eq, ← h, hid])
      rw [h]
      rw [e] at hs
      exact tripStep_unpaid (husers t ht) hs
    · exact hsame h.1
  | deleted oid trip _ _ => exact hsame (List.mem_of_mem_filter ht')

theorem payContribution_forbidden (rt : JsRuntime) (db : Db) (user : Option ReqUser)
    (id : String) (now : Int) (newId : ObjectId) (oid : ObjectId) (trip : Trip)
    (hauth : unauthenticated user = false) (hcast : castObjectId id = some oid)
    (hfind : findTripById db.trips oid = some trip)
    (hno : ∀ c ∈ trip.collaborators, c.user = reqUserId user → c.status ≠ .accepted) :
    payContribution rt db user id now newId =
      (⟨403, .error "You are not an accepted collaborator on this trip"⟩, db) := by
  have hidx : findIndex (fun collab => collab.user == reqUserId user && collab.status == .accepted)
      trip.collaborators = none := by
    rw [findIndex_none]
    intro c hc
    by_cases hu : c.user = reqUserId user
    · have := hno c hc hu
      simp [hu, this]
    · simp [hu]
  unfold payContribution
  simp only [hauth, castObjectId_valid hcast, hcast, hfind, hidx]
  simp

/-- C1: in every store reachable from trip creation, which starts a trip with
an empty collaborator list, by any sequence of requests (invite, respond,
remove and payContribution among them), the collaborator list of each trip
has at most one entry per user reference. -/
theorem C1_one_entry_per_user (rt : JsRuntime) (db : Db) (h : Reachable rt db) :
    ∀ t ∈ db.trips, (t.collaborators.map (·.user)).Nodup :=
  reachable_users_nodup h

/-- Witness of C1 on the store in which Carl is accepted and Dora is pending. -/
theorem C1_one_entry_per_user_witness :
    Reachable exampleRuntime dbMixed ∧
      ∀ t ∈ dbMixed.trips, (t.collaborators.map (·.user)).Nodup :=
  ⟨reachable_dbMixed, C1_one_entry_per_user exampleRuntime dbMixed reachable_dbMixed⟩

/-- C2: when the caller has no accepted entry on the trip (the entry is absent,
pending or declined), payContribution answers 403 and leaves the trips and
the expenses as they are; and no request makes `hasPaid` true on an entry
that is unpaid and not accepted. -/
theorem C2_pay_needs_accepted (rt : JsRuntime) (db : Db) (hr : Reachable rt db)
    (user : Option ReqUser) (id : String) (now : Int) (newId : ObjectId) (oid : ObjectId)
    (trip : Trip) (hauth : unauthenticated user = false)
    (hcast : castObjectId id = some oid) (hfind : findTripById db.trips oid = some trip)
    (hno : ∀ c ∈ trip.collaborators, c.user = reqUserId user → c.status ≠ .accepted) :
    (payContribution rt db user id now newId).1.status = 403 ∧
    (payContribution rt db user id now newId).2 = db ∧
    ∀ op : Op, op.freshIds db = true →
      ∀ t ∈ db.trips, ∀ t' ∈ (exec rt db op).2.trips, t'._id = t._id →
        ∀ c ∈ t.collaborators, ∀ c' ∈ t'.collaborators, c'.user = c.user →
          c.status ≠ .accepted → c.hasPaid = false → c'.hasPaid = false := by
  rw [payContribution_forbidden rt db user id now newId oid trip hauth hcast hfind hno]
  refine ⟨rfl, rfl, ?_⟩
  intro op hf
  exact tripsStep_unpaid (reachable_ids_nodup hr) (reachable_users_nodup hr)
    (exec_tripsStep rt db op hf)

/-- Witness of C2: Carl, whose entry is pending, tries to pay. -/
theorem C2_pay_needs_accepted_witness :
    (payContribution exampleRuntime dbPending asCarl tripT 50 expenseE1).1.status = 403 ∧
    (payContribution exampleRuntime dbPending asCarl tripT 50 expenseE1).2 = dbPending ∧
    ∀ op : Op, op.freshIds dbPending = true →
      ∀ t ∈ dbPending.trips, ∀ t' ∈ (exec exampleRuntime dbPending op).2.trips,
        t'._id = t._id →
        ∀ c ∈ t.collaborators, ∀ c' ∈ t'.collaborators, c'.user = c.user →
          c.status ≠ .accepted → c.hasPaid = false → c'.hasPaid = false :=
  C2_pay_needs_accepted exampleRuntime dbPending reachable_dbPending asCarl tripT 50
    expenseE1 tripT tripPending (by decide) (by decide) (by decide) (by decide)

/-- C3 fails as stated: after Carl has paid his contribution the reachable store
holds an expense with `isCollaborationExpense = true` and no `forUserId`. -/
theorem C3_counterexample :
    Reachable exampleRuntime dbPaid ∧
      ∃ e ∈ dbPaid.expenses, e.isCollaborationExpense = true ∧ e.forUserId = none :=
  ⟨reachable_dbPaid, paymentExpense exampleRuntime asCarl tripT (.fin 200) 50 expenseE1,
    by rw [dbPaid_eq]; simp, rfl, rfl⟩

/-- C3 as amended: in every reachable store an expense with
`isCollaborationExpense = true` either has no `forUserId`, as the one that
payContribution creates, or has a `forUserId` that differs from its payer,
as the one that recordCollaborationExpense creates. -/
theorem C3_collaboration_expense_forUser (rt : JsRuntime) (db : Db) (h : Reachable rt db) :
    ∀ e ∈ db.expenses, e.isCollaborationExpense = true →
      e.forUserId = none ∨ ∃ u, e.forUserId = some u ∧ u ≠ e.userId :=
  reachable_collaboration_expenses h

/-- Witness of the amended C3 on the store in which Carl has paid. -/
theorem C3_collaboration_expense_forUser_witness :
    Reachable exampleRuntime dbPaid ∧
      ∀ e ∈ dbPaid.expenses, e.isCollaborationExpense = true →
        e.forUserId = none ∨ ∃ u, e.forUserId = some u ∧ u ≠ e.userId :=
  ⟨reachable_dbPaid, C3_collaboration_expense_forUser exampleRuntime dbPaid reachable_dbPaid⟩

theorem modifyAt_getD_contribution (f : Collaborator → Collaborator)
    (hf : ∀ c, (f c).budgetContribution = c.budgetContribution) (i : Nat)
    (cs : List Collaborator) (c : Collaborator) (hc : cs.get? i = some c) :
    ((modifyAt f i cs).getD i offTheEnd).budgetContribution = c.budgetContribution := by
  have h := modifyAt_get?_eq f i cs
  rw [hc] at h
  rw [List.getD_eq_getElem?_getD, ← List.get?_eq_getElem?, h]
  exact hf c

theorem respond_ok (db : Db) (user : Option ReqUser) (tripId : String) (status : String)
    (oid : ObjectId) (trip : Trip) (i : Nat)
    (hauth : unauthenticated user = false)
    (hstatus : status = "accepted" ∨ status = "declined")
    (hcast : castObjectId tripId = some oid)
    (hfind : findTripById db.trips oid = some trip)
    (hidx : findIndex (fun collab => collab.user == reqUserId user) trip.collaborators = some i) :
    respond db user tripId status =
      (⟨200, .responded ("Collaboration request " ++ status) trip._id status⟩,
        { db with trips := saveTrip db.trips { trip with collaborators := modifyAt (setStatus (statusOfText status)) i trip.collaborators } }) := by
  have hs : ¬ (status ≠ "accepted" ∧ status ≠ "declined") := by
    rcases hstatus with h | h <;> simp [h]
  unfold respond
  simp only [hauth, hs, hcast, hfind, hidx]
  simp

/-- C4 fails as stated: Carl, whose entry is accepted, answers again with
"declined"; the call succeeds and the status of his entry becomes declined. -/
theorem C4_counterexample :
    dbAccepted.trips.map (fun t => t.collaborators.map (fun c => (c.user, c.status)))
      = [[(carl._id, .accepted)]] ∧
    (respond dbAccepted asCarl tripT "declined").1.status = 200 ∧
    (respond dbAccepted asCarl tripT "declined").2.trips.map
        (fun t => t.collaborators.map (fun c => (c.user, c.status)))
      = [[(carl._id, .declined)]] := by
  decide

/-- C4 as amended: a respond call with status "accepted" or "declined" by a
user who has an entry on the trip succeeds and sets the status of that entry
to the requested one, whatever the status was; the stored status is never
pending, so the transitions are pending, accepted or declined to accepted
or declined. -/
theorem C4_respond_overwrites (db : Db) (user : Option ReqUser) (tripId : String)
    (status : String) (oid : ObjectId) (trip : Trip) (i : Nat) (c : Collaborator)
    (hauth : unauthenticated user = false)
    (hstatus : status = "accepted" ∨ status = "declined")
    (hcast : castObjectId tripId = some oid)
    (hfind : findTripById db.trips oid = some trip)
    (hidx : findIndex (fun collab => collab.user == reqUserId user) trip.collaborators = some i)
    (hc : trip.collaborators.get? i = some c) :
    (respond db user tripId status).1.status = 200 ∧
    (respond db user tripId status).2.trips = saveTrip db.trips
      { trip with collaborators := modifyAt (setStatus (statusOfText status)) i trip.collaborators } ∧
    (modifyAt (setStatus (statusOfText status)) i trip.collaborators).get? i
      = some { c with status := statusOfText status } ∧
    (status = "accepted" → statusOfText status = .accepted) ∧
    (status = "declined" → statusOfText status = .declined) ∧
    statusOfText status ≠ .pending := by
  rw [respond_ok db user tripId status oid trip i hauth hstatus hcast hfind hidx]
  refine ⟨rfl, rfl, ?_, ?_, ?_, ?_⟩
  · rw [modifyAt_get?_eq, hc]
    rfl
  · intro h
    simp [statusOfText, h]
  · intro h
    simp [statusOfText, h]
  · unfold statusOfText
    split <;> simp

/-- Witness of the amended C4: Carl, accepted, answers "declined". -/
theorem C4_respond_overwrites_witness :
    (respond dbAccepted asCarl tripT "declined").1.status = 200 ∧
    (respond dbAccepted asCarl tripT "declined").2.trips = saveTrip dbAccepted.trips
      { tripAccepted with collaborators := modifyAt (setStatus (statusOfText "declined")) 0 tripAccepted.collaborators } ∧
    (modifyAt (setStatus (statusOfText "declined")) 0 tripAccepted.collaborators).get? 0
      = some ⟨carl._id, .fin 200, statusOfText "declined", false, none⟩ ∧
    (("declined" : String) = "accepted" → statusOfText "declined" = .accepted) ∧
    (("declined" : String) = "declined" → statusOfText "declined" = .declined) ∧
    statusOfText "declined" ≠ .pending :=
  C4_respond_overwrites dbAccepted asCarl tripT "declined" tripT tripAccepted 0
    ⟨carl._id, .fin 200, .accepted, false, none⟩ (by decide) (by decide) (by decide)
    (by decide) (by decide) (by decide)

theorem tripStep_ownerPart {actor : String} {t t' : Trip} (h : TripStep actor t t')
    (hne : actor ≠ t.userId) : ownerPart t' = ownerPart t := by
  cases h with
  | same => rfl
  | updated t' ho _ _ _ => exact absurd ho hne
  | invited u b ho _ _ => exact absurd ho hne
  | responded i st _ _ =>
    unfold ownerPart
    simp only [modifyAt_map (setStatus st)
      (fun c : Collaborator => (c.user, c.budgetContribution)) (fun _ => rfl)]
  | removed i ho => exact absurd ho hne
  | paid i now _ =>
    unfold ownerPart
    simp only [modifyAt_map (markPaid now)
      (fun c : Collaborator => (c.user, c.budgetContribution)) (fun _ => rfl)]

theorem tripsStep_ownerPart {actor : String} {trips trips' : List Trip}
    (hids : (trips.map (·._id)).Nodup) (h : TripsStep actor trips trips')
    (t : Trip) (ht : t ∈ trips) (hne : actor ≠ t.userId) :
    ∃ t' ∈ trips', ownerPart t' = ownerPart t := by
  cases h with
  | same => exact ⟨t, ht, rfl⟩
  | created tn _ _ => exact ⟨t, List.mem_append_left _ ht, rfl⟩
  | saved oid trip saved hfind hs =>
    by_cases e : t._id = saved._id
    · have htrip := (findTripById_some hfind).1
      have ht' : trip = t := eq_of_same_id hids htrip ht (by rw [e, hs.id_eq])
      rw [ht'] at hs
      exact ⟨saved, mem_saveTrip_self ht e, tripStep_ownerPart hs hne⟩
    · exact ⟨t, mem_saveTrip_of_ne ht e, rfl⟩
  | deleted oid trip hfind ho =>
    refine ⟨t, List.mem_filter.2 ⟨ht, ?_⟩, rfl⟩
    have htrip := findTripById_some hfind
    have : t._id ≠ oid := by
      intro e
      have ht' : trip = t := eq_of_same_id hids htrip.1 ht (by rw [e, htrip.2])
      rw [ht'] at ho
      exact hne ho
    simpa using this

theorem unauthenticated_some (A : ReqUser) (hA : A.id ≠ "") :
    unauthenticated (some A) = false := by
  simp [unauthenticated, hA]

theorem objectIdIsValid_of_cast {s : String} {oid : ObjectId}
    (h : castObjectId s = some oid) : objectIdIsValid s = true := by
  unfold castObjectId at h
  by_cases hv : objectIdIsValid s = true
  · exact hv
  · simp [hv] at h

/-- C5: for a trip T of a reachable store and a user A who is not its owner,
after every request of A the trip T is still stored with the same id,
destination, purpose, dates, budget and owner and the same sequence of
collaborator user references and budget contributions; and invite, remove,
update and delete requests of A on T are answered 403 and change nothing. -/
theorem C5_only_owner_changes_trip (rt : JsRuntime) (db : Db) (hr : Reachable rt db)
    (T : Trip) (hT : T ∈ db.trips) (A : ReqUser) (hA : A.id ≠ "") (hne : A.id ≠ T.userId) :
    (∀ op : Op, op.userId = A.id → op.freshIds db = true →
      ∃ T' ∈ (exec rt db op).2.trips, ownerPart T' = ownerPart T) ∧
    (∀ tripId : String, castObjectId tripId = some T._id →
      (∀ email budgetContribution,
        invite rt db (some A) tripId email budgetContribution =
          (⟨403, .error "Only the trip owner can send collaboration invites"⟩, db)) ∧
      (∀ userId,
        removeCollaborator db (some A) tripId userId =
          (⟨403, .error "Only the trip owner can remove collaborators"⟩, db)) ∧
      (∀ destination purpose startDate endDate budget notes,
        updateTrip rt db (some A) tripId destination purpose startDate endDate budget notes =
          (⟨403, .error "Only the trip owner can update trip details"⟩, db)) ∧
      deleteTrip db (some A) tripId =
        (⟨403, .error "Only the trip owner can delete this trip"⟩, db)) := by
  have hids := reachable_ids_nodup hr
  constructor
  · intro op hop hf
    have h := exec_tripsStep rt db op hf
    rw [hop] at h
    exact tripsStep_ownerPart hids h T hT hne
  · intro tripId hcast
    have hauth := unauthenticated_some A hA
    have hfind := findTripById_of_nodup hids hT
    have hvalid := castObjectId_valid hcast
    have hvalid' := objectIdIsValid_of_cast hcast
    have hown : T.userId ≠ reqUserId (some A) := fun e => hne e.symm
    refine ⟨?_, ?_, ?_, ?_⟩
    · intro email budgetContribution
      unfold invite
      simp only [hauth, hvalid', hcast, hfind]
      simp [hown]
    · intro userId
      unfold removeCollaborator
      simp only [hauth, hcast, hfind]
      simp [hown]
    · intro destination purpose startDate endDate budget notes
      unfold updateTrip
      simp only [hauth, hvalid, hcast, hfind]
      simp [hown]
    · unfold deleteTrip
      simp only [hauth, hvalid, hcast, hfind]
      simp [hown]

/-- Witness of C5: Carl is not the owner of the example trip. -/
theorem C5_only_owner_changes_trip_witness :
    (∀ op : Op, op.userId = "0000000000000000000000a2" → op.freshIds dbAccepted = true →
      ∃ T' ∈ (exec exampleRuntime dbAccepted op).2.trips,
        ownerPart T' = ownerPart tripAccepted) ∧
    (∀ tripId : String, castObjectId tripId = some tripAccepted._id →
      (∀ email budgetContribution,
        invite exampleRuntime dbAccepted (some ⟨"0000000000000000000000a2", "carl"⟩) tripId
            email budgetContribution =
          (⟨403, .error "Only the trip owner can send collaboration invites"⟩, dbAccepted)) ∧
      (∀ userId,
        removeCollaborator dbAccepted (some ⟨"0000000000000000000000a2", "carl"⟩) tripId
            userId =
          (⟨403, .error "Only the trip owner can remove collaborators"⟩, dbAccepted)) ∧
      (∀ destination purpose startDate endDate budget notes,
        updateTrip exampleRuntime dbAccepted (some ⟨"0000000000000000000000a2", "carl"⟩)
            tripId destination purpose startDate endDate budget notes =
          (⟨403, .error "Only the trip owner can update trip details"⟩, dbAccepted)) ∧
      deleteTrip dbAccepted (some ⟨"0000000000000000000000a2", "carl"⟩) tripId =
        (⟨403, .error "Only the trip owner can delete this trip"⟩, dbAccepted)) :=
  C5_only_owner_changes_trip exampleRuntime dbAccepted reachable_dbAccepted tripAccepted
    (by rw [dbAccepted_eq]; simp) ⟨"0000000000000000000000a2", "carl"⟩ (by decide)
    (by decide)

theorem payContribution_ok (rt : JsRuntime) (db : Db) (user : Option ReqUser) (id : String)
    (now : Int) (newId : ObjectId) (oid : ObjectId) (trip : Trip) (i : Nat)
    (c : Collaborator) (hauth : unauthenticated user = false)
    (hcast : castObjectId id = some oid) (hfind : findTripById db.trips oid = some trip)
    (hidx : findIndex (fun collab => collab.user == reqUserId user && collab.status == .accepted)
      trip.collaborators = some i)
    (hc : trip.collaborators.get? i = some c) :
    payContribution rt db user id now newId =
      (⟨200, .paid "Payment recorded successfully" (markPaid now c)⟩,
        { db with
          expenses := db.expenses ++ [paymentExpense rt user oid c.budgetContribution now newId]
          trips := saveTrip db.trips { trip with collaborators := modifyAt (markPaid now) i trip.collaborators } }) := by
  have hamount := modifyAt_getD_contribution (markPaid now) (fun _ => rfl) i
    trip.collaborators c hc
  have hget : (modifyAt (markPaid now) i trip.collaborators).getD i offTheEnd
      = markPaid now c := by
    have h := modifyAt_get?_eq (markPaid now) i trip.collaborators
    rw [hc] at h
    rw [List.getD_eq_getElem?_getD, ← List.get?_eq_getElem?, h]
    rfl
  unfold payContribution
  simp only [hauth, castObjectId_valid hcast, hcast, hfind, hidx, hget]
  simp [markPaid]

/-- C6 fails as stated: Carl has paid at time 50 (one expense stored,
`paymentDate` 50); his second call at time 99 is answered 200, a second
expense is stored and `paymentDate` becomes 99. -/
theorem C6_counterexample :
    dbPaid.expenses.length = 1 ∧
    dbPaid.trips.map (fun t => t.collaborators.map (fun c => (c.hasPaid, c.paymentDate)))
      = [[(true, some 50)]] ∧
    (payContribution exampleRuntime dbPaid asCarl tripT 99 expenseE2).1.status = 200 ∧
    (payContribution exampleRuntime dbPaid asCarl tripT 99 expenseE2).2.expenses.length = 2 ∧
    (payContribution exampleRuntime dbPaid asCarl tripT 99 expenseE2).2.trips.map
        (fun t => t.collaborators.map (fun c => (c.hasPaid, c.paymentDate)))
      = [[(true, some 99)]] := by
  decide

/-- C6 as amended: a further payContribution call by an accepted collaborator
whose entry already has `hasPaid = true` succeeds again: it is answered 200,
appends one more expense for the stored contribution and sets `paymentDate`
to the time of this call, `hasPaid` staying true. -/
theorem C6_pay_again (rt : JsRuntime) (db : Db) (user : Option ReqUser) (id : String)
    (now : Int) (newId : ObjectId) (oid : ObjectId) (trip : Trip) (i : Nat)
    (c : Collaborator) (hauth : unauthenticated user = false)
    (hcast : castObjectId id = some oid) (hfind : findTripById db.trips oid = some trip)
    (hidx : findIndex (fun collab => collab.user == reqUserId user && collab.status == .accepted)
      trip.collaborators = some i)
    (hc : trip.collaborators.get? i = some c) (hpaid : c.hasPaid = true) :
    (payContribution rt db user id now newId).1.status = 200 ∧
    (payContribution rt db user id now newId).2.expenses =
      db.expenses ++ [paymentExpense rt user oid c.budgetContribution now newId] ∧
    (payContribution rt db user id now newId).2.trips = saveTrip db.trips
      { trip with collaborators := modifyAt (markPaid now) i trip.collaborators } ∧
    (modifyAt (markPaid now) i trip.collaborators).get? i
      = some { c with hasPaid := true, paymentDate := some now } := by
  rw [payContribution_ok rt db user id now newId oid trip i c hauth hcast hfind hidx hc]
  refine ⟨rfl, rfl, rfl, ?_⟩
  rw [modifyAt_get?_eq, hc]
  rfl

/-- Witness of the amended C6: Carl, who paid at time 50, pays again at 99. -/
theorem C6_pay_again_witness :
    (payContribution exampleRuntime dbPaid asCarl tripT 99 expenseE2).1.status = 200 ∧
    (payContribution exampleRuntime dbPaid asCarl tripT 99 expenseE2).2.expenses =
      dbPaid.expenses ++ [paymentExpense exampleRuntime asCarl tripT (.fin 200) 99 expenseE2] ∧
    (payContribution exampleRuntime dbPaid asCarl tripT 99 expenseE2).2.trips =
      saveTrip dbPaid.trips
        { tripPaid with collaborators := modifyAt (markPaid 99) 0 tripPaid.collaborators } ∧
    (modifyAt (markPaid 99) 0 tripPaid.collaborators).get? 0
      = some ⟨carl._id, .fin 200, .accepted, true, some 99⟩ :=
  C6_pay_again exampleRuntime dbPaid asCarl tripT 99 expenseE2 tripT tripPaid 0
    ⟨carl._id, .fin 200, .accepted, true, some 50⟩ (by decide) (by decide) (by decide)
    (by decide) (by decide) (by decide)

theorem numberOrZero_eq (rt : JsRuntime) (v : JsVal) :
    numberOrZero rt v =
      if (v.toNumber rt).isNaN = true ∨ v.toNumber rt = .fin 0 then .fin 0
      else v.toNumber rt := by
  unfold numberOrZero
  cases h : v.toNumber rt with
  | nan => simp [JsNum.truthy, JsNum.isNaN]
  | negInf => simp [JsNum.truthy, JsNum.isNaN]
  | posInf => simp [JsNum.truthy, JsNum.isNaN]
  | fin q =>
    by_cases hq : q = 0
    · simp [JsNum.truthy, JsNum.isNaN, hq]
    · simp [JsNum.truthy, JsNum.isNaN, hq]

theorem numberOrZero_nonneg (rt : JsRuntime) (v : JsVal) :
    (numberOrZero rt v).nonneg = !(v.toNumber rt).ltZero := by
  unfold numberOrZero
  cases h : v.toNumber rt with
  | nan => simp [JsNum.truthy, JsNum.nonneg, JsNum.ltZero]
  | negInf => simp [JsNum.truthy, JsNum.nonneg, JsNum.ltZero]
  | posInf => simp [JsNum.truthy, JsNum.nonneg, JsNum.ltZero]
  | fin q =>
    by_cases hq : q = 0
    · simp [JsNum.truthy, JsNum.nonneg, JsNum.ltZero, hq]
    · by_cases hlt : q < 0
      · simp [JsNum.truthy, JsNum.nonneg, JsNum.ltZero, hq, hlt, not_le.2 hlt]
      · simp [JsNum.truthy, JsNum.nonneg, JsNum.ltZero, hq, hlt, not_lt.1 hlt]

theorem invite_success (rt : JsRuntime) (db : Db) (user : Option ReqUser) (tripId : String)
    (email : String) (budgetContribution : JsVal)
    (h : (invite rt db user tripId email budgetContribution).1.status = 200) :
    ∃ oid trip collaborator,
      castObjectId tripId = some oid ∧ findTripById db.trips oid = some trip ∧
      findUserByEmail db.users email = some collaborator ∧
      invite rt db user tripId email budgetContribution =
        (⟨200, .invited "Collaboration invitation sent"
            (invitationEcho rt collaborator budgetContribution)⟩,
          { db with trips := saveTrip db.trips { trip with collaborators := trip.collaborators ++ [invitation rt collaborator budgetContribution] } }) := by
  by_cases h1 : unauthenticated user = true
  · simp [invite, h1] at h
  by_cases h2 : objectIdIsValid tripId = true
  swap
  · simp [invite, h1, h2] at h
  cases hcast : castObjectId tripId with
  | none => simp [invite, h1, h2, hcast] at h
  | some oid =>
    cases hfind : findTripById db.trips oid with
    | none => simp [invite, h1, h2, hcast, hfind] at h
    | some trip =>
      by_cases h3 : trip.userId = reqUserId user
      swap
      · simp [invite, h1, h2, hcast, hfind, h3] at h
      cases hcol : findUserByEmail db.users email with
      | none => simp [invite, h1, h2, hcast, hfind, h3, hcol] at h
      | some collaborator =>
        by_cases h4 : collaborator._id = reqUserId user
        · simp [invite, h1, h2, hcast, hfind, h3, hcol, h4] at h
        cases h5 : trip.collaborators.find? (fun collab => collab.user == collaborator._id) with
        | some existing => simp [invite, h1, h2, hcast, hfind, h3, hcol, h4, h5] at h
        | none =>
          refine ⟨oid, trip, collaborator, rfl, hfind, rfl, ?_⟩
          simp [invite, h1, h2, hcast, hfind, h3, hcol, h4, h5]

/-- C7 fails as stated: Olga invites Carl with the JSON number -5 as
`budgetContribution`; the invite succeeds, and the entry stored and the
value echoed are -5, which is not ≥ 0. -/
theorem C7_counterexample :
    (invite exampleRuntime dbCreated asOlga tripT "carl@example.com" (.num (.fin (-5)))).1
      = ⟨200, .invited "Collaboration invitation sent" ⟨carl, .fin (-5), "pending"⟩⟩ ∧
    (invite exampleRuntime dbCreated asOlga tripT "carl@example.com"
        (.num (.fin (-5)))).2.trips.map (fun t => t.collaborators)
      = [[⟨carl._id, .fin (-5), .pending, false, none⟩]] ∧
    (JsNum.fin (-5)).nonneg = false := by
  decide

/-- C7 as amended: for every successful invite the `budgetContribution` stored
in the new entry and echoed in the response is `Number(input) || 0`: it is 0
when the input is not numeric (NaN) or zero, and any other number, a
negative one included, is stored unchanged; so it is ≥ 0 exactly when the
input is not a negative number. -/
theorem C7_contribution_stored (rt : JsRuntime) (db : Db) (user : Option ReqUser)
    (tripId : String) (email : String) (budgetContribution : JsVal)
    (h : (invite rt db user tripId email budgetContribution).1.status = 200) :
    ∃ (oid : ObjectId) (trip : Trip) (collaborator : User) (stored : JsNum),
      castObjectId tripId = some oid ∧ findTripById db.trips oid = some trip ∧
      (invite rt db user tripId email budgetContribution).2.trips = saveTrip db.trips
        { trip with collaborators := trip.collaborators ++ [⟨collaborator._id, stored, .pending, false, none⟩] } ∧
      (invite rt db user tripId email budgetContribution).1.body =
        .invited "Collaboration invitation sent" ⟨collaborator, stored, "pending"⟩ ∧
      stored = numberOrZero rt budgetContribution ∧
      ((budgetContribution.toNumber rt).isNaN = true ∨ budgetContribution.toNumber rt = .fin 0 →
        stored = .fin 0) ∧
      (¬ ((budgetContribution.toNumber rt).isNaN = true ∨
          budgetContribution.toNumber rt = .fin 0) →
        stored = budgetContribution.toNumber rt) ∧
      stored.nonneg = !(budgetContribution.toNumber rt).ltZero := by
  obtain ⟨oid, trip, collaborator, hcast, hfind, _, heq⟩ :=
    invite_success rt db user tripId email budgetContribution h
  refine ⟨oid, trip, collaborator, numberOrZero rt budgetContribution, hcast, hfind, ?_, ?_,
    rfl, ?_, ?_, numberOrZero_nonneg rt budgetContribution⟩
  · rw [heq]
    rfl
  · rw [heq]
    rfl
  · intro hz
    rw [numberOrZero_eq, if_pos hz]
  · intro hz
    rw [numberOrZero_eq, if_neg hz]

/-- Witness of the amended C7: Olga invites Carl with the contribution 200. -/
theorem C7_contribution_stored_witness :
    ∃ (oid : ObjectId) (trip : Trip) (collaborator : User) (stored : JsNum),
      castObjectId tripT = some oid ∧ findTripById dbCreated.trips oid = some trip ∧
      (invite exampleRuntime dbCreated asOlga tripT "carl@example.com"
          (.num (.fin 200))).2.trips = saveTrip dbCreated.trips
        { trip with collaborators := trip.collaborators ++ [⟨collaborator._id, stored, .pending, false, none⟩] } ∧
      (invite exampleRuntime dbCreated asOlga tripT "carl@example.com"
          (.num (.fin 200))).1.body =
        .invited "Collaboration invitation sent" ⟨collaborator, stored, "pending"⟩ ∧
      stored = numberOrZero exampleRuntime (.num (.fin 200)) ∧
      (((JsVal.num (.fin 200)).toNumber exampleRuntime).isNaN = true ∨
          (JsVal.num (.fin 200)).toNumber exampleRuntime = .fin 0 →
        stored = .fin 0) ∧
      (¬ (((JsVal.num (.fin 200)).toNumber exampleRuntime).isNaN = true ∨
          (JsVal.num (.fin 200)).toNumber exampleRuntime = .fin 0) →
        stored = (JsVal.num (.fin 200)).toNumber exampleRuntime) ∧
      stored.nonneg = !((JsVal.num (.fin 200)).toNumber exampleRuntime).ltZero :=
  C7_contribution_stored exampleRuntime dbCreated asOlga tripT "carl@example.com"
    (.num (.fin 200)) (by decide)

theorem recordCollaborationExpense_ok (rt : JsRuntime) (db : Db) (user : Option ReqUser)
    (tripId : String) (amount : JsVal) (description : String) (category : String)
    (date : DateField) (forUserId : JsVal) (now : Int) (newId : ObjectId) (oid : ObjectId)
    (trip : Trip) (c : Collaborator) (hauth : unauthenticated user = false)
    (hcast : castObjectId tripId = some oid) (hfind : findTripById db.trips oid = some trip)
    (hc : c ∈ trip.collaborators) (hcu : c.user = reqUserId user)
    (hcs : c.status = .accepted) (hamount : amount.truthy = true)
    (hnum : (amount.toNumber rt).isNaN = false) (hdesc : description ≠ "")
    (hcat : storedCategory rt category ≠ "") (hdate : date.invalid = false) :
    recordCollaborationExpense rt db user tripId amount description category date forUserId
        now newId =
      (⟨201, .expenseAdded "Expense added successfully"
          (collaborationExpense rt user oid trip amount description category date now newId)
          (emailOrUnknown (findUserById db.users (reqUserId user)))⟩,
        { db with expenses := db.expenses ++
            [collaborationExpense rt user oid trip amount description category date now newId] }) := by
  have hvalid := castObjectId_valid hcast
  have hne : tripId ≠ "" := by
    intro e
    rw [e] at hvalid
    simp [isValidObjectId] at hvalid
  have hany : trip.collaborators.any
      (fun collab => collab.user == reqUserId user && collab.status == .accepted) = true := by
    rw [List.any_eq_true]
    exact ⟨c, hc, by simp [hcu, hcs]⟩
  unfold recordCollaborationExpense
  simp only [hauth, hne, hamount, hdesc, hvalid, hcast, hfind, hany, hnum, hcat, hdate]
  simp

theorem recordCollaborationExpense_success (rt : JsRuntime) (db : Db)
    (user : Option ReqUser) (tripId : String) (amount : JsVal) (description : String)
    (category : String) (date : DateField) (forUserId : JsVal) (now : Int)
    (newId : ObjectId)
    (h : (recordCollaborationExpense rt db user tripId amount description category date
      forUserId now newId).1.status = 201) :
    amount.truthy = true ∧ (amount.toNumber rt).isNaN = false ∧ description ≠ "" := by
  by_cases h1 : unauthenticated user = true
  · simp [recordCollaborationExpense, h1] at h
  by_cases h2 : tripId = "" ∨ (!amount.truthy) = true ∨ description = ""
  · simp only [recordCollaborationExpense, h1, h2] at h
    simp at h
  have h2' := h2
  simp only [not_or, Bool.not_eq_true', Bool.not_eq_false] at h2'
  refine ⟨h2'.2.1, ?_, h2'.2.2⟩
  by_cases h3 : (!isValidObjectId tripId) = true
  · simp only [recordCollaborationExpense, h1, h2, h3] at h
    simp at h
  cases hcast : castObjectId tripId with
  | none =>
    simp only [recordCollaborationExpense, h1, h2, h3, hcast] at h
    simp at h
  | some oid =>
    cases hfind : findTripById db.trips oid with
    | none =>
      simp only [recordCollaborationExpense, h1, h2, h3, hcast, hfind] at h
      simp at h
    | some trip =>
      by_cases h4 : (!trip.collaborators.any
          (fun collab => collab.user == reqUserId user && collab.status == .accepted)) = true
      · simp only [recordCollaborationExpense, h1, h2, h3, hcast, hfind, h4] at h
        simp at h
      by_cases h5 : (amount.toNumber rt).isNaN = true ∨ storedCategory rt category = "" ∨
          date.invalid = true
      · simp only [recordCollaborationExpense, h1, h2, h3, hcast, hfind, h4, h5] at h
        simp at h
      simp only [not_or, Bool.not_eq_true] at h5
      exact h5.1

/-- C8 fails as stated: Carl, an accepted collaborator, records an expense with
the amount -5 and the description "taxi"; the call is answered 201 and an
expense with amount -5 is stored. -/
theorem C8_counterexample :
    (recordCollaborationExpense exampleRuntime dbAccepted asCarl tripT (.num (.fin (-5)))
      "taxi" "Transportation" .absent .undefined 70 expenseE1).1.status = 201 ∧
    (recordCollaborationExpense exampleRuntime dbAccepted asCarl tripT (.num (.fin (-5)))
      "taxi" "Transportation" .absent .undefined 70 expenseE1).2.expenses.map (·.amount)
      = [.fin (-5)] ∧
    (JsNum.fin (-5)).pos = false := by
  decide

/-- C8 as amended: for an authenticated caller, recordCollaborationExpense is
answered 400 and creates no expense whenever the amount is falsy (absent,
zero, NaN, empty text) or the description is empty; it can only succeed with
a truthy amount that `Number` does not turn into NaN and a non-empty
description; a negative amount is not refused: with it the call of an
accepted collaborator succeeds and stores the negative amount. -/
theorem C8_record_validation (rt : JsRuntime) (db : Db) (user : Option ReqUser)
    (tripId : String) (amount : JsVal) (description : String) (category : String)
    (date : DateField) (forUserId : JsVal) (now : Int) (newId : ObjectId)
    (hauth : unauthenticated user = false) :
    (amount.truthy = false ∨ description = "" →
      recordCollaborationExpense rt db user tripId amount description category date
        forUserId now newId = (⟨400, .error "Missing required fields"⟩, db)) ∧
    ((recordCollaborationExpense rt db user tripId amount description category date
        forUserId now newId).1.status = 201 →
      amount.truthy = true ∧ (amount.toNumber rt).isNaN = false ∧ description ≠ "") ∧
    (∀ (q : ℚ) (oid : ObjectId) (trip : Trip) (c : Collaborator),
      amount = .num (.fin q) → q < 0 → description ≠ "" →
      castObjectId tripId = some oid → findTripById db.trips oid = some trip →
      c ∈ trip.collaborators → c.user = reqUserId user → c.status = .accepted →
      storedCategory rt category ≠ "" → date.invalid = false →
      (recordCollaborationExpense rt db user tripId amount description category date
        forUserId now newId).1.status = 201 ∧
      ∃ e, (recordCollaborationExpense rt db user tripId amount description category date
        forUserId now newId).2.expenses = db.expenses ++ [e] ∧ e.amount = .fin q) := by
  refine ⟨?_, recordCollaborationExpense_success rt db user tripId amount description
    category date forUserId now newId, ?_⟩
  · intro h
    have h2 : tripId = "" ∨ (!amount.truthy) = true ∨ description = "" := by
      rcases h with h | h
      · exact Or.inr (Or.inl (by simp [h]))
      · exact Or.inr (Or.inr h)
    unfold recordCollaborationExpense
    simp only [hauth, h2]
    simp
  · intro q oid trip c ha hq hdesc hcast hfind hc hcu hcs hcat hdate
    have hq0 : q ≠ 0 := ne_of_lt hq
    have htruthy : amount.truthy = true := by
      rw [ha]
      simp [JsVal.truthy, JsNum.truthy, hq0]
    have hnum : (amount.toNumber rt).isNaN = false := by
      rw [ha]
      rfl
    rw [recordCollaborationExpense_ok rt db user tripId amount description category date
      forUserId now newId oid trip c hauth hcast hfind hc hcu hcs htruthy hnum hdesc hcat
      hdate]
    refine ⟨rfl, _, rfl, ?_⟩
    rw [ha]
    rfl

/-- Witness of the amended C8: Carl records an expense of -5 for the example trip. -/
theorem C8_record_validation_witness :
    ((JsVal.num (.fin (-5))).truthy = false ∨ ("taxi" : String) = "" →
      recordCollaborationExpense exampleRuntime dbAccepted asCarl tripT (.num (.fin (-5)))
        "taxi" "Transportation" .absent .undefined 70 expenseE1 =
          (⟨400, .error "Missing required fields"⟩, dbAccepted)) ∧
    ((recordCollaborationExpense exampleRuntime dbAccepted asCarl tripT (.num (.fin (-5)))
        "taxi" "Transportation" .absent .undefined 70 expenseE1).1.status = 201 →
      (JsVal.num (.fin (-5))).truthy = true ∧
      ((JsVal.num (.fin (-5))).toNumber exampleRuntime).isNaN = false ∧
      ("taxi" : String) ≠ "") ∧
    (∀ (q : ℚ) (oid : ObjectId) (trip : Trip) (c : Collaborator),
      JsVal.num (.fin (-5)) = .num (.fin q) → q < 0 → ("taxi" : String) ≠ "" →
      castObjectId tripT = some oid → findTripById dbAccepted.trips oid = some trip →
      c ∈ trip.collaborators → c.user = reqUserId asCarl → c.status = .accepted →
      storedCategory exampleRuntime "Transportation" ≠ "" →
      DateField.absent.invalid = false →
      (recordCollaborationExpense exampleRuntime dbAccepted asCarl tripT (.num (.fin (-5)))
        "taxi" "Transportation" .absent .undefined 70 expenseE1).1.status = 201 ∧
      ∃ e, (recordCollaborationExpense exampleRuntime dbAccepted asCarl tripT
        (.num (.fin (-5))) "taxi" "Transportation" .absent .undefined 70
          expenseE1).2.expenses = dbAccepted.expenses ++ [e] ∧ e.amount = .fin q) :=
  C8_record_validation exampleRuntime dbAccepted asCarl tripT (.num (.fin (-5))) "taxi"
    "Transportation" .absent .undefined 70 expenseE1 (by decide)

/-- C9, the code at the failing input: on the example trip Carl is accepted and
Dora is pending; the pending-invitations route called by Carl answers 200
with that trip, because the filter on `collaborators.user` and the filter on
`collaborators.status` are matched by different entries. -/
theorem C9_requests_lists_accepted_trip :
    tripMixed.collaborators.map (fun c => (c.user, c.status))
      = [(carl._id, .accepted), (dora._id, .pending)] ∧
    Reachable exampleRuntime dbMixed ∧
    getRequests dbMixed asCarl = (⟨200, .populatedTrips [(tripMixed, some olga)]⟩, dbMixed) :=
  ⟨by decide, reachable_dbMixed, by decide⟩

/-- C10: in a reachable store, a recordCollaborationExpense call by an accepted
collaborator with valid input (a truthy amount that is a number, a
non-empty description, a category that does not trim to nothing, a date
that is absent or a date) is answered 201 and adds exactly one expense, with
`isCollaborationExpense = true`, payer the caller, `forUserId` the owner of
the trip, `isPaid = false` and the id of the trip; the owner differs from
the payer, since no trip of a reachable store has an entry for its owner. -/
theorem C10_record_collaboration_expense (rt : JsRuntime) (db : Db) (hr : Reachable rt db)
    (user : Option ReqUser) (tripId : String) (amount : JsVal) (description : String)
    (category : String) (date : DateField) (forUserId : JsVal) (now : Int)
    (newId : ObjectId) (oid : ObjectId) (trip : Trip) (c : Collaborator)
    (hauth : unauthenticated user = false)
    (hcast : castObjectId tripId = some oid) (hfind : findTripById db.trips oid = some trip)
    (hc : c ∈ trip.collaborators) (hcu : c.user = reqUserId user)
    (hcs : c.status = .accepted) (hamount : amount.truthy = true)
    (hnum : (amount.toNumber rt).isNaN = false) (hdesc : description ≠ "")
    (hcat : storedCategory rt category ≠ "") (hdate : date.invalid = false) :
    (recordCollaborationExpense rt db user tripId amount description category date forUserId
      now newId).1.status = 201 ∧
    (recordCollaborationExpense rt db user tripId amount description category date forUserId
      now newId).2.trips = db.trips ∧
    (∃ e : Expense,
      (recordCollaborationExpense rt db user tripId amount description category date
        forUserId now newId).2.expenses = db.expenses ++ [e] ∧
      e.isCollaborationExpense = true ∧ e.userId = reqUserId user ∧
      e.forUserId = some trip.userId ∧ e.isPaid = false ∧ e.tripId = trip._id ∧
      e.amount = amount.toNumber rt ∧ trip.userId ≠ e.userId) ∧
    ∀ t ∈ db.trips, ∀ entry ∈ t.collaborators, entry.user ≠ t.userId := by
  rw [recordCollaborationExpense_ok rt db user tripId amount description category date
    forUserId now newId oid trip c hauth hcast hfind hc hcu hcs hamount hnum hdesc hcat hdate]
  have hfound := findTripById_some hfind
  refine ⟨rfl, rfl, ⟨_, rfl, rfl, rfl, rfl, rfl, ?_, rfl, ?_⟩, reachable_no_self hr⟩
  · exact hfound.2.symm
  · show trip.userId ≠ reqUserId user
    rw [← hcu]
    exact fun e => reachable_no_self hr trip hfound.1 c hc e.symm

/-- Witness of C10: Carl, accepted on the example trip, records a taxi fare. -/
theorem C10_record_collaboration_expense_witness :
    (recordCollaborationExpense exampleRuntime dbAccepted asCarl tripT (.num (.fin 45))
      "taxi" "Transportation" .absent .undefined 70 expenseE1).1.status = 201 ∧
    (recordCollaborationExpense exampleRuntime dbAccepted asCarl tripT (.num (.fin 45))
      "taxi" "Transportation" .absent .undefined 70 expenseE1).2.trips = dbAccepted.trips ∧
    (∃ e : Expense,
      (recordCollaborationExpense exampleRuntime dbAccepted asCarl tripT (.num (.fin 45))
        "taxi" "Transportation" .absent .undefined 70 expenseE1).2.expenses
          = dbAccepted.expenses ++ [e] ∧
      e.isCollaborationExpense = true ∧ e.userId = reqUserId asCarl ∧
      e.forUserId = some tripAccepted.userId ∧ e.isPaid = false ∧
      e.tripId = tripAccepted._id ∧
      e.amount = (JsVal.num (.fin 45)).toNumber exampleRuntime ∧
      tripAccepted.userId ≠ e.userId) ∧
    ∀ t ∈ dbAccepted.trips, ∀ entry ∈ t.collaborators, entry.user ≠ t.userId :=
  C10_record_collaboration_expense exampleRuntime dbAccepted reachable_dbAccepted asCarl
    tripT (.num (.fin 45)) "taxi" "Transportation" .absent .undefined 70 expenseE1 tripT
    tripAccepted ⟨carl._id, .fin 200, .accepted, false, none⟩ (by decide) (by decide)
    (by decide) (by decide) (by decide) (by decide) (by decide) (by decide) (by decide)
    (by decide) (by decide)

/-! ## The example stores, continued -/

theorem dbRecorded_eq : dbRecorded = ⟨[olga, carl, dora], [tripAccepted], [taxiExpense]⟩ := by
  decide

theorem reachable_dbRecorded : Reachable exampleRuntime dbRecorded :=
  reachable_run (Reachable.init _) opsRecorded (by decide)

theorem dbCreated_eq :
    dbCreated = ⟨[olga, carl, dora], [{ tripAccepted with collaborators := [] }], []⟩ := by
  decide

theorem reachable_dbCreated : Reachable exampleRuntime dbCreated :=
  reachable_run (Reachable.init _) opsCreated (by decide)

/-! ## What a request does to the expenses, by kind of request -/

theorem fresh_not_mem {ids : List ObjectId} {newId : ObjectId} {p : Bool}
    (h : (p && !ids.contains newId) = true) : newId ∉ ids := by
  simp only [Bool.and_eq_true, Bool.not_eq_true'] at h
  intro hmem
  have h2 := h.2
  rw [List.contains_eq_any_beq, List.any_eq_false] at h2
  exact h2 newId hmem (by simp)

theorem payContribution_expensesStep (rt : JsRuntime) (db : Db) (user : Option ReqUser)
    (id : String) (now : Int) (newId : ObjectId) (op : Op)
    (hf : newId ∉ db.expenses.map (·._id)) :
    ExpensesStep op db.expenses (payContribution rt db user id now newId).2.expenses := by
  unfold payContribution
  dsimp only
  repeat' split
  all_goals first
    | exact ExpensesStep.same
    | exact ExpensesStep.added _ hf

theorem recordCollaborationExpense_expensesStep (rt : JsRuntime) (db : Db)
    (user : Option ReqUser) (tripId : String) (amount : JsVal) (description : String)
    (category : String) (date : DateField) (forUserId : JsVal) (now : Int)
    (newId : ObjectId) (op : Op) (hf : newId ∉ db.expenses.map (·._id)) :
    ExpensesStep op db.expenses (recordCollaborationExpense rt db user tripId amount
      description category date forUserId now newId).2.expenses := by
  unfold recordCollaborationExpense
  dsimp only
  repeat' split
  all_goals first
    | exact ExpensesStep.same
    | exact ExpensesStep.added _ hf

theorem createExpense_expensesStep (rt : JsRuntime) (db : Db) (user : ReqUser)
    (amount : JsVal) (category : String) (description : Option String) (date : DateField)
    (tripId : String) (now : Int) (newId : ObjectId) (op : Op)
    (hf : newId ∉ db.expenses.map (·._id)) :
    ExpensesStep op db.expenses (createExpense rt db user amount category description date
      tripId now newId).2.expenses := by
  unfold createExpense
  dsimp only
  repeat' split
  all_goals first
    | exact ExpensesStep.same
    | exact ExpensesStep.added _ hf

theorem settleReimbursement_expensesStep (db : Db) (user : Option ReqUser)
    (expenseId : String) (now : Int) :
    ExpensesStep (.settleReimbursement user expenseId now) db.expenses
      (settleReimbursement db user expenseId now).2.expenses := by
  unfold settleReimbursement
  dsimp only
  split
  · exact ExpensesStep.same
  split
  · exact ExpensesStep.same
  split
  · exact ExpensesStep.same
  split
  · exact ExpensesStep.same
  rename_i expense hfind
  split
  · exact ExpensesStep.same
  rename_i forUser hfor
  split
  · exact ExpensesStep.same
  rename_i hown
  refine ExpensesStep.settled user expenseId now _ expense rfl hfind ?_
  rw [hfor, owner_of_not_ne hown]

theorem updateExpense_expensesStep (db : Db) (user : ReqUser) (id : String)
    (update : ExpenseUpdate) :
    ExpensesStep (.updateExpense user id update) db.expenses
      (updateExpense db user id update).2.expenses := by
  unfold updateExpense
  split
  · rename_i oid payer hid hpayer
    split
    · exact ExpensesStep.same
    · rename_i expense hfind
      exact ExpensesStep.updated user id update oid payer expense rfl hpayer hfind
  · exact ExpensesStep.same

theorem deleteExpense_expensesStep (db : Db) (user : ReqUser) (id : String) :
    ExpensesStep (.deleteExpense user id) db.expenses (deleteExpense db user id).2.expenses := by
  unfold deleteExpense
  split
  · rename_i oid payer hid hpayer
    split
    · exact ExpensesStep.same
    · exact ExpensesStep.deleted user id oid payer rfl hid hpayer
  · exact ExpensesStep.same

theorem deleteTrip_expensesStep (db : Db) (user : Option ReqUser) (id : String) :
    ExpensesStep (.deleteTrip user id) db.expenses (deleteTrip db user id).2.expenses := by
  unfold deleteTrip
  split
  · exact ExpensesStep.same
  split
  · exact ExpensesStep.same
  split
  · exact ExpensesStep.same
  rename_i oid hcast
  split
  · exact ExpensesStep.same
  split
  · exact ExpensesStep.same
  exact ExpensesStep.tripDeleted user id oid rfl hcast

theorem exec_expensesStep (rt : JsRuntime) (db : Db) (op : Op) (hf : op.freshIds db = true) :
    ExpensesStep op db.expenses (exec rt db op).2.expenses := by
  cases op with
  | setUsers users => exact ExpensesStep.same
  | createTrip user destination purpose startDate endDate budget notes now newId =>
    show ExpensesStep _ db.expenses (createTrip rt db user destination purpose startDate
      endDate budget notes now newId).2.expenses
    rw [createTrip_expenses]
    exact ExpensesStep.same
  | updateTrip user id destination purpose startDate endDate budget notes =>
    show ExpensesStep _ db.expenses (updateTrip rt db user id destination purpose startDate
      endDate budget notes).2.expenses
    rw [updateTrip_expenses]
    exact ExpensesStep.same
  | deleteTrip user id => exact deleteTrip_expensesStep db user id
  | invite user tripId email budgetContribution =>
    show ExpensesStep _ db.expenses (invite rt db user tripId email
      budgetContribution).2.expenses
    rw [invite_expenses]
    exact ExpensesStep.same
  | respond user tripId status =>
    show ExpensesStep _ db.expenses (respond db user tripId status).2.expenses
    rw [respond_expenses]
    exact ExpensesStep.same
  | removeCollaborator user tripId userId =>
    show ExpensesStep _ db.expenses (removeCollaborator db user tripId userId).2.expenses
    rw [removeCollaborator_expenses]
    exact ExpensesStep.same
  | payContribution user id now newId =>
    exact payContribution_expensesStep rt db user id now newId _ (fresh_not_mem hf)
  | recordCollaborationExpense user tripId amount description category date forUserId now
      newId =>
    exact recordCollaborationExpense_expensesStep rt db user tripId amount description
      category date forUserId now newId _ (fresh_not_mem hf)
  | settleReimbursement user expenseId now =>
    exact settleReimbursement_expensesStep db user expenseId now
  | createExpense user amount category description date tripId now newId =>
    exact createExpense_expensesStep rt db user amount category description date tripId now
      newId _ (fresh_not_mem hf)
  | updateExpense user id update => exact updateExpense_expensesStep db user id update
  | deleteExpense user id => exact deleteExpense_expensesStep db user id

theorem saveExpense_ids {expenses : List Expense} {saved : Expense} :
    (saveExpense expenses saved).map (·._id) = expenses.map (·._id) := by
  unfold saveExpense
  rw [List.map_map]
  apply List.map_congr_left
  intro a _
  by_cases e : a._id = saved._id <;> simp [e]

theorem expensesStep_ids_nodup {op : Op} {es es' : List Expense}
    (h : ExpensesStep op es es') (hn : (es.map (·._id)).Nodup) :
    (es'.map (·._id)).Nodup := by
  cases h with
  | same => exact hn
  | added e hfresh =>
    rw [List.map_append, List.map_singleton]
    refine List.Nodup.append hn (List.nodup_singleton _) ?_
    intro a ha hb
    rw [List.mem_singleton.1 hb] at ha
    exact hfresh ha
  | settled user expenseId now oid e _ _ _ =>
    rw [saveExpense_ids]
    exact hn
  | updated user id update oid payer e _ _ _ =>
    rw [saveExpense_ids]
    exact hn
  | tripDeleted user id oid _ _ =>
    exact hn.sublist ((List.filter_sublist _).map _)
  | deleted user id oid payer _ _ _ =>
    exact hn.sublist ((removeFirst_sublist _ _).map _)

theorem reachable_expense_ids_nodup {rt : JsRuntime} {db : Db} (h : Reachable rt db) :
    (db.expenses.map (·._id)).Nodup := by
  induction h with
  | init users => simp
  | step db op _ hf ih => exact expensesStep_ids_nodup (exec_expensesStep rt db op hf) ih

theorem eq_of_same_expense_id {es : List Expense} (hn : (es.map (·._id)).Nodup)
    {a b : Expense} (ha : a ∈ es) (hb : b ∈ es) (e : a._id = b._id) : a = b :=
  List.inj_on_of_nodup_map hn ha hb e

theorem mem_removeFirst_of_false {α : Type} (p : α → Bool) :
    ∀ (l : List α) (a : α), a ∈ l → p a = false → a ∈ removeFirst p l
  | [], a, h, _ => by simp at h
  | b :: bs, a, h, hp => by
    unfold removeFirst
    by_cases hb : p b = true
    · simp only [hb, if_true]
      rcases List.mem_cons.1 h with e | e
      · rw [e, hb] at hp
        exact absurd hp (by simp)
      · exact e
    · simp only [hb]
      rcases List.mem_cons.1 h with e | e
      · rw [e]
        exact List.mem_cons_self _ _
      · exact List.mem_cons_of_mem _ (mem_removeFirst_of_false p bs a e hp)

/-- The stored expense with a given id after a request: it is the stored
expense itself, its settled form, or its form under the update document of
the plain update route sent by its payer. -/
theorem expensesStep_same_id {op : Op} {es es' : List Expense}
    (h : ExpensesStep op es es') (hn : (es.map (·._id)).Nodup) (e : Expense)
    (he : e ∈ es) (e' : Expense) (he' : e' ∈ es') (hid : e'._id = e._id) :
    e' = e ∨ (∃ now, e' = markExpensePaid now e) ∨
      (∃ user id update, op = .updateExpense user id update ∧
        castObjectId user.id = some e.userId ∧ e' = update.apply e) := by
  have hold : e' ∈ es → e' = e := fun hm => eq_of_same_expense_id hn hm he hid
  cases h with
  | same => exact Or.inl (hold he')
  | added n hfresh =>
    rcases List.mem_append.1 he' with hm | hm
    · exact Or.inl (hold hm)
    · rw [List.mem_singleton.1 hm] at hid
      exact absurd (List.mem_map.2 ⟨e, he, hid.symm⟩) hfresh
  | settled user expenseId now oid e0 _ hfind _ =>
    rcases mem_saveExpense he' with hm | hm
    · have h0 : e0 ∈ es := List.mem_of_find?_eq_some hfind
      have : e0 = e := eq_of_same_expense_id hn h0 he (by rw [← hid, hm]; rfl)
      rw [hm, this]
      exact Or.inr (Or.inl ⟨now, rfl⟩)
    · exact Or.inl (hold hm)
  | updated user id update oid payer e0 hop hpayer hfind =>
    rcases mem_saveExpense he' with hm | hm
    · have h0 : e0 ∈ es := List.mem_of_find?_eq_some hfind
      have hp := List.find?_some hfind
      simp only [Bool.and_eq_true, beq_iff_eq] at hp
      have : e0 = e := eq_of_same_expense_id hn h0 he (by rw [← hid, hm]; rfl)
      rw [hm, ← this]
      refine Or.inr (Or.inr ⟨user, id, update, hop, ?_, rfl⟩)
      rw [hpayer, hp.2]
    · exact Or.inl (hold hm)
  | tripDeleted user id oid _ _ => exact Or.inl (hold (List.mem_of_mem_filter he'))
  | deleted user id oid payer _ _ _ =>
    exact Or.inl (hold ((removeFirst_sublist _ _).subset he'))

/-- A stored expense whose id is gone after a request was removed with its
trip or by the plain delete route called by its payer. -/
theorem expensesStep_removed {op : Op} {es es' : List Expense}
    (h : ExpensesStep op es es') (e : Expense) (he : e ∈ es)
    (hgone : ∀ e' ∈ es', e'._id ≠ e._id) :
    (∃ user id, op = .deleteTrip user id ∧ castObjectId id = some e.tripId) ∨
    (∃ user id, op = .deleteExpense user id ∧ castObjectId id = some e._id ∧
      castObjectId user.id = some e.userId) := by
  cases h with
  | same => exact absurd rfl (hgone e he)
  | added n _ => exact absurd rfl (hgone e (List.mem_append_left _ he))
  | settled user expenseId now oid e0 _ _ _ =>
    have hm : e._id ∈ (saveExpense es (markExpensePaid now e0)).map (·._id) := by
      rw [saveExpense_ids]
      exact List.mem_map.2 ⟨e, he, rfl⟩
    obtain ⟨e', he', hid⟩ := List.mem_map.1 hm
    exact absurd hid (hgone e' he')
  | updated user id update oid payer e0 _ _ _ =>
    have hm : e._id ∈ (saveExpense es (update.apply e0)).map (·._id) := by
      rw [saveExpense_ids]
      exact List.mem_map.2 ⟨e, he, rfl⟩
    obtain ⟨e', he', hid⟩ := List.mem_map.1 hm
    exact absurd hid (hgone e' he')
  | tripDeleted user id oid hop hcast =>
    refine Or.inl ⟨user, id, hop, ?_⟩
    by_cases ht : e.tripId = oid
    · rw [hcast, ht]
    · have : e ∈ es.filter (fun x => x.tripId != oid) :=
        List.mem_filter.2 ⟨he, by simpa using ht⟩
      exact absurd rfl (hgone e this)
  | deleted user id oid payer hop hid hpayer =>
    refine Or.inr ⟨user, id, hop, ?_⟩
    by_cases hp : (e._id == oid && e.userId == payer) = true
    · simp only [Bool.and_eq_true, beq_iff_eq] at hp
      rw [hid, hpayer, hp.1, hp.2]
      exact ⟨rfl, rfl⟩
    · have hp' : (e._id == oid && e.userId == payer) = false := by simpa using hp
      have := mem_removeFirst_of_false (fun x => x._id == oid && x.userId == payer) es e he hp'
      exact absurd rfl (hgone e this)

/-! ## Settled claims, continued -/

theorem deleteTrip_ok (db : Db) (user : Option ReqUser) (id : String) (oid : ObjectId)
    (trip : Trip) (hauth : unauthenticated user = false)
    (hcast : castObjectId id = some oid) (hfind : findTripById db.trips oid = some trip)
    (hown : trip.userId = reqUserId user) :
    deleteTrip db user id =
      (⟨200, .message "Trip deleted successfully"⟩,
        { db with
          expenses := db.expenses.filter (fun e => e.tripId != oid)
          trips := db.trips.filter (fun t => t._id != oid) }) := by
  unfold deleteTrip
  simp only [hauth, castObjectId_valid hcast, hcast, hfind]
  simp [hown]

/-- C11: when the owner deletes trip T (the call is answered 200), the trips
after it are the trips before it without T, in the same order, and the
expenses after it are the expenses before it without those whose `tripId`
is T, in the same order: neither T nor an expense of T remains, and every
other trip and expense is kept as it was. -/
theorem C11_delete_trip_cascades (db : Db) (user : Option ReqUser) (id : String)
    (oid : ObjectId) (trip : Trip) (hauth : unauthenticated user = false)
    (hcast : castObjectId id = some oid) (hfind : findTripById db.trips oid = some trip)
    (hown : trip.userId = reqUserId user) :
    (deleteTrip db user id).1.status = 200 ∧
    (deleteTrip db user id).2.trips = db.trips.filter (fun t => t._id != trip._id) ∧
    (deleteTrip db user id).2.expenses = db.expenses.filter (fun e => e.tripId != trip._id) ∧
    (deleteTrip db user id).2.users = db.users ∧
    (∀ t ∈ (deleteTrip db user id).2.trips, t._id ≠ trip._id) ∧
    (∀ e ∈ (deleteTrip db user id).2.expenses, e.tripId ≠ trip._id) ∧
    (∀ t ∈ db.trips, t._id ≠ trip._id → t ∈ (deleteTrip db user id).2.trips) ∧
    (∀ e ∈ db.expenses, e.tripId ≠ trip._id → e ∈ (deleteTrip db user id).2.expenses) := by
  rw [deleteTrip_ok db user id oid trip hauth hcast hfind hown]
  have hid : trip._id = oid := (findTripById_some hfind).2
  rw [hid]
  refine ⟨rfl, rfl, rfl, rfl, ?_, ?_, ?_, ?_⟩
  · intro t ht
    simpa using (List.mem_filter.1 ht).2
  · intro e he
    simpa using (List.mem_filter.1 he).2
  · intro t ht hne
    exact List.mem_filter.2 ⟨ht, by simpa using hne⟩
  · intro e he hne
    exact List.mem_filter.2 ⟨he, by simpa using hne⟩

/-- Witness of C11: Olga deletes the example trip, on which Carl has recorded
a taxi fare. -/
theorem C11_delete_trip_cascades_witness :
    (deleteTrip dbRecorded asOlga tripT).1.status = 200 ∧
    (deleteTrip dbRecorded asOlga tripT).2.trips
      = dbRecorded.trips.filter (fun t => t._id != tripAccepted._id) ∧
    (deleteTrip dbRecorded asOlga tripT).2.expenses
      = dbRecorded.expenses.filter (fun e => e.tripId != tripAccepted._id) ∧
    (deleteTrip dbRecorded asOlga tripT).2.users = dbRecorded.users ∧
    (∀ t ∈ (deleteTrip dbRecorded asOlga tripT).2.trips, t._id ≠ tripAccepted._id) ∧
    (∀ e ∈ (deleteTrip dbRecorded asOlga tripT).2.expenses, e.tripId ≠ tripAccepted._id) ∧
    (∀ t ∈ dbRecorded.trips, t._id ≠ tripAccepted._id →
      t ∈ (deleteTrip dbRecorded asOlga tripT).2.trips) ∧
    (∀ e ∈ dbRecorded.expenses, e.tripId ≠ tripAccepted._id →
      e ∈ (deleteTrip dbRecorded asOlga tripT).2.expenses) :=
  C11_delete_trip_cascades dbRecorded asOlga tripT tripT tripAccepted (by decide)
    (by decide) (by decide) (by decide)

theorem spliceOne_eq_filter (u : ObjectId) :
    ∀ (cs : List Collaborator) (i : Nat), (cs.map (·.user)).Nodup →
      findIndex (fun c => c.user == u) cs = some i →
      spliceOne i cs = cs.filter (fun c => c.user != u)
  | [], i, _, h => by simp [findIndex] at h
  | a :: as, i, hn, h => by
    simp only [List.map_cons, List.nodup_cons] at hn
    unfold findIndex at h
    by_cases ha : a.user = u
    · simp only [ha, beq_self_eq_true, if_true, Option.some.injEq] at h
      subst h
      have hrest : as.filter (fun c => c.user != u) = as := by
        rw [List.filter_eq_self]
        intro c hc
        have : c.user ≠ u := by
          intro e
          exact hn.1 (List.mem_map.2 ⟨c, hc, by rw [e, ha]⟩)
        simpa using this
      simp [spliceOne, List.filter_cons, ha, hrest]
    · have hne : (a.user == u) = false := by simpa using ha
      simp only [hne, Bool.false_eq_true, if_false, Option.map_eq_some'] at h
      obtain ⟨j, hj, rfl⟩ := h
      have ih := spliceOne_eq_filter u as j hn.2 hj
      simp [spliceOne, List.filter_cons, ha, ih]

theorem spliceOne_length {α : Type} :
    ∀ (i : Nat) (l : List α) (a : α), l.get? i = some a →
      (spliceOne i l).length + 1 = l.length
  | _, [], a, h => by simp at h
  | 0, b :: bs, a, _ => by simp [spliceOne]
  | n + 1, b :: bs, a, h => by
    have ih := spliceOne_length n bs a (by simpa using h)
    simp [spliceOne, ih]

theorem removeCollaborator_ok (db : Db) (user : Option ReqUser) (tripId : String)
    (userId : String) (oid : ObjectId) (trip : Trip) (i : Nat)
    (hauth : unauthenticated user = false) (hcast : castObjectId tripId = some oid)
    (hfind : findTripById db.trips oid = some trip) (hown : trip.userId = reqUserId user)
    (hidx : findIndex (fun collab => collab.user == userId) trip.collaborators = some i) :
    removeCollaborator db user tripId userId =
      (⟨200, .message "Collaborator removed successfully"⟩,
        { db with trips := saveTrip db.trips { trip with collaborators := spliceOne i trip.collaborators } }) := by
  unfold removeCollaborator
  simp only [hauth, hcast, hfind, hidx]
  simp [hown]

/-- C12: on a reachable store, a removal of user U by the owner of trip T, U
having an entry on T, is answered 200 and leaves as collaborator list of T
the former list without the entry of U: one entry less, none for U, every
other entry as it was and in the same order; the expenses and the users are
as before. -/
theorem C12_remove_deletes_one_entry (rt : JsRuntime) (db : Db) (hr : Reachable rt db)
    (user : Option ReqUser) (tripId : String) (userId : String) (oid : ObjectId)
    (trip : Trip) (c : Collaborator) (hauth : unauthenticated user = false)
    (hcast : castObjectId tripId = some oid) (hfind : findTripById db.trips oid = some trip)
    (hown : trip.userId = reqUserId user) (hc : c ∈ trip.collaborators)
    (hcu : c.user = userId) :
    (removeCollaborator db user tripId userId).1.status = 200 ∧
    (removeCollaborator db user tripId userId).2.trips = saveTrip db.trips
      { trip with collaborators := trip.collaborators.filter (fun x => x.user != userId) } ∧
    (trip.collaborators.filter (fun x => x.user != userId)).length + 1
      = trip.collaborators.length ∧
    (∀ x ∈ trip.collaborators.filter (fun x => x.user != userId), x.user ≠ userId) ∧
    (∀ x ∈ trip.collaborators, x.user ≠ userId →
      x ∈ trip.collaborators.filter (fun x => x.user != userId)) ∧
    (removeCollaborator db user tripId userId).2.expenses = db.expenses ∧
    (removeCollaborator db user tripId userId).2.users = db.users := by
  obtain ⟨i, hidx⟩ := findIndex_isSome_of_mem (fun collab => collab.user == userId)
    trip.collaborators c hc (by simp [hcu])
  have hn := reachable_users_nodup hr trip (findTripById_some hfind).1
  have hsplice := spliceOne_eq_filter userId trip.collaborators i hn hidx
  obtain ⟨a, ha, _⟩ := findIndex_some _ _ _ hidx
  have hlen := spliceOne_length i trip.collaborators a ha
  rw [removeCollaborator_ok db user tripId userId oid trip i hauth hcast hfind hown hidx]
  rw [hsplice] at hlen ⊢
  refine ⟨rfl, rfl, hlen, ?_, ?_, rfl, rfl⟩
  · intro x hx
    simpa using (List.mem_filter.1 hx).2
  · intro x hx hne
    exact List.mem_filter.2 ⟨hx, by simpa using hne⟩

/-- Witness of C12: Olga removes Dora from the example trip, on which Carl is
accepted and Dora pending. -/
theorem C12_remove_deletes_one_entry_witness :
    (removeCollaborator dbMixed asOlga tripT dora._id).1.status = 200 ∧
    (removeCollaborator dbMixed asOlga tripT dora._id).2.trips = saveTrip dbMixed.trips
      { tripMixed with collaborators := tripMixed.collaborators.filter (fun x => x.user != dora._id) } ∧
    (tripMixed.collaborators.filter (fun x => x.user != dora._id)).length + 1
      = tripMixed.collaborators.length ∧
    (∀ x ∈ tripMixed.collaborators.filter (fun x => x.user != dora._id), x.user ≠ dora._id) ∧
    (∀ x ∈ tripMixed.collaborators, x.user ≠ dora._id →
      x ∈ tripMixed.collaborators.filter (fun x => x.user != dora._id)) ∧
    (removeCollaborator dbMixed asOlga tripT dora._id).2.expenses = dbMixed.expenses ∧
    (removeCollaborator dbMixed asOlga tripT dora._id).2.users = dbMixed.users :=
  C12_remove_deletes_one_entry exampleRuntime dbMixed reachable_dbMixed asOlga tripT dora._id
    tripT tripMixed ⟨dora._id, .fin 100, .pending, false, none⟩ (by decide) (by decide)
    (by decide) (by decide) (by decide) (by decide)

/-- C13 fails as stated: the taxi fare that Carl recorded is a collaboration
expense; the plain update route called by Carl changes its amount to 999,
and the plain delete route called by Carl removes it while its trip stays. -/
theorem C13_counterexample :
    Reachable exampleRuntime dbRecorded ∧
    dbRecorded.expenses = [taxiExpense] ∧ taxiExpense.isCollaborationExpense = true ∧
    (updateExpense dbRecorded carlUser expenseE1 amountTo999).1.status = 200 ∧
    (updateExpense dbRecorded carlUser expenseE1 amountTo999).2.expenses
      = [{ taxiExpense with amount := .fin 999 }] ∧
    (deleteExpense dbRecorded carlUser expenseE1).1.status = 200 ∧
    (deleteExpense dbRecorded carlUser expenseE1).2.expenses = [] ∧
    (deleteExpense dbRecorded carlUser expenseE1).2.trips = dbRecorded.trips :=
  ⟨reachable_dbRecorded, by decide, by decide, by decide, by decide, by decide, by decide,
    by decide⟩

theorem updateExpense_same_id (db : Db) (user : ReqUser) (id : String)
    (update : ExpenseUpdate) (hn : (db.expenses.map (·._id)).Nodup) (e : Expense)
    (he : e ∈ db.expenses) (e' : Expense)
    (he' : e' ∈ (updateExpense db user id update).2.expenses) (hid : e'._id = e._id) :
    e' = e ∨ (castObjectId id = some e._id ∧ castObjectId user.id = some e.userId ∧
      e' = update.apply e) := by
  have hold : e' ∈ db.expenses → e' = e := fun hm => eq_of_same_expense_id hn hm he hid
  cases hcid : castObjectId id with
  | none =>
    simp [updateExpense, hcid] at he'
    exact Or.inl (hold he')
  | some oid =>
    cases hcu : castObjectId user.id with
    | none =>
      simp [updateExpense, hcid, hcu] at he'
      exact Or.inl (hold he')
    | some payer =>
      cases hfind : db.expenses.find? (fun x => x._id == oid && x.userId == payer) with
      | none =>
        simp only [updateExpense, hcid, hcu, hfind] at he'
        exact Or.inl (hold he')
      | some e0 =>
        simp only [updateExpense, hcid, hcu, hfind] at he'
        rcases mem_saveExpense he' with hm | hm
        · have h0 : e0 ∈ db.expenses := List.mem_of_find?_eq_some hfind
          have hp := List.find?_some hfind
          simp only [Bool.and_eq_true, beq_iff_eq] at hp
          have h1 : e0 = e := eq_of_same_expense_id hn h0 he (by rw [← hid, hm]; rfl)
          rw [hm, ← h1]
          exact Or.inr ⟨by rw [hp.1], by rw [hp.2], rfl⟩
        · exact Or.inl (hold hm)

/-- C13 as amended: for a stored expense with `isCollaborationExpense = true`
and any request, the expense stored under its id afterwards has the same
payer, `forUserId` and collaboration flag, and the same amount, category,
description, date and trip unless the request is a plain expense update
sent by its payer for the id of this very expense, in which case the stored
expense is this expense under the update document; and if no expense is
stored under its id afterwards, the request is the deletion of the trip it
references or a plain expense delete sent by its payer for its id. -/
theorem C13_collaboration_expense_frame (rt : JsRuntime) (db : Db) (hr : Reachable rt db)
    (op : Op) (hf : op.freshIds db = true) (e : Expense) (he : e ∈ db.expenses)
    (hc : e.isCollaborationExpense = true) :
    (∀ e' ∈ (exec rt db op).2.expenses, e'._id = e._id →
      e'.userId = e.userId ∧ e'.forUserId = e.forUserId ∧
      e'.isCollaborationExpense = true ∧
      ((e'.amount = e.amount ∧ e'.category = e.category ∧ e'.description = e.description ∧
          e'.date = e.date ∧ e'.tripId = e.tripId) ∨
        ∃ user id update, op = .updateExpense user id update ∧
          castObjectId id = some e._id ∧ castObjectId user.id = some e.userId ∧
          e' = update.apply e)) ∧
    ((∀ e' ∈ (exec rt db op).2.expenses, e'._id ≠ e._id) →
      (∃ user id, op = .deleteTrip user id ∧ castObjectId id = some e.tripId) ∨
      (∃ user id, op = .deleteExpense user id ∧ castObjectId id = some e._id ∧
        castObjectId user.id = some e.userId)) := by
  have hstep := exec_expensesStep rt db op hf
  have hn := reachable_expense_ids_nodup hr
  constructor
  · intro e' he' hid
    rcases expensesStep_same_id hstep hn e he e' he' hid with h | ⟨now, h⟩ |
        ⟨user, id, update, hop, hpayer, h⟩
    · rw [h]
      exact ⟨rfl, rfl, hc, Or.inl ⟨rfl, rfl, rfl, rfl, rfl⟩⟩
    · rw [h]
      exact ⟨rfl, rfl, hc, Or.inl ⟨rfl, rfl, rfl, rfl, rfl⟩⟩
    · subst hop
      rcases updateExpense_same_id db user id update hn e he e' he' hid with
        h2 | ⟨hcid, hcu, h2⟩
      · rw [h2]
        exact ⟨rfl, rfl, hc, Or.inl ⟨rfl, rfl, rfl, rfl, rfl⟩⟩
      · rw [h2]
        exact ⟨rfl, rfl, hc, Or.inr ⟨user, id, update, rfl, hcid, hcu, rfl⟩⟩
  · exact expensesStep_removed hstep e he

/-- Witness of the amended C13: Carl sends the plain update of the amount for
the taxi fare that he recorded. -/
theorem C13_collaboration_expense_frame_witness :
    (∀ e' ∈ (exec exampleRuntime dbRecorded
        (.updateExpense carlUser expenseE1 amountTo999)).2.expenses,
      e'._id = taxiExpense._id →
      e'.userId = taxiExpense.userId ∧ e'.forUserId = taxiExpense.forUserId ∧
      e'.isCollaborationExpense = true ∧
      ((e'.amount = taxiExpense.amount ∧ e'.category = taxiExpense.category ∧
          e'.description = taxiExpense.description ∧ e'.date = taxiExpense.date ∧
          e'.tripId = taxiExpense.tripId) ∨
        ∃ user id update, Op.updateExpense carlUser expenseE1 amountTo999
            = .updateExpense user id update ∧
          castObjectId id = some taxiExpense._id ∧
          castObjectId user.id = some taxiExpense.userId ∧
          e' = update.apply taxiExpense)) ∧
    ((∀ e' ∈ (exec exampleRuntime dbRecorded
        (.updateExpense carlUser expenseE1 amountTo999)).2.expenses,
        e'._id ≠ taxiExpense._id) →
      (∃ user id, Op.updateExpense carlUser expenseE1 amountTo999 = .deleteTrip user id ∧
        castObjectId id = some taxiExpense.tripId) ∨
      (∃ user id, Op.updateExpense carlUser expenseE1 amountTo999 = .deleteExpense user id ∧
        castObjectId id = some taxiExpense._id ∧
        castObjectId user.id = some taxiExpense.userId)) :=
  C13_collaboration_expense_frame exampleRuntime dbRecorded reachable_dbRecorded
    (.updateExpense carlUser expenseE1 amountTo999) (by decide) taxiExpense
    (by rw [dbRecorded_eq]; simp) (by decide)

/-- C14, the code at the failing input: the example trip runs from 1000 to
2000; Olga, its owner, sends an update with `endDate` 500 and no
`startDate`. The date check of the update route is skipped because only one
date was sent, the call is answered 200, and the stored trip ends before it
starts. -/
theorem C14_update_stores_end_before_start :
    Reachable exampleRuntime dbCreated ∧
    dbCreated.trips.map (fun t => (t.startDate, t.endDate)) = [(1000, 2000)] ∧
    (updateTrip exampleRuntime dbCreated asOlga tripT "" "" .absent (.at 500) .undefined
      none).1.status = 200 ∧
    (updateTrip exampleRuntime dbCreated asOlga tripT "" "" .absent (.at 500) .undefined
      none).2.trips.map (fun t => (t.startDate, t.endDate)) = [(1000, 500)] :=
  ⟨reachable_dbCreated, by decide, by decide, by decide⟩

/-- C15, the code at the failing input: the expense that payContribution
stored for Carl has no `forUserId`; the settlement route called for it by
Olga is answered 500, not 403, because `expense.forUserId.toString()`
throws on null. The store is left as it was. -/
theorem C15_settle_without_forUser_is_500 :
    dbPaid.expenses.map (fun e => (e._id, e.forUserId)) = [(expenseE1, none)] ∧
    (settleReimbursement dbPaid asOlga expenseE1 60).1.status = 500 ∧
    (settleReimbursement dbPaid asOlga expenseE1 60).2 = dbPaid := by
  decide

theorem settleReimbursement_forbidden (db : Db) (user : Option ReqUser) (expenseId : String)
    (now : Int) (oid : ObjectId) (expense : Expense) (forUser : ObjectId)
    (hauth : unauthenticated user = false) (hcast : castObjectId expenseId = some oid)
    (hfind : findExpenseById db.expenses oid = some expense)
    (hfor : expense.forUserId = some forUser) (hne : forUser ≠ reqUserId user) :
    settleReimbursement db user expenseId now =
      (⟨403, .error "You are not authorized to pay this expense"⟩, db) := by
  unfold settleReimbursement
  simp only [hauth, castObjectId_valid hcast, hcast, hfind, hfor]
  simp [hne]

/-- The entry of a user on a trip after a request, against the entry before:
it is the same entry, or the entry of the caller with the status that the
caller sent, or the accepted entry of the caller marked as paid. -/
theorem tripStep_entry {actor : String} {t t' : Trip}
    (hn : (t.collaborators.map (·.user)).Nodup) (h : TripStep actor t t')
    (c : Collaborator) (hc : c ∈ t.collaborators) (c' : Collaborator)
    (hc' : c' ∈ t'.collaborators) (hu : c'.user = c.user) :
    c' = c ∨ (∃ st, st ≠ .pending ∧ c.user = actor ∧ c' = setStatus st c) ∨
      (∃ now, c.user = actor ∧ c.status = .accepted ∧ c' = markPaid now c) := by
  have hold : c' ∈ t.collaborators → c' = c := fun hm => eq_of_same_user hn hm hc hu
  cases h with
  | same => exact Or.inl (hold hc')
  | updated t' _ _ _ hcs =>
    rw [hcs] at hc'
    exact Or.inl (hold hc')
  | invited u b _ _ hfresh =>
    rcases List.mem_append.1 hc' with hm | hm
    · exact Or.inl (hold hm)
    · rw [List.mem_singleton.1 hm] at hu
      exact absurd hu.symm (hfresh c hc)
  | responded i st hst hi =>
    rcases mem_modifyAt _ _ _ _ hc' with hm | ⟨a, ha, e⟩
    · exact Or.inl (hold hm)
    · have hau : a.user = c.user := by rw [← hu, e]; rfl
      have hac := eq_of_same_user hn (List.get?_mem ha) hc hau
      obtain ⟨a', ha', hpa⟩ := findIndex_some _ _ _ hi
      rw [ha] at ha'
      cases ha'
      simp only [beq_iff_eq] at hpa
      rw [hac] at hpa e
      exact Or.inr (Or.inl ⟨st, hst, hpa, e⟩)
  | removed i _ => exact Or.inl (hold ((spliceOne_sublist i _).subset hc'))
  | paid i now hi =>
    rcases mem_modifyAt _ _ _ _ hc' with hm | ⟨a, ha, e⟩
    · exact Or.inl (hold hm)
    · have hau : a.user = c.user := by rw [← hu, e]; rfl
      have hac := eq_of_same_user hn (List.get?_mem ha) hc hau
      obtain ⟨a', ha', hpa⟩ := findIndex_some _ _ _ hi
      rw [ha] at ha'
      cases ha'
      simp only [Bool.and_eq_true, beq_iff_eq] at hpa
      rw [hac] at hpa e
      exact Or.inr (Or.inr ⟨now, hpa.1, hpa.2, e⟩)

theorem tripsStep_entry {actor : String} {trips trips' : List Trip}
    (hids : (trips.map (·._id)).Nodup)
    (husers : ∀ t ∈ trips, (t.collaborators.map (·.user)).Nodup)
    (h : TripsStep actor trips trips') (t : Trip) (ht : t ∈ trips) (t' : Trip)
    (ht' : t' ∈ trips') (hid : t'._id = t._id) (c : Collaborator)
    (hc : c ∈ t.collaborators) (c' : Collaborator) (hc' : c' ∈ t'.collaborators)
    (hu : c'.user = c.user) :
    c' = c ∨ (∃ st, st ≠ .pending ∧ c.user = actor ∧ c' = setStatus st c) ∨
      (∃ now, c.user = actor ∧ c.status = .accepted ∧ c' = markPaid now c) := by
  have hsame : t' ∈ trips → c' = c := by
    intro hmem
    have e := eq_of_same_id hids hmem ht hid
    rw [e] at hc'
    exact eq_of_same_user (husers t ht) hc' hc hu
  cases h with
  | same => exact Or.inl (hsame ht')
  | created tn hcn _ =>
    rcases List.mem_append.1 ht' with hm | hm
    · exact Or.inl (hsame hm)
    · rw [List.mem_singleton.1 hm, hcn] at hc'
      simp at hc'
  | saved oid trip saved hfind hs =>
    rcases mem_saveTrip ht' with hm | hm
    · have htrip := (findTripById_some hfind).1
      have e : trip = t := eq_of_same_id hids htrip ht (by rw [← hs.id_eq, ← hm, hid])
      rw [hm] at hc'
      rw [e] at hs
      exact tripStep_entry (husers t ht) hs c hc c' hc' hu
    · exact Or.inl (hsame hm.1)
  | deleted oid trip _ _ => exact Or.inl (hsame (List.mem_of_mem_filter ht'))

theorem invite_cases (rt : JsRuntime) (db : Db) (user : Option ReqUser) (tripId : String)
    (email : String) (budgetContribution : JsVal) :
    (invite rt db user tripId email budgetContribution).2 = db ∨
    ∃ oid trip collaborator,
      castObjectId tripId = some oid ∧ findTripById db.trips oid = some trip ∧
      trip.userId = reqUserId user ∧
      findUserByEmail db.users email = some collaborator ∧
      collaborator._id ≠ trip.userId ∧
      (∀ c ∈ trip.collaborators, c.user ≠ collaborator._id) ∧
      invite rt db user tripId email budgetContribution =
        (⟨200, .invited "Collaboration invitation sent"
            (invitationEcho rt collaborator budgetContribution)⟩,
          { db with trips := saveTrip db.trips { trip with collaborators := trip.collaborators ++ [invitation rt collaborator budgetContribution] } }) := by
  by_cases h1 : unauthenticated user = true
  · exact Or.inl (by simp [invite, h1])
  by_cases h2 : objectIdIsValid tripId = true
  swap
  · exact Or.inl (by simp [invite, h1, h2])
  cases hcast : castObjectId tripId with
  | none => exact Or.inl (by simp [invite, h1, h2, hcast])
  | some oid =>
    cases hfind : findTripById db.trips oid with
    | none => exact Or.inl (by simp [invite, h1, h2, hcast, hfind])
    | some trip =>
      by_cases h3 : trip.userId = reqUserId user
      swap
      · exact Or.inl (by simp [invite, h1, h2, hcast, hfind, h3])
      cases hcol : findUserByEmail db.users email with
      | none => exact Or.inl (by simp [invite, h1, h2, hcast, hfind, h3, hcol])
      | some collaborator =>
        by_cases h4 : collaborator._id = reqUserId user
        · exact Or.inl (by simp [invite, h1, h2, hcast, hfind, h3, hcol, h4])
        cases h5 : trip.collaborators.find? (fun collab => collab.user == collaborator._id) with
        | some existing =>
          exact Or.inl (by simp [invite, h1, h2, hcast, hfind, h3, hcol, h4, h5])
        | none =>
          refine Or.inr ⟨oid, trip, collaborator, rfl, hfind, h3, rfl, ?_, ?_, ?_⟩
          · rw [h3]
            exact h4
          · intro c hc e
            have := List.find?_eq_none.1 h5 c hc
            simp [e] at this
          · simp [invite, h1, h2, hcast, hfind, h3, hcol, h4, h5]

/-- C16: an invite by the owner of a trip whose target email resolves to the
owner is answered 400 ("You cannot collaborate with yourself") and changes
nothing; and whatever the invite, it either leaves the store as it is or
appends to one stored trip one entry whose user is not the owner of that
trip. -/
theorem C16_owner_is_never_invited (rt : JsRuntime) (db : Db) (user : Option ReqUser)
    (tripId : String) (email : String) (budgetContribution : JsVal) (oid : ObjectId)
    (trip : Trip) (target : User) (hauth : unauthenticated user = false)
    (hcast : castObjectId tripId = some oid) (hfind : findTripById db.trips oid = some trip)
    (hown : trip.userId = reqUserId user)
    (hemail : findUserByEmail db.users email = some target)
    (hself : target._id = trip.userId) :
    invite rt db user tripId email budgetContribution =
      (⟨400, .error "You cannot collaborate with yourself"⟩, db) ∧
    ∀ (user' : Option ReqUser) (tripId' email' : String) (b' : JsVal),
      (invite rt db user' tripId' email' b').2 = db ∨
      ∃ trip' ∈ db.trips, ∃ entry : Collaborator, entry.user ≠ trip'.userId ∧
        (invite rt db user' tripId' email' b').2.trips = saveTrip db.trips
          { trip' with collaborators := trip'.collaborators ++ [entry] } := by
  constructor
  · have hself' : target._id = reqUserId user := by rw [hself, hown]
    unfold invite
    simp only [hauth, objectIdIsValid_of_cast hcast, hcast, hfind, hemail]
    simp [hown, hself']
  · intro user' tripId' email' b'
    rcases invite_cases rt db user' tripId' email' b' with h | ⟨oid', trip', col, _, hf', _, _, hne,
        _, heq⟩
    · exact Or.inl h
    · refine Or.inr ⟨trip', (findTripById_some hf').1, invitation rt col b', hne, ?_⟩
      rw [heq]

/-- Witness of C16: Olga invites her own email on her trip. -/
theorem C16_owner_is_never_invited_witness :
    invite exampleRuntime dbCreated asOlga tripT "olga@example.com" (.num (.fin 10)) =
      (⟨400, .error "You cannot collaborate with yourself"⟩, dbCreated) ∧
    ∀ (user' : Option ReqUser) (tripId' email' : String) (b' : JsVal),
      (invite exampleRuntime dbCreated user' tripId' email' b').2 = dbCreated ∨
      ∃ trip' ∈ dbCreated.trips, ∃ entry : Collaborator, entry.user ≠ trip'.userId ∧
        (invite exampleRuntime dbCreated user' tripId' email' b').2.trips =
          saveTrip dbCreated.trips
            { trip' with collaborators := trip'.collaborators ++ [entry] } :=
  C16_owner_is_never_invited exampleRuntime dbCreated asOlga tripT "olga@example.com"
    (.num (.fin 10)) tripT { tripAccepted with collaborators := [] } olga (by decide)
    (by decide) (by decide) (by decide) (by decide) (by decide)

theorem find?_user_of_nodup :
    ∀ (cs : List Collaborator) (c : Collaborator), (cs.map (·.user)).Nodup → c ∈ cs →
      cs.find? (fun x => x.user == c.user) = some c
  | [], c, _, h => by simp at h
  | a :: as, c, hn, h => by
    simp only [List.map_cons, List.nodup_cons] at hn
    rw [List.find?_cons]
    by_cases ha : a.user = c.user
    · simp only [ha, beq_self_eq_true]
      rcases List.mem_cons.1 h with e | e
      · rw [e]
      · exact absurd (List.mem_map.2 ⟨c, e, ha.symm⟩) hn.1
    · have hne : (a.user == c.user) = false := by simpa using ha
      simp only [hne]
      rcases List.mem_cons.1 h with e | e
      · exact absurd (e ▸ rfl) ha
      · exact find?_user_of_nodup as c hn.2 e

/-- C17 fails as stated: Olga invites Carl a second time. The answer has the
status 400, not a status of its own such as 409; it is the very status that
the same handler gives to the two kinds of invalid input, the invitation of
the owner by the owner and a trip id that is not an ObjectId. Only the
message tells the duplicate invitation from them. -/
theorem C17_counterexample :
    Reachable exampleRuntime dbAccepted ∧
    (invite exampleRuntime dbAccepted asOlga tripT "carl@example.com" (.num (.fin 300))).1 =
      ⟨400, .error "User is already a collaborator with status: accepted"⟩ ∧
    (invite exampleRuntime dbAccepted asOlga tripT "carl@example.com"
      (.num (.fin 300))).1.status ≠ 409 ∧
    (invite exampleRuntime dbAccepted asOlga tripT "olga@example.com" (.num (.fin 300))).1 =
      ⟨400, .error "You cannot collaborate with yourself"⟩ ∧
    (invite exampleRuntime dbAccepted asOlga "xyz" "carl@example.com" (.num (.fin 300))).1 =
      ⟨400, .error "Invalid trip ID format. The ID must be a valid MongoDB ObjectId."⟩ ∧
    (invite exampleRuntime dbAccepted asOlga tripT "carl@example.com"
        (.num (.fin 300))).1.status =
      (invite exampleRuntime dbAccepted asOlga tripT "olga@example.com"
        (.num (.fin 300))).1.status :=
  ⟨reachable_dbAccepted, by decide, by decide, by decide, by decide, by decide⟩

/-- C17 as amended: on a reachable store, when user C has an entry on a trip,
whatever its status, an invite of C by the owner is refused with the status
400, the one the handler also gives to invalid input, and with the message
"User is already a collaborator with status: " followed by the status of
that entry; the store, so the collaborator list, is as before. -/
theorem C17_duplicate_invite_refused (rt : JsRuntime) (db : Db) (hr : Reachable rt db)
    (user : Option ReqUser) (tripId : String) (email : String) (budgetContribution : JsVal)
    (oid : ObjectId) (trip : Trip) (target : User) (c : Collaborator)
    (hauth : unauthenticated user = false) (hcast : castObjectId tripId = some oid)
    (hfind : findTripById db.trips oid = some trip) (hown : trip.userId = reqUserId user)
    (hemail : findUserByEmail db.users email = some target)
    (hc : c ∈ trip.collaborators) (hcu : c.user = target._id) :
    invite rt db user tripId email budgetContribution =
      (⟨400, .error ("User is already a collaborator with status: " ++ c.status.text)⟩,
        db) := by
  have htrip := (findTripById_some hfind).1
  have hne : target._id ≠ reqUserId user := by
    rw [← hown, ← hcu]
    exact reachable_no_self hr trip htrip c hc
  have hex := find?_user_of_nodup trip.collaborators c (reachable_users_nodup hr trip htrip) hc
  rw [hcu] at hex
  unfold invite
  simp only [hauth, objectIdIsValid_of_cast hcast, hcast, hfind, hemail, hex]
  simp [hown, hne]

/-- Witness of C17: Olga invites Carl again after he has accepted. -/
theorem C17_duplicate_invite_refused_witness :
    invite exampleRuntime dbAccepted asOlga tripT "carl@example.com" (.num (.fin 300)) =
      (⟨400, .error ("User is already a collaborator with status: " ++
        (⟨carl._id, .fin 200, .accepted, false, none⟩ : Collaborator).status.text)⟩,
        dbAccepted) :=
  C17_duplicate_invite_refused exampleRuntime dbAccepted reachable_dbAccepted asOlga tripT
    "carl@example.com" (.num (.fin 300)) tripT tripAccepted carl
    ⟨carl._id, .fin 200, .accepted, false, none⟩ (by decide) (by decide) (by decide)
    (by decide) (by decide) (by decide) (by decide)

theorem respond_cases (db : Db) (user : Option ReqUser) (tripId : String) (status : String) :
    (respond db user tripId status).2 = db ∨
    ∃ oid trip i c,
      findTripById db.trips oid = some trip ∧ trip.collaborators.get? i = some c ∧
      c.user = reqUserId user ∧
      (respond db user tripId status).2 =
        { db with trips := saveTrip db.trips { trip with collaborators := modifyAt (setStatus (statusOfText status)) i trip.collaborators } } := by
  by_cases h1 : unauthenticated user = true
  · exact Or.inl (by simp [respond, h1])
  by_cases h2 : status ≠ "accepted" ∧ status ≠ "declined"
  · exact Or.inl (by unfold respond; rw [if_neg h1, if_pos h2])
  cases hcast : castObjectId tripId with
  | none => exact Or.inl (by simp only [respond, h1, h2, hcast]; simp)
  | some oid =>
    cases hfind : findTripById db.trips oid with
    | none => exact Or.inl (by simp only [respond, h1, h2, hcast, hfind]; simp)
    | some trip =>
      cases hidx : findIndex (fun collab => collab.user == reqUserId user)
          trip.collaborators with
      | none => exact Or.inl (by simp only [respond, h1, h2, hcast, hfind, hidx]; simp)
      | some i =>
        obtain ⟨c, hc, hp⟩ := findIndex_some _ _ _ hidx
        refine Or.inr ⟨oid, trip, i, c, hfind, hc, by simpa using hp, ?_⟩
        simp only [respond, h1, h2, hcast, hfind, hidx]
        simp

/-- C18: on a reachable store, no request changes the status of the entry of
a user other than the caller, as long as that entry is still there after the
request; and a respond call either changes nothing or rewrites one entry of
one trip, an entry of the caller, in its status field only, every other
entry of that trip staying as it is. -/
theorem C18_status_only_by_its_user (rt : JsRuntime) (db : Db) (hr : Reachable rt db) :
    (∀ op : Op, op.freshIds db = true →
      ∀ t ∈ db.trips, ∀ t' ∈ (exec rt db op).2.trips, t'._id = t._id →
        ∀ c ∈ t.collaborators, ∀ c' ∈ t'.collaborators, c'.user = c.user →
          c.user ≠ op.userId → c'.status = c.status) ∧
    (∀ (user : Option ReqUser) (tripId status : String),
      (respond db user tripId status).2 = db ∨
      ∃ oid trip i c,
        findTripById db.trips oid = some trip ∧ trip.collaborators.get? i = some c ∧
        c.user = reqUserId user ∧
        (respond db user tripId status).2 =
          { db with trips := saveTrip db.trips { trip with collaborators := modifyAt (setStatus (statusOfText status)) i trip.collaborators } } ∧
        (modifyAt (setStatus (statusOfText status)) i trip.collaborators).get? i
          = some { c with status := statusOfText status } ∧
        ∀ j, j ≠ i →
          (modifyAt (setStatus (statusOfText status)) i trip.collaborators).get? j
            = trip.collaborators.get? j) := by
  constructor
  · intro op hf t ht t' ht' hid c hc c' hc' hu hne
    rcases tripsStep_entry (reachable_ids_nodup hr) (reachable_users_nodup hr)
        (exec_tripsStep rt db op hf) t ht t' ht' hid c hc c' hc' hu with
      h | ⟨st, _, ha, _⟩ | ⟨now, ha, _, h⟩
    · rw [h]
    · exact absurd ha hne
    · rw [h]
      rfl
  · intro user tripId status
    rcases respond_cases db user tripId status with h | ⟨oid, trip, i, c, hfind, hc, hcu, heq⟩
    · exact Or.inl h
    · refine Or.inr ⟨oid, trip, i, c, hfind, hc, hcu, heq, ?_, ?_⟩
      · rw [modifyAt_get?_eq, hc]
        rfl
      · intro j hj
        exact modifyAt_get?_ne _ i j _ (fun e => hj e.symm)

/-- Witness of C18 on the store in which Carl is accepted and Dora pending. -/
theorem C18_status_only_by_its_user_witness :
    (∀ op : Op, op.freshIds dbMixed = true →
      ∀ t ∈ dbMixed.trips, ∀ t' ∈ (exec exampleRuntime dbMixed op).2.trips, t'._id = t._id →
        ∀ c ∈ t.collaborators, ∀ c' ∈ t'.collaborators, c'.user = c.user →
          c.user ≠ op.userId → c'.status = c.status) ∧
    (∀ (user : Option ReqUser) (tripId status : String),
      (respond dbMixed user tripId status).2 = dbMixed ∨
      ∃ oid trip i c,
        findTripById dbMixed.trips oid = some trip ∧ trip.collaborators.get? i = some c ∧
        c.user = reqUserId user ∧
        (respond dbMixed user tripId status).2 =
          { dbMixed with trips := saveTrip dbMixed.trips { trip with collaborators := modifyAt (setStatus (statusOfText status)) i trip.collaborators } } ∧
        (modifyAt (setStatus (statusOfText status)) i trip.collaborators).get? i
          = some { c with status := statusOfText status } ∧
        ∀ j, j ≠ i →
          (modifyAt (setStatus (statusOfText status)) i trip.collaborators).get? j
            = trip.collaborators.get? j) :=
  C18_status_only_by_its_user exampleRuntime dbMixed reachable_dbMixed

/-- C19: on a reachable store and for every request, an entry that is there
before and after the request (same trip, same user) and has `hasPaid = true`
before has it after, and an expense that is there before and after the
request (same id) and has `isPaid = true` before has it after. -/
theorem C19_paid_flags_monotonic (rt : JsRuntime) (db : Db) (hr : Reachable rt db)
    (op : Op) (hf : op.freshIds db = true) :
    (∀ t ∈ db.trips, ∀ t' ∈ (exec rt db op).2.trips, t'._id = t._id →
      ∀ c ∈ t.collaborators, ∀ c' ∈ t'.collaborators, c'.user = c.user →
        c.hasPaid = true → c'.hasPaid = true) ∧
    (∀ e ∈ db.expenses, ∀ e' ∈ (exec rt db op).2.expenses, e'._id = e._id →
      e.isPaid = true → e'.isPaid = true) := by
  constructor
  · intro t ht t' ht' hid c hc c' hc' hu hp
    rcases tripsStep_entry (reachable_ids_nodup hr) (reachable_users_nodup hr)
        (exec_tripsStep rt db op hf) t ht t' ht' hid c hc c' hc' hu with
      h | ⟨st, _, _, h⟩ | ⟨now, _, _, h⟩
    · rw [h]
      exact hp
    · rw [h]
      exact hp
    · rw [h]
      rfl
  · intro e he e' he' hid hp
    rcases expensesStep_same_id (exec_expensesStep rt db op hf)
        (reachable_expense_ids_nodup hr) e he e' he' hid with
      h | ⟨now, h⟩ | ⟨user, id, update, _, _, h⟩
    · rw [h]
      exact hp
    · rw [h]
      rfl
    · rw [h]
      exact hp

/-- Witness of C19: Carl, who has paid, answers "declined" afterwards. -/
theorem C19_paid_flags_monotonic_witness :
    (∀ t ∈ dbPaid.trips,
      ∀ t' ∈ (exec exampleRuntime dbPaid (.respond asCarl tripT "declined")).2.trips,
        t'._id = t._id →
        ∀ c ∈ t.collaborators, ∀ c' ∈ t'.collaborators, c'.user = c.user →
          c.hasPaid = true → c'.hasPaid = true) ∧
    (∀ e ∈ dbPaid.expenses,
      ∀ e' ∈ (exec exampleRuntime dbPaid (.respond asCarl tripT "declined")).2.expenses,
        e'._id = e._id → e.isPaid = true → e'.isPaid = true) :=
  C19_paid_flags_monotonic exampleRuntime dbPaid reachable_dbPaid
    (.respond asCarl tripT "declined") (by decide)

theorem payContribution_success (rt : JsRuntime) (db : Db) (user : Option ReqUser)
    (id : String) (now : Int) (newId : ObjectId)
    (h : (payContribution rt db user id now newId).1.status = 200) :
    ∃ oid trip i c,
      unauthenticated user = false ∧ castObjectId id = some oid ∧
      findTripById db.trips oid = some trip ∧
      findIndex (fun collab => collab.user == reqUserId user && collab.status == .accepted)
        trip.collaborators = some i ∧
      trip.collaborators.get? i = some c ∧ c.user = reqUserId user ∧
      c.status = .accepted := by
  by_cases h1 : unauthenticated user = true
  · simp [payContribution, h1] at h
  by_cases h2 : (!isValidObjectId id) = true
  · simp only [payContribution, h1, h2] at h
    simp at h
  cases hcast : castObjectId id with
  | none =>
    simp only [payContribution, h1, h2, hcast] at h
    simp at h
  | some oid =>
    cases hfind : findTripById db.trips oid with
    | none =>
      simp only [payContribution, h1, h2, hcast, hfind] at h
      simp at h
    | some trip =>
      cases hidx : findIndex
          (fun collab => collab.user == reqUserId user && collab.status == .accepted)
          trip.collaborators with
      | none =>
        simp only [payContribution, h1, h2, hcast, hfind, hidx] at h
        simp at h
      | some i =>
        obtain ⟨c, hc, hp⟩ := findIndex_some _ _ _ hidx
        simp only [Bool.and_eq_true, beq_iff_eq] at hp
        exact ⟨oid, trip, i, c, by simpa using h1, rfl, hfind, hidx, hc, hp.1, hp.2⟩

/-- C20: a payContribution call that is answered 200 rewrites one entry of the
trip, an accepted entry of the caller, setting `hasPaid` to true and
`paymentDate` to the time of the call and nothing else of it (status and
contribution stay), leaves every other entry as it is, and appends exactly one
expense, whose amount is the stored contribution of that entry, whose payer
is the caller, whose trip is the trip paid for and whose category is
"Collaboration Payment". The handler reads no request body. -/
theorem C20_pay_contribution_effect (rt : JsRuntime) (db : Db) (user : Option ReqUser)
    (id : String) (now : Int) (newId : ObjectId)
    (h : (payContribution rt db user id now newId).1.status = 200) :
    ∃ oid trip i c,
      castObjectId id = some oid ∧ findTripById db.trips oid = some trip ∧
      trip.collaborators.get? i = some c ∧ c.user = reqUserId user ∧
      c.status = .accepted ∧
      (payContribution rt db user id now newId).2.trips = saveTrip db.trips
        { trip with collaborators := modifyAt (markPaid now) i trip.collaborators } ∧
      (modifyAt (markPaid now) i trip.collaborators).get? i
        = some { c with hasPaid := true, paymentDate := some now } ∧
      (∀ j, j ≠ i →
        (modifyAt (markPaid now) i trip.collaborators).get? j = trip.collaborators.get? j) ∧
      ∃ e : Expense,
        (payContribution rt db user id now newId).2.expenses = db.expenses ++ [e] ∧
        e.amount = c.budgetContribution ∧ e.userId = c.user ∧ e.tripId = trip._id ∧
        e.category = "Collaboration Payment" := by
  obtain ⟨oid, trip, i, c, hauth, hcast, hfind, hidx, hc, hcu, hcs⟩ :=
    payContribution_success rt db user id now newId h
  refine ⟨oid, trip, i, c, hcast, hfind, hc, hcu, hcs, ?_⟩
  rw [payContribution_ok rt db user id now newId oid trip i c hauth hcast hfind hidx hc]
  refine ⟨rfl, ?_, ?_, _, rfl, rfl, ?_, ?_, rfl⟩
  · rw [modifyAt_get?_eq, hc]
    rfl
  · intro j hj
    exact modifyAt_get?_ne _ i j _ (fun e => hj e.symm)
  · exact hcu.symm
  · exact (findTripById_some hfind).2.symm

/-- Witness of C20: Carl, accepted on the example trip, pays at time 50. -/
theorem C20_pay_contribution_effect_witness :
    ∃ oid trip i c,
      castObjectId tripT = some oid ∧ findTripById dbAccepted.trips oid = some trip ∧
      trip.collaborators.get? i = some c ∧ c.user = reqUserId asCarl ∧
      c.status = .accepted ∧
      (payContribution exampleRuntime dbAccepted asCarl tripT 50 expenseE1).2.trips =
        saveTrip dbAccepted.trips
          { trip with collaborators := modifyAt (markPaid 50) i trip.collaborators } ∧
      (modifyAt (markPaid 50) i trip.collaborators).get? i
        = some { c with hasPaid := true, paymentDate := some 50 } ∧
      (∀ j, j ≠ i →
        (modifyAt (markPaid 50) i trip.collaborators).get? j = trip.collaborators.get? j) ∧
      ∃ e : Expense,
        (payContribution exampleRuntime dbAccepted asCarl tripT 50 expenseE1).2.expenses
          = dbAccepted.expenses ++ [e] ∧
        e.amount = c.budgetContribution ∧ e.userId = c.user ∧ e.tripId = trip._id ∧
        e.category = "Collaboration Payment" :=
  C20_pay_contribution_effect exampleRuntime dbAccepted asCarl tripT 50 expenseE1 (by decide)

/-! ## Settled claims, the read routes -/

theorem findTripById_saveTrip :
    ∀ (trips : List Trip) (oid : ObjectId) (t saved : Trip),
      findTripById trips oid = some t → saved._id = oid →
      findTripById (saveTrip trips saved) oid = some saved
  | [], _, _, _, h, _ => by simp [findTripById] at h
  | a :: as, oid, t, saved, h, hs => by
    unfold findTripById saveTrip at *
    rw [List.map_cons, List.find?_cons]
    rw [List.find?_cons] at h
    by_cases ha : a._id = oid
    · have e : a._id = saved._id := by rw [ha, hs]
      simp [e, hs]
    · have hne : (a._id == oid) = false := by simpa using ha
      have e : ¬ a._id = saved._id := by rw [hs]; exact ha
      simp only [hne] at h
      simp only [e, if_false, hne]
      exact findTripById_saveTrip as oid t saved h hs

theorem findIndex_append_new {α : Type} (p : α → Bool) :
    ∀ (l : List α) (a : α), (∀ x ∈ l, p x = false) → p a = true →
      findIndex p (l ++ [a]) = some l.length
  | [], a, _, ha => by simp [findIndex, ha]
  | x :: xs, a, h, ha => by
    have hx : p x = false := h x (List.mem_cons_self _ _)
    have ih := findIndex_append_new p xs a (fun y hy => h y (List.mem_cons_of_mem _ hy)) ha
    simp [findIndex, hx, ih]

theorem modifyAt_append_new {α : Type} (f : α → α) :
    ∀ (l : List α) (a : α), modifyAt f l.length (l ++ [a]) = l ++ [f a]
  | [], a => by simp [modifyAt]
  | x :: xs, a => by simp [modifyAt, modifyAt_append_new f xs a]

theorem numberOrZero_of_nonneg (rt : JsRuntime) (b : JsNum) (hb : b.nonneg = true) :
    numberOrZero rt (.num b) = b := by
  unfold numberOrZero
  cases b with
  | nan => simp [JsNum.nonneg] at hb
  | negInf => simp [JsNum.nonneg] at hb
  | posInf => simp [JsVal.toNumber, JsNum.truthy]
  | fin q =>
    by_cases hq : q = 0
    · simp [JsVal.toNumber, JsNum.truthy, hq]
    · simp [JsVal.toNumber, JsNum.truthy, hq]

theorem invite_ok (rt : JsRuntime) (db : Db) (user : Option ReqUser) (tripId : String)
    (email : String) (budgetContribution : JsVal) (oid : ObjectId) (trip : Trip)
    (target : User) (hauth : unauthenticated user = false)
    (hcast : castObjectId tripId = some oid) (hfind : findTripById db.trips oid = some trip)
    (hown : trip.userId = reqUserId user)
    (hemail : findUserByEmail db.users email = some target)
    (hne : target._id ≠ reqUserId user)
    (hnew : ∀ c ∈ trip.collaborators, c.user ≠ target._id) :
    invite rt db user tripId email budgetContribution =
      (⟨200, .invited "Collaboration invitation sent"
          (invitationEcho rt target budgetContribution)⟩,
        { db with trips := saveTrip db.trips { trip with collaborators := trip.collaborators ++ [invitation rt target budgetContribution] } }) := by
  have hnone : trip.collaborators.find? (fun collab => collab.user == target._id) = none := by
    rw [List.find?_eq_none]
    intro c hc
    simpa using hnew c hc
  unfold invite
  simp only [hauth, objectIdIsValid_of_cast hcast, hcast, hfind, hemail, hnone]
  simp [hown, hne]

theorem listCollaborators_owner (db : Db) (user : Option ReqUser) (tripId : String)
    (oid : ObjectId) (trip : Trip) (hauth : unauthenticated user = false)
    (hcast : castObjectId tripId = some oid) (hfind : findTripById db.trips oid = some trip)
    (hown : trip.userId = reqUserId user) :
    listCollaborators db user tripId =
      .ok (trip.collaborators.map (populateCollaborator db.users)) := by
  unfold listCollaborators
  simp only [hauth, objectIdIsValid_of_cast hcast, hcast, hfind]
  simp [hown]

theorem map_fst_populateCollaborator (users : List User) (cs : List Collaborator) :
    (cs.map (populateCollaborator users)).map (·.1) = cs := by
  induction cs with
  | nil => rfl
  | cons a as ih => simp [populateCollaborator, ih]

theorem map_snd_populateCollaborator (users : List User) (cs : List Collaborator) :
    (cs.map (populateCollaborator users)).map (·.2) =
      cs.map (fun c => findUserById users c.user) := by
  induction cs with
  | nil => rfl
  | cons a as ih => simp [populateCollaborator, ih]

/-- C21: the owner O of trip T invites user C, who has no entry on T, with a
non-negative number b as contribution, C answers "accepted", and O asks for
the collaborators: the three calls succeed and the entries of the list
returned are the former entries of T, unchanged and in order, followed by
one entry for C with contribution b, status accepted and `hasPaid` false;
next to each entry stands the user document that its user reference
resolves to. -/
theorem C21_invite_accept_list (rt : JsRuntime) (db : Db) (owner invited : Option ReqUser)
    (tripId : String) (email : String) (b : JsNum) (oid : ObjectId) (trip : Trip)
    (target : User) (hauthO : unauthenticated owner = false)
    (hauthC : unauthenticated invited = false)
    (hcast : castObjectId tripId = some oid) (hfind : findTripById db.trips oid = some trip)
    (hown : trip.userId = reqUserId owner)
    (hemail : findUserByEmail db.users email = some target)
    (hinvited : reqUserId invited = target._id)
    (hne : target._id ≠ reqUserId owner)
    (hnew : ∀ c ∈ trip.collaborators, c.user ≠ target._id)
    (hb : b.nonneg = true) :
    (invite rt db owner tripId email (.num b)).1.status = 200 ∧
    (respond (invite rt db owner tripId email (.num b)).2 invited tripId "accepted").1.status
      = 200 ∧
    ∃ l, listCollaborators
        (respond (invite rt db owner tripId email (.num b)).2 invited tripId "accepted").2
        owner tripId = .ok l ∧
      l.map (·.1) =
        trip.collaborators ++ [(⟨target._id, b, .accepted, false, none⟩ : Collaborator)] ∧
      l.map (·.2) =
        (trip.collaborators ++ [(⟨target._id, b, .accepted, false, none⟩ : Collaborator)]).map
          (fun c : Collaborator => findUserById db.users c.user) := by
  have hid : trip._id = oid := (findTripById_some hfind).2
  let e0 : Collaborator := ⟨target._id, b, .pending, false, none⟩
  let e1 : Collaborator := ⟨target._id, b, .accepted, false, none⟩
  let trip1 : Trip := { trip with collaborators := trip.collaborators ++ [e0] }
  let trip2 : Trip := { trip with collaborators := trip.collaborators ++ [e1] }
  let db1 : Db := { db with trips := saveTrip db.trips trip1 }
  let db2 : Db := { db1 with trips := saveTrip db1.trips trip2 }
  have hentry : invitation rt target (.num b) = e0 := by
    simp [invitation, numberOrZero_of_nonneg rt b hb, e0]
  have h1 : invite rt db owner tripId email (.num b) =
      (⟨200, .invited "Collaboration invitation sent" (invitationEcho rt target (.num b))⟩,
        db1) := by
    rw [invite_ok rt db owner tripId email (.num b) oid trip target hauthO hcast hfind hown
      hemail hne hnew, hentry]
  have hfind1 : findTripById db1.trips oid = some trip1 :=
    findTripById_saveTrip db.trips oid trip trip1 hfind hid
  have hidx : findIndex (fun collab => collab.user == reqUserId invited) trip1.collaborators
      = some trip.collaborators.length := by
    apply findIndex_append_new
    · intro x hx
      rw [hinvited]
      simpa using hnew x hx
    · simp [hinvited, e0]
  have h2 : respond db1 invited tripId "accepted" =
      (⟨200, .responded ("Collaboration request " ++ "accepted") trip1._id "accepted"⟩,
        db2) := by
    rw [respond_ok db1 invited tripId "accepted" oid trip1 trip.collaborators.length hauthC
      (Or.inl rfl) hcast hfind1 hidx]
    have hmod : modifyAt (setStatus (statusOfText "accepted")) trip.collaborators.length
        trip1.collaborators = trip.collaborators ++ [e1] := by
      show modifyAt _ trip.collaborators.length (trip.collaborators ++ [e0]) = _
      rw [modifyAt_append_new]
      rfl
    rw [hmod]
  have hfind2 : findTripById db2.trips oid = some trip2 :=
    findTripById_saveTrip db1.trips oid trip1 trip2 hfind1 hid
  have h3 : listCollaborators db2 owner tripId =
      .ok (trip2.collaborators.map (populateCollaborator db2.users)) :=
    listCollaborators_owner db2 owner tripId oid trip2 hauthO hcast hfind2 hown
  rw [h1]
  refine ⟨rfl, ?_, ?_⟩
  · show (respond db1 invited tripId "accepted").1.status = 200
    rw [h2]
  · show ∃ l, listCollaborators (respond db1 invited tripId "accepted").2 owner tripId
      = .ok l ∧ _
    rw [h2]
    exact ⟨_, h3, map_fst_populateCollaborator db2.users trip2.collaborators,
      map_snd_populateCollaborator db2.users trip2.collaborators⟩

/-- Witness of C21: Olga invites Carl with 200 on the new trip, Carl accepts,
Olga lists the collaborators. -/
theorem C21_invite_accept_list_witness :
    (invite exampleRuntime dbCreated asOlga tripT "carl@example.com"
      (.num (.fin 200))).1.status = 200 ∧
    (respond (invite exampleRuntime dbCreated asOlga tripT "carl@example.com"
      (.num (.fin 200))).2 asCarl tripT "accepted").1.status = 200 ∧
    ∃ l, listCollaborators
        (respond (invite exampleRuntime dbCreated asOlga tripT "carl@example.com"
          (.num (.fin 200))).2 asCarl tripT "accepted").2
        asOlga tripT = .ok l ∧
      l.map (·.1) = [] ++ [(⟨carl._id, .fin 200, .accepted, false, none⟩ : Collaborator)] ∧
      l.map (·.2) =
        ([] ++ [(⟨carl._id, .fin 200, .accepted, false, none⟩ : Collaborator)]).map
          (fun c : Collaborator => findUserById dbCreated.users c.user) :=
  C21_invite_accept_list exampleRuntime dbCreated asOlga asCarl tripT "carl@example.com"
    (.fin 200) tripT { tripAccepted with collaborators := [] } carl (by decide) (by decide)
    (by decide) (by decide) (by decide) (by decide) (by decide) (by decide) (by decide)
    (by decide)

theorem listPendingReimbursements_owner (db : Db) (user : Option ReqUser) (tripId : String)
    (oid : ObjectId) (trip : Trip) (hauth : unauthenticated user = false)
    (hcast : castObjectId tripId = some oid) (hfind : findTripById db.trips oid = some trip)
    (hown : trip.userId = reqUserId user) :
    listPendingReimbursements db user tripId =
      .ok ((db.expenses.filter (isPendingReimbursement oid (reqUserId user))).map
        (formatPendingExpense db.users)) := by
  unfold listPendingReimbursements
  simp only [hauth, castObjectId_valid hcast, hcast, hfind]
  simp [hown]

theorem listPendingReimbursements_forbidden (db : Db) (user : Option ReqUser)
    (tripId : String) (oid : ObjectId) (trip : Trip) (hauth : unauthenticated user = false)
    (hcast : castObjectId tripId = some oid) (hfind : findTripById db.trips oid = some trip)
    (hown : trip.userId ≠ reqUserId user) :
    listPendingReimbursements db user tripId =
      .error ⟨403, .error "Only the trip owner can view pending collaboration expenses"⟩ := by
  unfold listPendingReimbursements
  simp only [hauth, castObjectId_valid hcast, hcast, hfind]
  simp [hown]

theorem isPendingReimbursement_iff (tripId : ObjectId) (userId : String) (e : Expense) :
    isPendingReimbursement tripId userId e = true ↔
      e.tripId = tripId ∧ e.forUserId = some userId ∧ e.isCollaborationExpense = true ∧
        e.isPaid = false := by
  simp [isPendingReimbursement, and_assoc]

theorem map_expense_format (users : List User) (es : List Expense) :
    (es.map (formatPendingExpense users)).map (·.expense) = es := by
  induction es with
  | nil => rfl
  | cons a as ih => simp [formatPendingExpense, ih]

/-- C23: for an authenticated caller A and a stored trip T, the pending
reimbursements route answers 403 when A is not the owner of T, and when A
is the owner it answers with exactly the stored expenses whose trip is T,
whose `forUserId` is A, that are collaboration expenses and are not paid,
in stored order, none missing and none extra. -/
theorem C23_pending_reimbursements (db : Db) (user : Option ReqUser) (tripId : String)
    (oid : ObjectId) (trip : Trip) (hauth : unauthenticated user = false)
    (hcast : castObjectId tripId = some oid)
    (hfind : findTripById db.trips oid = some trip) :
    (trip.userId ≠ reqUserId user →
      listPendingReimbursements db user tripId =
        .error ⟨403, .error "Only the trip owner can view pending collaboration expenses"⟩) ∧
    (trip.userId = reqUserId user →
      ∃ l, listPendingReimbursements db user tripId = .ok l ∧
        l.map (·.expense) =
          db.expenses.filter (isPendingReimbursement trip._id (reqUserId user)) ∧
        ∀ e, e ∈ l.map (·.expense) ↔
          e ∈ db.expenses ∧ e.tripId = trip._id ∧ e.forUserId = some (reqUserId user) ∧
            e.isCollaborationExpense = true ∧ e.isPaid = false) := by
  have hid : trip._id = oid := (findTripById_some hfind).2
  constructor
  · exact listPendingReimbursements_forbidden db user tripId oid trip hauth hcast hfind
  · intro hown
    refine ⟨_, listPendingReimbursements_owner db user tripId oid trip hauth hcast hfind hown,
      ?_, ?_⟩
    · rw [map_expense_format, hid]
    · intro e
      rw [map_expense_format, List.mem_filter, isPendingReimbursement_iff, hid]

/-- Witness of C23: Olga asks for the pending reimbursements of the example
trip after Carl has recorded the taxi fare. -/
theorem C23_pending_reimbursements_witness :
    (tripAccepted.userId ≠ reqUserId asOlga →
      listPendingReimbursements dbRecorded asOlga tripT =
        .error ⟨403, .error "Only the trip owner can view pending collaboration expenses"⟩) ∧
    (tripAccepted.userId = reqUserId asOlga →
      ∃ l, listPendingReimbursements dbRecorded asOlga tripT = .ok l ∧
        l.map (·.expense) =
          dbRecorded.expenses.filter
            (isPendingReimbursement tripAccepted._id (reqUserId asOlga)) ∧
        ∀ e, e ∈ l.map (·.expense) ↔
          e ∈ dbRecorded.expenses ∧ e.tripId = tripAccepted._id ∧
            e.forUserId = some (reqUserId asOlga) ∧
            e.isCollaborationExpense = true ∧ e.isPaid = false) :=
  C23_pending_reimbursements dbRecorded asOlga tripT tripT tripAccepted (by decide)
    (by decide) (by decide)

theorem findExpenseById_append_new :
    ∀ (es : List Expense) (e : Expense), e._id ∉ es.map (·._id) →
      findExpenseById (es ++ [e]) e._id = some e
  | [], e, _ => by simp [findExpenseById]
  | a :: as, e, h => by
    have ha : a._id ≠ e._id := fun c => h (by simp [c])
    have hrest : e._id ∉ as.map (·._id) := fun c => h (by simp at c ⊢; exact Or.inr c)
    have ih := findExpenseById_append_new as e hrest
    unfold findExpenseById at *
    rw [List.cons_append, List.find?_cons]
    have hne : (a._id == e._id) = false := by simpa using ha
    simp only [hne]
    exact ih

theorem saveExpense_append_new :
    ∀ (es : List Expense) (e saved : Expense), e._id ∉ es.map (·._id) → saved._id = e._id →
      saveExpense (es ++ [e]) saved = es ++ [saved]
  | [], e, saved, _, hs => by simp [saveExpense, hs]
  | a :: as, e, saved, h, hs => by
    have ha : a._id ≠ saved._id := fun c => h (by simp [c, hs])
    have hrest : e._id ∉ as.map (·._id) := fun c => h (by simp at c ⊢; exact Or.inr c)
    have ih := saveExpense_append_new as e saved hrest hs
    unfold saveExpense at *
    simp only [List.cons_append, List.map_cons, ha, if_false]
    rw [ih]

theorem settleReimbursement_ok (db : Db) (user : Option ReqUser) (expenseId : String)
    (now : Int) (oid : ObjectId) (expense : Expense) (hauth : unauthenticated user = false)
    (hcast : castObjectId expenseId = some oid)
    (hfind : findExpenseById db.expenses oid = some expense)
    (hfor : expense.forUserId = some (reqUserId user)) :
    settleReimbursement db user expenseId now =
      (⟨200, .expensePaid "Expense marked as paid successfully" (markExpensePaid now expense)⟩,
        { db with expenses := saveExpense db.expenses (markExpensePaid now expense) }) := by
  unfold settleReimbursement
  simp only [hauth, castObjectId_valid hcast, hcast, hfind, hfor]
  simp

/-- C22: an accepted collaborator records a collaboration expense under a
fresh id on a trip of owner O. The owner then finds the new expense in the
pending reimbursements of the trip, with `forUserId` the owner and
`isPaid = false`; the settlement by the owner is answered 200 and stores the
expense with `isPaid = true` and the same amount, payer, trip and
`forUserId`; afterwards the pending reimbursements of the trip hold no
expense with that id. -/
theorem C22_record_list_settle (rt : JsRuntime) (db : Db) (collab owner : Option ReqUser)
    (tripId : String) (amount : JsVal) (description : String) (category : String)
    (date : DateField) (forUserId : JsVal) (now : Int) (newId : ObjectId) (oid : ObjectId)
    (trip : Trip) (c : Collaborator) (settledAt : Int)
    (hauthC : unauthenticated collab = false) (hauthO : unauthenticated owner = false)
    (hcast : castObjectId tripId = some oid) (hfind : findTripById db.trips oid = some trip)
    (hown : trip.userId = reqUserId owner)
    (hc : c ∈ trip.collaborators) (hcu : c.user = reqUserId collab)
    (hcs : c.status = .accepted) (hamount : amount.truthy = true)
    (hnum : (amount.toNumber rt).isNaN = false) (hdesc : description ≠ "")
    (hcat : storedCategory rt category ≠ "") (hdate : date.invalid = false)
    (hfresh : newId ∉ db.expenses.map (·._id)) (hnewId : castObjectId newId = some newId) :
    (recordCollaborationExpense rt db collab tripId amount description category date forUserId
      now newId).1.status = 201 ∧
    (recordCollaborationExpense rt db collab tripId amount description category date forUserId
      now newId).2.expenses = db.expenses ++
        [collaborationExpense rt collab oid trip amount description category date now newId] ∧
    (∃ l, listPendingReimbursements (recordCollaborationExpense rt db collab tripId amount
        description category date forUserId now newId).2 owner tripId = .ok l ∧
      collaborationExpense rt collab oid trip amount description category date now newId
        ∈ l.map (·.expense)) ∧
    (collaborationExpense rt collab oid trip amount description category date now
      newId).forUserId = some (reqUserId owner) ∧
    (collaborationExpense rt collab oid trip amount description category date now
      newId).isPaid = false ∧
    (settleReimbursement (recordCollaborationExpense rt db collab tripId amount description
      category date forUserId now newId).2 owner newId settledAt).1.status = 200 ∧
    (∃ paid : Expense,
      (settleReimbursement (recordCollaborationExpense rt db collab tripId amount description
        category date forUserId now newId).2 owner newId settledAt).2.expenses
          = db.expenses ++ [paid] ∧
      paid._id = newId ∧ paid.isPaid = true ∧
      paid.amount = (collaborationExpense rt collab oid trip amount description category date
        now newId).amount ∧
      paid.userId = reqUserId collab ∧ paid.tripId = oid ∧
      paid.forUserId = some (reqUserId owner)) ∧
    (∃ l, listPendingReimbursements (settleReimbursement (recordCollaborationExpense rt db
        collab tripId amount description category date forUserId now newId).2 owner newId
        settledAt).2 owner tripId = .ok l ∧
      ∀ x ∈ l, x.expense._id ≠ newId) := by
  let e : Expense :=
    collaborationExpense rt collab oid trip amount description category date now newId
  let db1 : Db := { db with expenses := db.expenses ++ [e] }
  let db2 : Db := { db1 with expenses := db.expenses ++ [markExpensePaid settledAt e] }
  have h1 : recordCollaborationExpense rt db collab tripId amount description category date
      forUserId now newId =
        (⟨201, .expenseAdded "Expense added successfully" e
          (emailOrUnknown (findUserById db.users (reqUserId collab)))⟩, db1) :=
    recordCollaborationExpense_ok rt db collab tripId amount description category date
      forUserId now newId oid trip c hauthC hcast hfind hc hcu hcs hamount hnum hdesc hcat
      hdate
  have hfor : e.forUserId = some (reqUserId owner) := by
    show some trip.userId = some (reqUserId owner)
    rw [hown]
  have hfresh1 : e._id ∉ db.expenses.map (·._id) := hfresh
  have hfindE : findExpenseById db1.expenses newId = some e :=
    findExpenseById_append_new db.expenses e hfresh1
  have hsave : saveExpense db1.expenses (markExpensePaid settledAt e) =
      db.expenses ++ [markExpensePaid settledAt e] :=
    saveExpense_append_new db.expenses e (markExpensePaid settledAt e) hfresh1 rfl
  have h2 : settleReimbursement db1 owner newId settledAt =
      (⟨200, .expensePaid "Expense marked as paid successfully" (markExpensePaid settledAt e)⟩,
        db2) := by
    rw [settleReimbursement_ok db1 owner newId settledAt newId e hauthO hnewId hfindE hfor,
      hsave]
  have hl1 : listPendingReimbursements db1 owner tripId =
      .ok ((db1.expenses.filter (isPendingReimbursement oid (reqUserId owner))).map
        (formatPendingExpense db1.users)) :=
    listPendingReimbursements_owner db1 owner tripId oid trip hauthO hcast hfind hown
  have hl2 : listPendingReimbursements db2 owner tripId =
      .ok ((db2.expenses.filter (isPendingReimbursement oid (reqUserId owner))).map
        (formatPendingExpense db2.users)) :=
    listPendingReimbursements_owner db2 owner tripId oid trip hauthO hcast hfind hown
  rw [h1]
  refine ⟨rfl, rfl, ⟨_, hl1, ?_⟩, hfor, rfl, ?_, ?_, ?_⟩
  · rw [map_expense_format, List.mem_filter, isPendingReimbursement_iff]
    exact ⟨List.mem_append_right _ (List.mem_singleton_self e), rfl, hfor, rfl, rfl⟩
  · show (settleReimbursement db1 owner newId settledAt).1.status = 200
    rw [h2]
  · show ∃ paid : Expense, (settleReimbursement db1 owner newId settledAt).2.expenses
      = db.expenses ++ [paid] ∧ _
    rw [h2]
    exact ⟨markExpensePaid settledAt e, rfl, rfl, rfl, rfl, rfl, rfl, hfor⟩
  · show ∃ l, listPendingReimbursements (settleReimbursement db1 owner newId settledAt).2
      owner tripId = .ok l ∧ _
    rw [h2]
    refine ⟨_, hl2, ?_⟩
    intro x hx heq
    have hmem : x.expense ∈ db2.expenses.filter
        (isPendingReimbursement oid (reqUserId owner)) := by
      have := List.mem_map_of_mem (·.expense) hx
      rwa [map_expense_format] at this
    rw [List.mem_filter, isPendingReimbursement_iff] at hmem
    obtain ⟨hin, _, _, _, hpaid⟩ := hmem
    rcases List.mem_append.1 hin with hold | hnew
    · exact hfresh (List.mem_map.2 ⟨x.expense, hold, heq⟩)
    · rw [List.mem_singleton.1 hnew] at hpaid
      exact Bool.noConfusion hpaid

/-- Witness of C22: Carl records the taxi fare on the example trip and Olga
settles it at time 80. -/
theorem C22_record_list_settle_witness :
    (recordCollaborationExpense exampleRuntime dbAccepted asCarl tripT (.num (.fin 45))
      "taxi" "Transportation" .absent .undefined 70 expenseE1).1.status = 201 ∧
    (recordCollaborationExpense exampleRuntime dbAccepted asCarl tripT (.num (.fin 45))
      "taxi" "Transportation" .absent .undefined 70 expenseE1).2.expenses =
        dbAccepted.expenses ++
        [collaborationExpense exampleRuntime asCarl tripT tripAccepted (.num (.fin 45)) "taxi"
          "Transportation" .absent 70 expenseE1] ∧
    (∃ l, listPendingReimbursements (recordCollaborationExpense exampleRuntime dbAccepted
        asCarl tripT (.num (.fin 45)) "taxi" "Transportation" .absent .undefined 70
        expenseE1).2 asOlga tripT = .ok l ∧
      collaborationExpense exampleRuntime asCarl tripT tripAccepted (.num (.fin 45)) "taxi"
        "Transportation" .absent 70 expenseE1 ∈ l.map (·.expense)) ∧
    (collaborationExpense exampleRuntime asCarl tripT tripAccepted (.num (.fin 45)) "taxi"
      "Transportation" .absent 70 expenseE1).forUserId = some (reqUserId asOlga) ∧
    (collaborationExpense exampleRuntime asCarl tripT tripAccepted (.num (.fin 45)) "taxi"
      "Transportation" .absent 70 expenseE1).isPaid = false ∧
    (settleReimbursement (recordCollaborationExpense exampleRuntime dbAccepted asCarl tripT
      (.num (.fin 45)) "taxi" "Transportation" .absent .undefined 70 expenseE1).2 asOlga
      expenseE1 80).1.status = 200 ∧
    (∃ paid : Expense,
      (settleReimbursement (recordCollaborationExpense exampleRuntime dbAccepted asCarl tripT
        (.num (.fin 45)) "taxi" "Transportation" .absent .undefined 70 expenseE1).2 asOlga
        expenseE1 80).2.expenses = dbAccepted.expenses ++ [paid] ∧
      paid._id = expenseE1 ∧ paid.isPaid = true ∧
      paid.amount = (collaborationExpense exampleRuntime asCarl tripT tripAccepted
        (.num (.fin 45)) "taxi" "Transportation" .absent 70 expenseE1).amount ∧
      paid.userId = reqUserId asCarl ∧ paid.tripId = tripT ∧
      paid.forUserId = some (reqUserId asOlga)) ∧
    (∃ l, listPendingReimbursements (settleReimbursement (recordCollaborationExpense
        exampleRuntime dbAccepted asCarl tripT (.num (.fin 45)) "taxi" "Transportation"
        .absent .undefined 70 expenseE1).2 asOlga expenseE1 80).2 asOlga tripT = .ok l ∧
      ∀ x ∈ l, x.expense._id ≠ expenseE1) :=
  C22_record_list_settle exampleRuntime dbAccepted asCarl asOlga tripT (.num (.fin 45))
    "taxi" "Transportation" .absent .undefined 70 expenseE1 tripT tripAccepted
    ⟨carl._id, .fin 200, .accepted, false, none⟩ 80 (by decide) (by decide) (by decide)
    (by decide) (by decide) (by decide) (by decide) (by decide) (by decide) (by decide)
    (by decide) (by decide) (by decide) (by decide) (by decide)

/-- C24 fails as stated: Carl answers "accepted" for the trip id "xyz", which
is not an ObjectId, so no trip has it. The status text is valid, and the
call is answered neither 404 nor 200 nor 400 but 500, with the message of
the catch block; the store is as before. -/
theorem C24_counterexample :
    Reachable exampleRuntime dbPending ∧
    castObjectId "xyz" = none ∧
    respond dbPending asCarl "xyz" "accepted" =
      (⟨500, .error "Failed to respond to collaboration request"⟩, dbPending) ∧
    (respond dbPending asCarl "xyz" "accepted").1.status ≠ 404 ∧
    (respond dbPending asCarl "xyz" "accepted").1.status ≠ 200 ∧
    (respond dbPending asCarl "xyz" "accepted").1.status ≠ 400 :=
  ⟨reachable_dbPending, by decide, by decide, by decide, by decide, by decide⟩

/-- C24 as amended: for an authenticated caller, respond is answered 400
exactly when the status text is neither "accepted" nor "declined", whatever
the trip id and the store; with a valid status and a trip id that is an
ObjectId it is answered 404 when no trip has that id or the trip has no
entry of the caller, and otherwise it is answered 200 and the stored trip
has the same entries except that the first entry of the caller has the sent
status; with a valid status and a trip id that is not an ObjectId it is
answered 500; every call that is not answered 200 leaves the store as it
was. -/
theorem C24_respond_outcomes (db : Db) (user : Option ReqUser) (tripId : String)
    (status : String) (hauth : unauthenticated user = false) :
    ((respond db user tripId status).1.status = 400 ↔
      (status ≠ "accepted" ∧ status ≠ "declined")) ∧
    (∀ oid, (status = "accepted" ∨ status = "declined") → castObjectId tripId = some oid →
      (findTripById db.trips oid = none → (respond db user tripId status).1.status = 404) ∧
      (∀ trip, findTripById db.trips oid = some trip →
        (∀ c ∈ trip.collaborators, c.user ≠ reqUserId user) →
        (respond db user tripId status).1.status = 404) ∧
      (∀ trip c, findTripById db.trips oid = some trip → c ∈ trip.collaborators →
        c.user = reqUserId user →
        (respond db user tripId status).1.status = 200 ∧
        ∃ i entry, trip.collaborators.get? i = some entry ∧ entry.user = reqUserId user ∧
          findTripById (respond db user tripId status).2.trips oid =
            some { trip with collaborators := modifyAt (setStatus (statusOfText status)) i trip.collaborators } ∧
          (modifyAt (setStatus (statusOfText status)) i trip.collaborators).get? i =
            some { entry with status := statusOfText status } ∧
          (status = "accepted" → statusOfText status = .accepted) ∧
          (status = "declined" → statusOfText status = .declined))) ∧
    ((status = "accepted" ∨ status = "declined") → castObjectId tripId = none →
      respond db user tripId status =
        (⟨500, .error "Failed to respond to collaboration request"⟩, db)) ∧
    ((respond db user tripId status).1.status ≠ 200 → (respond db user tripId status).2 = db) := by
  have h1 : ¬ unauthenticated user = true := by simp [hauth]
  refine ⟨?_, ?_, ?_, ?_⟩
  · constructor
    · intro h
      by_contra h2
      cases hcast : castObjectId tripId with
      | none => simp only [respond, h1, h2, hcast] at h; simp at h
      | some oid =>
        cases hfind : findTripById db.trips oid with
        | none => simp only [respond, h1, h2, hcast, hfind] at h; simp at h
        | some trip =>
          cases hidx : findIndex (fun collab => collab.user == reqUserId user)
              trip.collaborators with
          | none => simp only [respond, h1, h2, hcast, hfind, hidx] at h; simp at h
          | some i => simp only [respond, h1, h2, hcast, hfind, hidx] at h; simp at h
    · intro h2
      unfold respond
      rw [if_neg h1, if_pos h2]
  · intro oid hstatus hcast
    have h2 : ¬ (status ≠ "accepted" ∧ status ≠ "declined") := by
      rcases hstatus with h | h <;> simp [h]
    refine ⟨?_, ?_, ?_⟩
    · intro hfind
      simp only [respond, h1, h2, hcast, hfind]
      simp
    · intro trip hfind hnone
      have hidx : findIndex (fun collab => collab.user == reqUserId user)
          trip.collaborators = none :=
        (findIndex_none _ _).2 (fun c hc => by simpa using hnone c hc)
      simp only [respond, h1, h2, hcast, hfind, hidx]
      simp
    · intro trip c hfind hc hcu
      obtain ⟨i, hidx⟩ := findIndex_isSome_of_mem
        (fun collab => collab.user == reqUserId user) trip.collaborators c hc (by simp [hcu])
      obtain ⟨entry, hentry, hp⟩ := findIndex_some _ _ _ hidx
      rw [respond_ok db user tripId status oid trip i hauth hstatus hcast hfind hidx]
      refine ⟨rfl, i, entry, hentry, by simpa using hp, ?_, ?_, ?_, ?_⟩
      · exact findTripById_saveTrip db.trips oid trip _ hfind (findTripById_some hfind).2
      · rw [modifyAt_get?_eq, hentry]
        rfl
      · intro h
        simp [statusOfText, h]
      · intro h
        simp [statusOfText, h]
  · intro hstatus hcast
    have h2 : ¬ (status ≠ "accepted" ∧ status ≠ "declined") := by
      rcases hstatus with h | h <;> simp [h]
    simp only [respond, h1, h2, hcast]
    simp
  · intro hne
    by_cases h2 : status ≠ "accepted" ∧ status ≠ "declined"
    · unfold respond
      rw [if_neg h1, if_pos h2]
    cases hcast : castObjectId tripId with
    | none => simp only [respond, h1, h2, hcast]; simp
    | some oid =>
      cases hfind : findTripById db.trips oid with
      | none => simp only [respond, h1, h2, hcast, hfind]; simp
      | some trip =>
        cases hidx : findIndex (fun collab => collab.user == reqUserId user)
            trip.collaborators with
        | none => simp only [respond, h1, h2, hcast, hfind, hidx]; simp
        | some i =>
          exfalso
          apply hne
          simp only [respond, h1, h2, hcast, hfind, hidx]
          simp

/-- Witness of the amended C24: Carl answers "accepted" on the example trip
while his entry is pending. -/
theorem C24_respond_outcomes_witness :
    ((respond dbPending asCarl tripT "accepted").1.status = 400 ↔
      ("accepted" ≠ "accepted" ∧ "accepted" ≠ "declined")) ∧
    (∀ oid, ("accepted" = "accepted" ∨ "accepted" = "declined") →
      castObjectId tripT = some oid →
      (findTripById dbPending.trips oid = none →
        (respond dbPending asCarl tripT "accepted").1.status = 404) ∧
      (∀ trip, findTripById dbPending.trips oid = some trip →
        (∀ c ∈ trip.collaborators, c.user ≠ reqUserId asCarl) →
        (respond dbPending asCarl tripT "accepted").1.status = 404) ∧
      (∀ trip c, findTripById dbPending.trips oid = some trip → c ∈ trip.collaborators →
        c.user = reqUserId asCarl →
        (respond dbPending asCarl tripT "accepted").1.status = 200 ∧
        ∃ i entry, trip.collaborators.get? i = some entry ∧ entry.user = reqUserId asCarl ∧
          findTripById (respond dbPending asCarl tripT "accepted").2.trips oid =
            some { trip with collaborators := modifyAt (setStatus (statusOfText "accepted")) i trip.collaborators } ∧
          (modifyAt (setStatus (statusOfText "accepted")) i trip.collaborators).get? i =
            some { entry with status := statusOfText "accepted" } ∧
          ("accepted" = "accepted" → statusOfText "accepted" = .accepted) ∧
          ("accepted" = "declined" → statusOfText "accepted" = .declined))) ∧
    (("accepted" = "accepted" ∨ "accepted" = "declined") → castObjectId tripT = none →
      respond dbPending asCarl tripT "accepted" =
        (⟨500, .error "Failed to respond to collaboration request"⟩, dbPending)) ∧
    ((respond dbPending asCarl tripT "accepted").1.status ≠ 200 →
      (respond dbPending asCarl tripT "accepted").2 = dbPending) :=
  C24_respond_outcomes dbPending asCarl tripT "accepted" (by decide)

/-! ## Settled claims, identifiers and invariants -/

theorem respond_malformed (db : Db) (user : Option ReqUser) (tripId : String)
    (status : String) (hauth : unauthenticated user = false)
    (hstatus : status = "accepted" ∨ status = "declined")
    (hid : castObjectId tripId = none) :
    respond db user tripId status =
      (⟨500, .error "Failed to respond to collaboration request"⟩, db) := by
  have h1 : ¬ unauthenticated user = true := by simp [hauth]
  have h2 : ¬ (status ≠ "accepted" ∧ status ≠ "declined") := by
    rcases hstatus with h | h <;> simp [h]
  simp only [respond, h1, h2, hid]
  simp

theorem removeCollaborator_malformed (db : Db) (user : Option ReqUser) (tripId : String)
    (userId : String) (hauth : unauthenticated user = false)
    (hid : castObjectId tripId = none) :
    removeCollaborator db user tripId userId =
      (⟨500, .error "Failed to remove collaborator"⟩, db) := by
  simp [removeCollaborator, hauth, hid]

/-- C25 does not hold for respond and remove: the text "xyz" is not an id of
24 hexadecimal characters, and respond and remove answer it as trip id with
500, remove answers it as user id with 404, while invite, listCollaborators,
payContribution, recordCollaborationExpense, listPendingReimbursements and
settleReimbursement answer it with 400. -/
theorem C25_malformed_id_not_rejected :
    isHex24 "xyz" = false ∧
    respond dbPending asCarl "xyz" "accepted" =
      (⟨500, .error "Failed to respond to collaboration request"⟩, dbPending) ∧
    removeCollaborator dbPending asOlga "xyz" carl._id =
      (⟨500, .error "Failed to remove collaborator"⟩, dbPending) ∧
    removeCollaborator dbPending asOlga tripT "xyz" =
      (⟨404, .error "Collaborator not found"⟩, dbPending) ∧
    (invite exampleRuntime dbPending asOlga "xyz" "dora@example.com" .undefined).1.status
      = 400 ∧
    (∃ r, listCollaborators dbPending asOlga "xyz" = .error r ∧ r.status = 400) ∧
    (payContribution exampleRuntime dbAccepted asCarl "xyz" 50 expenseE1).1.status = 400 ∧
    (recordCollaborationExpense exampleRuntime dbAccepted asCarl "xyz" (.num (.fin 45)) "taxi"
      "Transportation" .absent .undefined 70 expenseE1).1.status = 400 ∧
    (∃ r, listPendingReimbursements dbRecorded asOlga "xyz" = .error r ∧ r.status = 400) ∧
    (settleReimbursement dbRecorded asOlga "xyz" 80).1.status = 400 := by
  refine ⟨by decide, by decide, by decide, by decide, by decide, ⟨_, rfl, rfl⟩, by decide,
    by decide, ⟨_, rfl, rfl⟩, by decide⟩

theorem tripStep_paid_not_pending (actor : String) (t t' : Trip)
    (hP : ∀ c ∈ t.collaborators, c.hasPaid = true → c.status ≠ .pending)
    (h : TripStep actor t t') :
    ∀ c ∈ t'.collaborators, c.hasPaid = true → c.status ≠ .pending := by
  cases h with
  | same => exact hP
  | updated t' _ _ _ hcs =>
    rw [hcs]
    exact hP
  | invited u b _ _ _ =>
    intro c hc hpaid
    rcases List.mem_append.1 hc with hm | hm
    · exact hP c hm hpaid
    · rw [List.mem_singleton.1 hm] at hpaid
      exact Bool.noConfusion hpaid
  | responded i st hst _ =>
    intro c hc hpaid
    rcases mem_modifyAt _ _ _ _ hc with hm | ⟨a, _, e⟩
    · exact hP c hm hpaid
    · rw [e]
      exact hst
  | removed i _ =>
    intro c hc hpaid
    exact hP c ((spliceOne_sublist i t.collaborators).subset hc) hpaid
  | paid i now hi =>
    intro c hc hpaid
    rcases mem_modifyAt _ _ _ _ hc with hm | ⟨a, ha, e⟩
    · exact hP c hm hpaid
    · obtain ⟨a', ha', hpa⟩ := findIndex_some _ _ _ hi
      rw [ha] at ha'
      cases ha'
      simp only [Bool.and_eq_true, beq_iff_eq] at hpa
      rw [e]
      show a.status ≠ .pending
      rw [hpa.2]
      decide

/-- C26 fails as stated: Carl accepts, pays his contribution and then answers
"declined"; the store is reachable by invite, respond and payContribution
on a created trip, and his entry has `hasPaid = true` with status declined. -/
theorem C26_counterexample :
    Reachable exampleRuntime dbDeclinedAfterPaying ∧
    dbDeclinedAfterPaying.trips.map
        (fun t => t.collaborators.map (fun c => (c.user, c.status, c.hasPaid)))
      = [[(carl._id, .declined, true)]] ∧
    ¬ (∀ t ∈ dbDeclinedAfterPaying.trips, ∀ c ∈ t.collaborators,
        c.hasPaid = true → c.status = .accepted) := by
  refine ⟨reachable_run (Reachable.init _) opsDeclinedAfterPaying (by decide), by decide, ?_⟩
  decide

/-- C26, amended: in every reachable store an entry with `hasPaid = true` is
not pending, so its status is accepted or declined. -/
theorem C26_paid_entry_not_pending (rt : JsRuntime) (db : Db) (hr : Reachable rt db) :
    ∀ t ∈ db.trips, ∀ c ∈ t.collaborators, c.hasPaid = true →
      c.status = .accepted ∨ c.status = .declined := by
  have key : ∀ t ∈ db.trips, ∀ c ∈ t.collaborators, c.hasPaid = true →
      c.status ≠ .pending := by
    induction hr with
    | init users => simp
    | step db op _ hf ih =>
      exact tripsStep_forall _ (fun t ht => by rw [ht]; simp) tripStep_paid_not_pending
        (exec_tripsStep rt db op hf) ih
  intro t ht c hc hpaid
  have := key t ht c hc hpaid
  cases hs : c.status with
  | pending => exact absurd hs this
  | accepted => exact Or.inl rfl
  | declined => exact Or.inr rfl

/-- Witness of C26, amended: the store in which Carl has paid. -/
theorem C26_paid_entry_not_pending_witness :
    Reachable exampleRuntime dbPaid ∧
    ∀ t ∈ dbPaid.trips, ∀ c ∈ t.collaborators, c.hasPaid = true →
      c.status = .accepted ∨ c.status = .declined :=
  ⟨reachable_dbPaid, C26_paid_entry_not_pending exampleRuntime dbPaid reachable_dbPaid⟩

/-- C27 does not hold: in the reachable store where Carl is accepted and Dora
is pending on the trip of Olga, the trip listing for Dora returns that trip,
although Dora does not own it and her own entry is pending; the filter on
`collaborators.status` is matched by the entry of Carl. -/
theorem C27_listing_returns_pending_trip :
    Reachable exampleRuntime dbMixed ∧
    tripMixed.userId ≠ reqUserId asDora ∧
    tripMixed.collaborators.map (fun c => (c.user, c.status))
      = [(carl._id, .accepted), (dora._id, .pending)] ∧
    reqUserId asDora = dora._id ∧
    listTrips dbMixed asDora = .ok [⟨tripMixed, some (some olga)⟩] :=
  ⟨reachable_dbMixed, by decide, by decide, by decide, rfl⟩

theorem getTripById_all_expenses (db : Db) (user : Option ReqUser) :
    ∃ r, getTripById db user "all-expenses" = .error r ∧ (r.status = 401 ∨ r.status = 400) := by
  have hbad : isValidObjectId "all-expenses" = false := by decide
  by_cases h : unauthenticated user = true
  · exact ⟨⟨401, .error "Authentication failed. User ID not found."⟩,
      by simp [getTripById, h], Or.inl rfl⟩
  · exact ⟨⟨400, .error "Invalid trip ID format. The ID must be a valid MongoDB ObjectId."⟩,
      by simp [getTripById, h, hbad], Or.inr rfl⟩

/-- C28 does not hold: the router hands GET `/all-expenses` to the handler
of `/:id`, which is registered before the handler of `/all-expenses`, with
`req.params.id = "all-expenses"`; that handler answers every such request
with 401 or 400, and an authenticated user with a well-formed user id gets
400 "Invalid trip ID format". -/
theorem C28_all_expenses_shadowed :
    dispatch "GET" ["all-expenses"] tripRouter
      = some (.getTripById, [("id", "all-expenses")]) ∧
    dispatch "GET" ["all-expenses"] tripRouter ≠ some (.allExpenses, []) ∧
    isValidObjectId (reqUserId asOlga) = true ∧
    getTripById dbRecorded asOlga "all-expenses" =
      .error ⟨400, .error "Invalid trip ID format. The ID must be a valid MongoDB ObjectId."⟩ ∧
    ∀ (db : Db) (user : Option ReqUser),
      ∃ r, getTripById db user "all-expenses" = .error r ∧ (r.status = 401 ∨ r.status = 400) :=
  ⟨by decide, by decide, by decide, rfl, getTripById_all_expenses⟩

/-- C30: the answer and the store after recordCollaborationExpense do not
depend on the `forUserId` of the body; for an accepted collaborator with
valid input both requests add the same expense, whose `forUserId` is the
owner of the trip. -/
theorem C30_for_user_id_ignored (rt : JsRuntime) (db : Db) (user : Option ReqUser)
    (tripId : String) (amount : JsVal) (description : String) (category : String)
    (date : DateField) (forUserId1 forUserId2 : JsVal) (now : Int) (newId : ObjectId)
    (oid : ObjectId) (trip : Trip) (c : Collaborator)
    (hauth : unauthenticated user = false)
    (hcast : castObjectId tripId = some oid) (hfind : findTripById db.trips oid = some trip)
    (hc : c ∈ trip.collaborators) (hcu : c.user = reqUserId user)
    (hcs : c.status = .accepted) (hamount : amount.truthy = true)
    (hnum : (amount.toNumber rt).isNaN = false) (hdesc : description ≠ "")
    (hcat : storedCategory rt category ≠ "") (hdate : date.invalid = false) :
    recordCollaborationExpense rt db user tripId amount description category date forUserId1
        now newId =
      recordCollaborationExpense rt db user tripId amount description category date
        forUserId2 now newId ∧
    ∃ e : Expense,
      (recordCollaborationExpense rt db user tripId amount description category date
        forUserId1 now newId).1.status = 201 ∧
      (recordCollaborationExpense rt db user tripId amount description category date
        forUserId1 now newId).2.expenses = db.expenses ++ [e] ∧
      (recordCollaborationExpense rt db user tripId amount description category date
        forUserId2 now newId).2.expenses = db.expenses ++ [e] ∧
      e.forUserId = some trip.userId := by
  rw [recordCollaborationExpense_ok rt db user tripId amount description category date
      forUserId1 now newId oid trip c hauth hcast hfind hc hcu hcs hamount hnum hdesc hcat
      hdate,
    recordCollaborationExpense_ok rt db user tripId amount description category date
      forUserId2 now newId oid trip c hauth hcast hfind hc hcu hcs hamount hnum hdesc hcat
      hdate]
  exact ⟨rfl, _, rfl, rfl, rfl, rfl⟩

/-- Witness of C30: Carl records the taxi fare once without `forUserId` and
once naming Dora. -/
theorem C30_for_user_id_ignored_witness :
    recordCollaborationExpense exampleRuntime dbAccepted asCarl tripT (.num (.fin 45)) "taxi"
        "Transportation" .absent .undefined 70 expenseE1 =
      recordCollaborationExpense exampleRuntime dbAccepted asCarl tripT (.num (.fin 45))
        "taxi" "Transportation" .absent (.str dora._id) 70 expenseE1 ∧
    ∃ e : Expense,
      (recordCollaborationExpense exampleRuntime dbAccepted asCarl tripT (.num (.fin 45))
        "taxi" "Transportation" .absent .undefined 70 expenseE1).1.status = 201 ∧
      (recordCollaborationExpense exampleRuntime dbAccepted asCarl tripT (.num (.fin 45))
        "taxi" "Transportation" .absent .undefined 70 expenseE1).2.expenses
          = dbAccepted.expenses ++ [e] ∧
      (recordCollaborationExpense exampleRuntime dbAccepted asCarl tripT (.num (.fin 45))
        "taxi" "Transportation" .absent (.str dora._id) 70 expenseE1).2.expenses
          = dbAccepted.expenses ++ [e] ∧
      e.forUserId = some tripAccepted.userId :=
  C30_for_user_id_ignored exampleRuntime dbAccepted asCarl tripT (.num (.fin 45)) "taxi"
    "Transportation" .absent .undefined (.str dora._id) 70 expenseE1 tripT tripAccepted
    ⟨carl._id, .fin 200, .accepted, false, none⟩ (by decide) (by decide) (by decide)
    (by decide) (by decide) (by decide) (by decide) (by decide) (by decide) (by decide)
    (by decide)

/-! ## Settled claims, the amount of a receipt -/

theorem amountPatterns_no_ig : ∀ p ∈ amountPatterns, includes p.toString "ig" = false := by
  decide

theorem amountLoop_no_match (rt : JsRuntime) (re : RegExpRuntime) (lowerText : String)
    (pattern : RegExp) (rest : List RegExp) (hig : includes pattern.toString "ig" = false)
    (hnone : re.execAll pattern lowerText = []) :
    amountLoop rt re lowerText (pattern :: rest) = amountLoop rt re lowerText rest := by
  have hm : stringMatch re lowerText pattern = none := by
    unfold stringMatch
    rw [hnone]
    by_cases hg : includes pattern.flags "g" = true <;> simp [hg]
  rw [amountLoop]
  simp [hig, hm]

/-- What `extractReceiptData` makes of a text in which no keyword pattern
matches, for every engine: the last pattern goes through the branch of
the keyword patterns, where `match` gives the array of all matched texts, so
the amount is read from the second decimal amount of the text and is null
when there is only one. -/
theorem extractReceiptData_second_match (rt : JsRuntime) (re : RegExpRuntime)
    (text : String) (htext : text ≠ "")
    (hkw : ∀ p ∈ amountPatterns, p.flags = "i" → re.execAll p (re.toLowerCase text) = []) :
    extractReceiptData rt re text =
      match re.execAll ⟨"(\\d+[.,]\\d\x7b2\x7d)", "gi"⟩ (re.toLowerCase text) with
      | _ :: second :: _ =>
        if second.text ≠ "" then
          .ok (some (rt.stringParseFloat (commaToPoint second.text)))
        else .ok none
      | _ => .ok none := by
  unfold extractReceiptData
  rw [if_neg htext]
  unfold amountPatterns
  rw [amountLoop_no_match rt re _ _ _ (by decide) (hkw _ (by simp [amountPatterns]) rfl),
    amountLoop_no_match rt re _ _ _ (by decide) (hkw _ (by simp [amountPatterns]) rfl),
    amountLoop_no_match rt re _ _ _ (by decide) (hkw _ (by simp [amountPatterns]) rfl),
    amountLoop_no_match rt re _ _ _ (by decide) (hkw _ (by simp [amountPatterns]) rfl),
    amountLoop_no_match rt re _ _ _ (by decide) (hkw _ (by simp [amountPatterns]) rfl),
    amountLoop_no_match rt re _ _ _ (by decide) (hkw _ (by simp [amountPatterns]) rfl),
    amountLoop_no_match rt re _ _ _ (by decide) (hkw _ (by simp [amountPatterns]) rfl)]
  have hig : includes (RegExp.toString ⟨"(\\d+[.,]\\d\x7b2\x7d)", "gi"⟩) "ig" = false := by
    decide
  have hg : includes "gi" "g" = true := by decide
  rw [amountLoop]
  simp only [hig, stringMatch, hg]
  cases h : re.execAll ⟨"(\\d+[.,]\\d\x7b2\x7d)", "gi"⟩ (re.toLowerCase text) with
  | nil => simp [amountLoop]
  | cons first ms =>
    cases ms with
    | nil => simp [amountLoop]
    | cons second ms => by_cases hs : second.text = "" <;> simp [amountLoop, hs]

/-- C29 does not hold: the text of the last pattern is `/(\d+[.,]\d{2})/gi`,
in which "ig" does not occur, so no pattern takes the branch that looks for
the largest amount. On the text "12.50" no keyword pattern matches, the one
decimal amount is 12.50 and the amount is null; on the text "99.00 5.00"
the decimal amounts are 99.00 and 5.00 and the amount is read from "5.00",
the second one. -/
theorem C29_largest_amount_not_returned :
    RegExp.toString ⟨"(\\d+[.,]\\d\x7b2\x7d)", "gi"⟩ = "/(\\d+[.,]\\d\x7b2\x7d)/gi" ∧
    (∀ p ∈ amountPatterns, includes p.toString "ig" = false) ∧
    amountPatterns.map (fun p => digitsRegExp.execAll p "12.50")
      = [[], [], [], [], [], [], [], [⟨"12.50", ["12.50"]⟩]] ∧
    (∀ rt : JsRuntime, extractReceiptData rt digitsRegExp "12.50" = .ok none) ∧
    amountPatterns.map (fun p => digitsRegExp.execAll p "99.00 5.00")
      = [[], [], [], [], [], [], [], [⟨"99.00", ["99.00"]⟩, ⟨"5.00", ["5.00"]⟩]] ∧
    (∀ rt : JsRuntime, extractReceiptData rt digitsRegExp "99.00 5.00"
      = .ok (some (rt.stringParseFloat "5.00"))) := by
  refine ⟨by decide, by decide, by decide, fun rt => ?_, by decide, fun rt => ?_⟩
  · rw [extractReceiptData_second_match rt digitsRegExp "12.50" (by decide) (by decide)]
    rfl
  · rw [extractReceiptData_second_match rt digitsRegExp "99.00 5.00" (by decide) (by decide)]
    rfl

end Expensio
